import Mathlib

/-!
# Sun position calculator

A shallow embedding of `utils/solar_calculator.go` (and of the time-zone
arithmetic of `handlers/handlers.go`) together with proofs of the properties
its specification states.

Modelling conventions.

* Go `int` values are Lean integers.  Every integer handled here is a calendar
  field or a day count, far from the 64-bit bound.
* Go `float64` values are idealised as real numbers: rounding error, overflow
  to infinity and signed zeros are not represented.  A quotient whose divisor
  can be zero is formed with `F64.div`, which follows IEEE 754 for a zero
  divisor (`x/0` is `+Inf`, `-Inf` or `NaN`), so such a quotient is an `F64`.
* `time.Time` is an absolute instant (nanoseconds since 0001-01-01T00:00:00Z)
  together with a location; `Date` and `Clock` read the proleptic Gregorian
  calendar in that location, as Go's `time` package does.
-/

namespace SunPosition

/-! ## Day of year (`isLeapYear`, `daysSinceJan1`) -/

/-- Go `isLeapYear`: `(year%4 == 0) && (year%100 != 0) || (year%400 == 0)`.
Go's `%` truncates towards zero, which is `Int.tmod`. -/
def isLeapYear (year : Int) : Bool :=
  (year.tmod 4 == 0 && year.tmod 100 != 0) || year.tmod 400 == 0

/-- The slice `daysInMonth` of `daysSinceJan1`, after the update
`daysInMonth[1] = 29` that a leap year triggers. -/
def daysInMonth (year : Int) : List Int :=
  let tbl : List Int := [31, 28, 31, 30, 31, 30, 31, 31, 30, 31, 30, 31]
  if isLeapYear year then tbl.set 1 29 else tbl

/-- Go `daysSinceJan1`.  The loop `for i := 0; i < int(month)-1; i++` adds
`daysInMonth[i]`; an index outside the slice is a run-time panic, which is the
result `none`. -/
def daysSinceJan1 (year month day : Int) : Option Int := do
  let tbl := daysInMonth year
  let totalDays ← (List.range (month - 1).toNat).foldlM
    (fun (total : Int) (i : Nat) => (tbl[i]?).map (fun d => total + d)) 0
  pure (totalDays + day)

/-! ### The calendar as the specification words it -/

/-- The leap-year rule in the specification's words: divisible by 4 and not
by 100, or divisible by 400. -/
def SpecLeap (year : Int) : Prop :=
  (4 ∣ year ∧ ¬ 100 ∣ year) ∨ 400 ∣ year

instance (year : Int) : Decidable (SpecLeap year) := by
  unfold SpecLeap; infer_instance

/-- Length of month `m` (1 = January) in the specification's words: the
standard lengths, with February 29 in a leap year. -/
def specMonthLength (year : Int) (m : Nat) : Int :=
  match m with
  | 1 => 31
  | 2 => if SpecLeap year then 29 else 28
  | 3 => 31
  | 4 => 30
  | 5 => 31
  | 6 => 30
  | 7 => 31
  | 8 => 31
  | 9 => 30
  | 10 => 31
  | 11 => 30
  | 12 => 31
  | _ => 0

/-- Day of year in the specification's words: the lengths of the months
before `month`, summed, plus the day of the month. -/
def specDayOfYear (year month day : Int) : Int :=
  ((List.range (month - 1).toNat).map (fun i => specMonthLength year (i + 1))).sum + day

/-! ## `time.Time`

The `time` package is Go's standard library; the definitions below state the
behaviour its documentation gives for the operations the calculator uses. -/

/-- A non-nil `*time.Location` as built by `time.FixedZone`: a name and an
offset in seconds east of UTC. -/
structure Location where
  name : String
  offset : Int
  deriving DecidableEq

/-- Go `time.Time`: the instant in nanoseconds since 0001-01-01T00:00:00Z and the
location pointer, `none` being Go's `nil` (UTC). -/
structure Time where
  abs : Int
  loc : Option Location
  deriving DecidableEq

/-- Go `time.FixedZone`. -/
def FixedZone (name : String) (offset : Int) : Location := ⟨name, offset⟩

/-- The zero value `time.Time{}`: 0001-01-01T00:00:00Z with a nil location. -/
def Time.zero : Time := ⟨0, none⟩

/-- Go `Time.IsZero`: the instant is 0001-01-01T00:00:00Z, whatever the location. -/
def Time.IsZero (t : Time) : Bool := t.abs == 0

/-- Offset of the location of `t`, in seconds east of UTC. -/
def Time.offset (t : Time) : Int :=
  match t.loc with
  | none => 0
  | some l => l.offset

/-- Go `Time.In`: the same instant, read in location `l`. -/
def Time.In (t : Time) (l : Location) : Time := ⟨t.abs, some l⟩

/-- Go `Time.Add` for a `time.Duration` of `d` nanoseconds. -/
def Time.Add (t : Time) (d : Int) : Time := ⟨t.abs + d, t.loc⟩

/-- Seconds since 0001-01-01T00:00:00 on the wall clock of the location of `t`. -/
def Time.localSec (t : Time) : Int := t.abs / 1000000000 + t.offset

/-- Days from 0001-01-01 to January 1 of `year` in the proleptic Gregorian calendar. -/
def daysBeforeYear (year : Int) : Int :=
  365 * (year - 1) + (year - 1) / 4 - (year - 1) / 100 + (year - 1) / 400

/-- Days before month index `m` (0 = January) in a non-leap year. -/
def daysBeforeMonth (m : Int) : Int :=
  if m ≤ 0 then 0 else if m = 1 then 31 else if m = 2 then 59 else if m = 3 then 90
  else if m = 4 then 120 else if m = 5 then 151 else if m = 6 then 181 else if m = 7 then 212
  else if m = 8 then 243 else if m = 9 then 273 else if m = 10 then 304 else 334

/-- Month (1 = January) of the zero-based day `yday` of a year. -/
def monthOfYday (leap : Bool) (yday : Int) : Int :=
  let f : Int := if leap then 1 else 0
  if yday < 31 then 1
  else if yday < 59 + f then 2
  else if yday < 90 + f then 3
  else if yday < 120 + f then 4
  else if yday < 151 + f then 5
  else if yday < 181 + f then 6
  else if yday < 212 + f then 7
  else if yday < 243 + f then 8
  else if yday < 273 + f then 9
  else if yday < 304 + f then 10
  else if yday < 334 + f then 11
  else 12

/-- Days of the year before month `month` (1 = January), the leap day included. -/
def daysBefore (leap : Bool) (month : Int) : Int :=
  daysBeforeMonth (month - 1) + (if leap && decide (3 ≤ month) then 1 else 0)

/-- Year, month and day of day number `n` (0 is 0001-01-01): 400-, 100-, 4- and
1-year cycles are cut off in turn. -/
def civilFromDays (n : Int) : Int × Int × Int :=
  let n400 := n / 146097
  let r0 := n % 146097
  let n100 := min (r0 / 36524) 3
  let r1 := r0 - 36524 * n100
  let n4 := r1 / 1461
  let r2 := r1 - 1461 * n4
  let n1 := min (r2 / 365) 3
  let yday := r2 - 365 * n1
  let year := 400 * n400 + 100 * n100 + 4 * n4 + n1 + 1
  let month := monthOfYday (isLeapYear year) yday
  (year, month, yday - daysBefore (isLeapYear year) month + 1)

/-- Go `Time.Date`: year, month and day in the location of `t`. -/
def Time.Date (t : Time) : Int × Int × Int := civilFromDays (t.localSec / 86400)

/-- Go `Time.Clock`: hour, minute and second within the day, in the location of `t`. -/
def Time.Clock (t : Time) : Int × Int × Int :=
  let s := t.localSec % 86400
  (s / 3600, s % 3600 / 60, s % 60)

/-- Go `time.Date(year, month, day, hour, min, sec, nsec, loc)`.  Values outside
their usual ranges are normalised, as in Go: the month carries into the year,
the other fields add linearly. -/
def Date (year month day hour min sec nsec : Int) (loc : Location) : Time :=
  let y := year + (month - 1) / 12
  let m := (month - 1) % 12
  let days := daysBeforeYear y + daysBefore (isLeapYear y) (m + 1) + (day - 1)
  ⟨(days * 86400 + hour * 3600 + min * 60 + sec - loc.offset) * 1000000000 + nsec, some loc⟩

/-! ## `float64` -/

open Classical in
/-- Go `math.Round` on a real number: the nearest integer, halves away from zero. -/
noncomputable def mathRound (x : ℝ) : ℝ :=
  if 0 ≤ x then (⌊x + 1 / 2⌋ : ℝ) else -(⌊-x + 1 / 2⌋ : ℝ)

open Classical in
/-- Go conversion of a `float64` to an integer type (`int(x)`,
`time.Duration(x)`): the fraction is discarded, truncating towards zero.  For a
value outside the integer type's range Go leaves the result to the
implementation; the model truncates there as well. -/
noncomputable def toInt (x : ℝ) : Int :=
  if 0 ≤ x then ⌊x⌋ else ⌈x⌉

/-- A `float64` that may be non-finite: a real number, an infinity, or NaN. -/
inductive F64 where
  | fin (x : ℝ)
  | posInf
  | negInf
  | nan

namespace F64

open Classical in
/-- IEEE 754 quotient `x / y` of two finite values.  A zero divisor gives an
infinity with the sign of `x`, or NaN for `0/0`; the zero is taken as `+0`, the
sign a cosine has next to its zero on the latitude range. -/
noncomputable def div (x y : ℝ) : F64 :=
  if y = 0 then (if 0 < x then posInf else if x < 0 then negInf else nan)
  else fin (x / y)

/-- Go comparison `a > b` for a finite `b`: false when `a` is NaN. -/
def gt (a : F64) (b : ℝ) : Prop :=
  match a with
  | fin x => b < x
  | posInf => True
  | negInf => False
  | nan => False

/-- Go comparison `a < b` for a finite `b`: false when `a` is NaN. -/
def lt (a : F64) (b : ℝ) : Prop :=
  match a with
  | fin x => x < b
  | posInf => False
  | negInf => True
  | nan => False

open Classical in
/-- Product `a * r` with a finite `r`. -/
noncomputable def mulR (a : F64) (r : ℝ) : F64 :=
  match a with
  | fin x => fin (x * r)
  | posInf => if 0 < r then posInf else if r < 0 then negInf else nan
  | negInf => if 0 < r then negInf else if r < 0 then posInf else nan
  | nan => nan

open Classical in
/-- Quotient `a / r` with a finite `r`, a zero `r` counting as `+0`. -/
noncomputable def divR (a : F64) (r : ℝ) : F64 :=
  match a with
  | fin x => div x r
  | posInf => if r < 0 then negInf else posInf
  | negInf => if r < 0 then posInf else negInf
  | nan => nan

/-- Sum `a + r` with a finite `r`. -/
noncomputable def addR (a : F64) (r : ℝ) : F64 :=
  match a with
  | fin x => fin (x + r)
  | posInf => posInf
  | negInf => negInf
  | nan => nan

open Classical in
/-- Go `math.Copysign(m, y)` for a finite magnitude `m ≥ 0`; a zero `y` counts as `+0`. -/
noncomputable def copysign (m : ℝ) (y : F64) : ℝ :=
  match y with
  | fin v => if v < 0 then -m else m
  | posInf => m
  | negInf => -m
  | nan => m

open Classical in
/-- Go `math.Atan2(y, x)`, case by case as in the library: NaN arguments, `y = 0`,
`x = 0`, infinite `x`, infinite `y`, and otherwise `Atan(y/x)` moved to the
quadrant of `(x, y)`. -/
noncomputable def atan2 (y x : F64) : F64 :=
  match y, x with
  | nan, _ => nan
  | _, nan => nan
  | fin v, fin u =>
    if v = 0 then (if 0 ≤ u then fin 0 else fin Real.pi)
    else if u = 0 then fin (copysign (Real.pi / 2) (fin v))
    else
      let q := Real.arctan (v / u)
      if u < 0 then (if q ≤ 0 then fin (q + Real.pi) else fin (q - Real.pi)) else fin q
  | fin v, posInf => fin (copysign 0 (fin v))
  | fin v, negInf => fin (copysign Real.pi (fin v))
  | posInf, fin _ => fin (Real.pi / 2)
  | negInf, fin _ => fin (-(Real.pi / 2))
  | posInf, posInf => fin (Real.pi / 4)
  | negInf, posInf => fin (-(Real.pi / 4))
  | posInf, negInf => fin (3 * Real.pi / 4)
  | negInf, negInf => fin (-(3 * Real.pi / 4))

end F64

/-! ## The solar calculator (`utils/solar_calculator.go`) -/

/-- Go `calculateDeclinationAccurate`: the solar declination in radians. -/
noncomputable def calculateDeclinationAccurate (dayOfYear : Int) : ℝ :=
  let gamma := 2 * Real.pi * ((dayOfYear - 1 : Int) : ℝ) / 365.0
  0.006918 -
    0.399912 * Real.cos gamma +
    0.070257 * Real.sin gamma -
    0.006758 * Real.cos (2 * gamma) +
    0.000907 * Real.sin (2 * gamma) -
    0.002697 * Real.cos (3 * gamma) +
    0.00148 * Real.sin (3 * gamma)

/-- Go `calculateEquationOfTimeAccurate`: the equation of time in minutes. -/
noncomputable def calculateEquationOfTimeAccurate (dayOfYear : Int) : ℝ :=
  let gamma := 2 * Real.pi * ((dayOfYear - 1 : Int) : ℝ) / 365.0
  229.18 * (0.000075 +
    0.001868 * Real.cos gamma -
    0.032077 * Real.sin gamma -
    0.014615 * Real.cos (2 * gamma) -
    0.040849 * Real.sin (2 * gamma))

open Classical in
/-- The loop `for correctedTime < 0 { correctedTime += 24 }` in exact real
arithmetic.  Its termination argument: each pass lowers `⌈-x/24⌉` by one.  The
loop of the `float64` code is `addLoop64`: there a sum can round back to `x`. -/
noncomputable def addLoop (x : ℝ) : ℝ :=
  if x < 0 then addLoop (x + 24) else x
termination_by (⌈-x / 24⌉).toNat
decreasing_by
  have h1 : (0 : ℝ) < -x / 24 := by linarith
  have h2 : 0 < ⌈-x / 24⌉ := Int.ceil_pos.mpr h1
  have h3 : ⌈-(x + 24) / 24⌉ = ⌈-x / 24⌉ - 1 := by
    rw [show -(x + 24) / 24 = -x / 24 - 1 by ring]
    exact Int.ceil_sub_one _
  rw [h3]
  omega

open Classical in
/-- The loop `for correctedTime >= 24 { correctedTime -= 24 }` in exact real
arithmetic.  Its termination argument: each pass lowers `⌊x/24⌋` by one.  The
loop of the `float64` code is `subLoop64`: there a difference can round back to
`x`. -/
noncomputable def subLoop (x : ℝ) : ℝ :=
  if 24 ≤ x then subLoop (x - 24) else x
termination_by (⌊x / 24⌋).toNat
decreasing_by
  have h1 : (1 : ℝ) ≤ x / 24 := by linarith
  have h2 : 1 ≤ ⌊x / 24⌋ := Int.le_floor.mpr (by exact_mod_cast h1)
  have h3 : ⌊(x - 24) / 24⌋ = ⌊x / 24⌋ - 1 := by
    rw [show (x - 24) / 24 = x / 24 - 1 by ring]
    exact Int.floor_sub_one _
  rw [h3]
  omega

/-- The value `standardMeridian` of `calculateSolarTimeAccurate`, in degrees. -/
noncomputable def standardMeridian (longitude : ℝ) : ℝ :=
  mathRound (longitude / 15.0) * 15.0

/-- The value `correctedTime` of `calculateSolarTimeAccurate` before the
normalising loops, from the clock reading `standardTime` in hours. -/
noncomputable def correctedTime (standardTime longitude equationOfTime : ℝ) : ℝ :=
  let standardMeridian := standardMeridian longitude
  let longitudeCorrection := 4.0 * (longitude - standardMeridian)
  let timeCorrection := equationOfTime + longitudeCorrection
  standardTime + timeCorrection / 60.0

/-- The clock reading `standardTime` of `calculateSolarTimeAccurate`, in hours. -/
noncomputable def standardTime (dateTime : Time) : ℝ :=
  let (hour, min, sec) := dateTime.Clock
  (hour : ℝ) + (min : ℝ) / 60.0 + (sec : ℝ) / 3600.0

/-- Go `calculateSolarTimeAccurate`: the solar time in hours. -/
noncomputable def calculateSolarTimeAccurate (dateTime : Time) (longitude equationOfTime : ℝ) : ℝ :=
  subLoop (addLoop (correctedTime (standardTime dateTime) longitude equationOfTime))

/-- The hour angle of `CalculateSunPosition`, in radians:
`hourAngleDeg := (solarTime - 12.0) * 15.0; hourAngle := hourAngleDeg * math.Pi / 180.0`. -/
noncomputable def hourAngle (solarTime : ℝ) : ℝ :=
  (solarTime - 12.0) * 15.0 * Real.pi / 180.0

/-- The value `sinAltitude` of `CalculateSunPosition` in exact real arithmetic.
The value with each product and the sum rounded to `float64` is
`sinAltitude64`. -/
noncomputable def sinAltitude (latRad declinationRad hourAngle : ℝ) : ℝ :=
  Real.sin latRad * Real.sin declinationRad +
    Real.cos latRad * Real.cos declinationRad * Real.cos hourAngle

open Classical in
/-- The value `refractionCorrection` of `CalculateSunPosition`, in degrees, for
the geometric altitude `altitude` in degrees.  In the first branch the divisor
`altitudeRad + 0.089186` is at least 0.079; at the pole `x = π/2` of
the tangent, which no `float64` hits, `0.016667 / math.Tan(x)` has the value 0,
the limit of the quotient there (`Real.tan` and real division give it). -/
noncomputable def refractionCorrection (altitude : ℝ) : ℝ :=
  let altitudeRad := altitude * Real.pi / 180.0
  if altitude > -0.575 then
    0.016667 / Real.tan (altitudeRad + 0.003138 / (altitudeRad + 0.089186))
  else
    0.57644 * Real.exp (-0.00149 * altitude) - 0.07156

open Classical in
/-- The clamp of `cosAzimuth` in `CalculateSunPosition`:
`if cosAzimuth > 1 { cosAzimuth = 1 } else if cosAzimuth < -1 { cosAzimuth = -1 }`. -/
noncomputable def clampCos (cosAzimuth : F64) : F64 :=
  if cosAzimuth.gt 1 then F64.fin 1
  else if cosAzimuth.lt (-1) then F64.fin (-1)
  else cosAzimuth

/-- The value `cosAzimuth` of `CalculateSunPosition` after its clamp, for the
refraction-corrected altitude `altitude` in degrees. -/
noncomputable def cosAzimuth (latRad declinationRad hourAngle altitude : ℝ) : F64 :=
  clampCos (F64.div
    (Real.sin declinationRad * Real.cos latRad -
      Real.cos declinationRad * Real.sin latRad * Real.cos hourAngle)
    (Real.cos (altitude * Real.pi / 180)))

/-- The value `sinAzimuth` of `CalculateSunPosition`, for the refraction-corrected
altitude `altitude` in degrees. -/
noncomputable def sinAzimuth (declinationRad hourAngle altitude : ℝ) : F64 :=
  F64.div (Real.sin hourAngle * Real.cos declinationRad) (Real.cos (altitude * Real.pi / 180))

open Classical in
/-- The azimuth of `CalculateSunPosition`, in degrees, in exact real arithmetic:
`math.Atan2(sinAzimuth, cosAzimuth) * 180 / math.Pi`, plus 360 when negative.
The last step with the sum rounded to `float64` is `normalizeAzimuth64`. -/
noncomputable def azimuthOf (latRad declinationRad hourAngle altitude : ℝ) : F64 :=
  let azimuth := ((F64.atan2 (sinAzimuth declinationRad hourAngle altitude)
    (cosAzimuth latRad declinationRad hourAngle altitude)).mulR 180).divR Real.pi
  if azimuth.lt 0 then azimuth.addR 360 else azimuth

/-- Go `CalculateSunPosition` in exact real arithmetic: the altitude and the
azimuth of the sun, in degrees.  The result is `none` only if `daysSinceJan1`
panics.  The function with every operation rounded to `float64`, where NaN and
a loop without exit can occur, is `CalculateSunPosition64`. -/
noncomputable def CalculateSunPosition (latitude longitude : ℝ) (dateTime : Time) :
    Option (ℝ × F64) := do
  let latRad := latitude * Real.pi / 180
  let (year, month, day) := dateTime.Date
  let dayOfYear ← daysSinceJan1 year month day
  let declinationRad := calculateDeclinationAccurate dayOfYear
  let equationOfTime := calculateEquationOfTimeAccurate dayOfYear
  let solarTime := calculateSolarTimeAccurate dateTime longitude equationOfTime
  let hourAngle := hourAngle solarTime
  let altitude := Real.arcsin (sinAltitude latRad declinationRad hourAngle) * 180 / Real.pi
  let altitude := altitude + refractionCorrection altitude
  pure (altitude, azimuthOf latRad declinationRad hourAngle altitude)

/-- The value `cosH0` of `CalculateSunriseSunset` for a latitude in degrees and
a day of the year. -/
noncomputable def cosH0 (latitude : ℝ) (dayOfYear : Int) : F64 :=
  let decl := calculateDeclinationAccurate dayOfYear
  let latRad := latitude * Real.pi / 180.0
  let h0 := -0.833 * Real.pi / 180.0
  F64.div (Real.sin h0 - Real.sin latRad * Real.sin decl) (Real.cos latRad * Real.cos decl)

/-- The value `solarNoonUTC` of `CalculateSunriseSunset`, in hours. -/
noncomputable def solarNoonUTC (longitude : ℝ) (dayOfYear : Int) : ℝ :=
  12.0 - longitude / 15.0 - calculateEquationOfTimeAccurate dayOfYear / 60.0

/-- The value `deltaHours` of `CalculateSunriseSunset` for a finite `cosH0 = c`:
`H0 := math.Acos(cosH0); deltaHours := H0 * 12.0 / math.Pi`. -/
noncomputable def deltaHours (c : ℝ) : ℝ :=
  Real.arccos c * 12.0 / Real.pi

/-- The value `tzOffsetHours` of `CalculateSunriseSunset`. -/
noncomputable def tzOffsetHours (longitude : ℝ) : Int :=
  toInt (mathRound (longitude / 15.0))

open Classical in
/-- Go `CalculateSunriseSunset`.  `float64(time.Hour)` is 3.6e12 nanoseconds.
When `cosH0` is NaN the guard lets it through and both durations are the
conversion `time.Duration(NaN)`, whose value Go leaves to the implementation:
it is the parameter `nanDuration`.  The result is `none` only if
`daysSinceJan1` panics. -/
noncomputable def CalculateSunriseSunset (nanDuration : Int) (latitude longitude : ℝ)
    (date : Time) : Option (Time × Time) := do
  let (year, month, day) := date.Date
  let dayOfYear ← daysSinceJan1 year month day
  let cosH0 := cosH0 latitude dayOfYear
  if cosH0.gt 1 ∨ cosH0.lt (-1) then
    pure (Time.zero, Time.zero)
  else
    let solarNoonUTC := solarNoonUTC longitude dayOfYear
    let locUTC := FixedZone "UTC" 0
    let startOfDayUTC := Date year month day 0 0 0 0 locUTC
    let localLoc := FixedZone "Local" (tzOffsetHours longitude * 3600)
    match cosH0 with
    | F64.fin c =>
      let sunriseUTC := solarNoonUTC - deltaHours c
      let sunsetUTC := solarNoonUTC + deltaHours c
      let sunriseTimeUTC := startOfDayUTC.Add (toInt (sunriseUTC * 3600000000000))
      let sunsetTimeUTC := startOfDayUTC.Add (toInt (sunsetUTC * 3600000000000))
      pure (sunriseTimeUTC.In localLoc, sunsetTimeUTC.In localLoc)
    | _ =>
      let t := startOfDayUTC.Add nanDuration
      pure (t.In localLoc, t.In localLoc)

/-! ## The time-zone offset of the handler (`handlers/handlers.go`) -/

/-- The value `timeZoneOffsetSeconds` of `SunPositionHandler`:
`timeZoneOffsetHours := math.Round(req.Longitude / 15.0)` and
`int(timeZoneOffsetHours * 60 * 60)`. -/
noncomputable def timeZoneOffsetSeconds (longitude : ℝ) : Int :=
  toInt (mathRound (longitude / 15.0) * 60 * 60)

/-- The time `parsedTime` of `SunPositionHandler` for a well-formed date
`year-month-day` and time `hour:min`: `time.ParseInLocation` reads them on the
wall clock of the fixed zone `location` of the request's longitude. -/
noncomputable def parsedTime (longitude : ℝ) (year month day hour min : Int) : Time :=
  Date year month day hour min 0 0 (FixedZone "Local" (timeZoneOffsetSeconds longitude))

/-! ## The city table (`utils/cities.go`) -/

/-- Go `City`.  The coordinates are `float64` literals with four decimals; each
is held as the rational number it denotes. -/
structure City where
  Name : String
  Latitude : ℚ
  Longitude : ℚ
  Country : String
  deriving DecidableEq

/-- Go `CommonCities`, in source order. -/
def CommonCities : List City := [
  ⟨"Khartoum", 15.5007, 32.5599, "Sudan"⟩,
  ⟨"Riyadh", 24.7136, 46.6753, "Saudi Arabia"⟩,
  ⟨"New York", 40.7128, (-74.0060), "USA"⟩,
  ⟨"Los Angeles", 34.0522, (-118.2437), "USA"⟩,
  ⟨"Chicago", 41.8781, (-87.6298), "USA"⟩,
  ⟨"Miami", 25.7617, (-80.1918), "USA"⟩,
  ⟨"London", 51.5074, (-0.1278), "UK"⟩,
  ⟨"Tokyo", 35.6762, 139.6503, "Japan"⟩,
  ⟨"Paris", 48.8566, 2.3522, "France"⟩,
  ⟨"Sydney", (-33.8688), 151.2093, "Australia"⟩,
  ⟨"Dubai", 25.2048, 55.2708, "UAE"⟩,
  ⟨"Singapore", 1.3521, 103.8198, "Singapore"⟩,
  ⟨"Toronto", 43.6532, (-79.3832), "Canada"⟩,
  ⟨"Berlin", 52.5200, 13.4050, "Germany"⟩,
  ⟨"Rome", 41.9028, 12.4964, "Italy"⟩,
  ⟨"Madrid", 40.4168, (-3.7038), "Spain"⟩,
  ⟨"Moscow", 55.7558, 37.6173, "Russia"⟩,
  ⟨"Beijing", 39.9042, 116.4074, "China"⟩,
  ⟨"Shanghai", 31.2304, 121.4737, "China"⟩,
  ⟨"Mumbai", 19.0760, 72.8777, "India"⟩,
  ⟨"São Paulo", (-23.5505), (-46.6333), "Brazil"⟩,
  ⟨"Rio de Janeiro", (-22.9068), (-43.1729), "Brazil"⟩,
  ⟨"Mexico City", 19.4326, (-99.1332), "Mexico"⟩,
  ⟨"Cairo", 30.0444, 31.2357, "Egypt"⟩,
  ⟨"Lagos", 6.5244, 3.3792, "Nigeria"⟩,
  ⟨"Johannesburg", (-26.2041), 28.0473, "South Africa"⟩,
  ⟨"Seoul", 37.5665, 126.9780, "South Korea"⟩,
  ⟨"Bangkok", 13.7563, 100.5018, "Thailand"⟩,
  ⟨"Kuala Lumpur", 3.1390, 101.6869, "Malaysia"⟩,
  ⟨"Jakarta", (-6.2088), 106.8456, "Indonesia"⟩,
  ⟨"Buenos Aires", (-34.6037), (-58.3816), "Argentina"⟩,
  ⟨"Amsterdam", 52.3676, 4.9041, "Netherlands"⟩,
  ⟨"Vienna", 48.2082, 16.3738, "Austria"⟩,
  ⟨"Athens", 37.9838, 23.7275, "Greece"⟩,
  ⟨"Stockholm", 59.3293, 18.0686, "Sweden"⟩,
  ⟨"Oslo", 59.9139, 10.7522, "Norway"⟩,
  ⟨"Helsinki", 60.1699, 24.9384, "Finland"⟩,
  ⟨"Dublin", 53.3498, (-6.2603), "Ireland"⟩,
  ⟨"Brussels", 50.8503, 4.3517, "Belgium"⟩,
  ⟨"Zurich", 47.3769, 8.5417, "Switzerland"⟩,
  ⟨"Prague", 50.0755, 14.4378, "Czech Republic"⟩,
  ⟨"Warsaw", 52.2297, 21.0122, "Poland"⟩,
  ⟨"Budapest", 47.4979, 19.0402, "Hungary"⟩,
  ⟨"Lisbon", 38.7223, (-9.1393), "Portugal"⟩,
  ⟨"Copenhagen", 55.6761, 12.5683, "Denmark"⟩,
  ⟨"Reykjavik", 64.1466, (-21.9426), "Iceland"⟩,
  ⟨"Havana", 23.1136, (-82.3666), "Cuba"⟩,
  ⟨"Kingston", 18.1096, (-77.2975), "Jamaica"⟩,
  ⟨"Panama City", 8.9823, (-79.5199), "Panama"⟩,
  ⟨"Santiago", (-33.4489), (-70.6693), "Chile"⟩,
  ⟨"Lima", (-12.0464), (-77.0428), "Peru"⟩
]

/-- One pass of the loop of `GetCountries`.  The state is the set of keys that
`countriesMap` holds (every stored value is `true`, a missing key reads
`false`) and the slice `countries`. -/
def countriesStep (st : List String × List String) (city : City) : List String × List String :=
  if !(st.1.contains city.Country) then (city.Country :: st.1, st.2 ++ [city.Country]) else st

/-- Go `GetCountries`. -/
def GetCountries : List String :=
  (CommonCities.foldl countriesStep ([], [])).2

/-- Go `GetCitiesByCountry`: the loop appends every city whose `Country` is the
given string. -/
def GetCitiesByCountry (country : String) : List City :=
  CommonCities.foldl (fun cities city => if city.Country == country then cities ++ [city] else cities) []

/-! ## The request handler (`handlers/handlers.go`) -/

/-- What `SunPositionHandler` reads from the request: the query parameters
(`r.URL.Query().Get`, empty when absent) and the value of `getClientIP(r)`. -/
structure Request where
  city : String
  lat : String
  lon : String
  date : String
  time : String
  clientIP : String

/-- The fields of the location that `utils.GetLocationFromIP` returns which the
handler reads. -/
structure IPLocation where
  Country : String
  Lat : String
  Lon : String

/-- The collaborators of the handler that lie outside the sources at hand:
the standard library functions `strings.EqualFold`, `strconv.ParseFloat`
(`none` for a non-nil error), `time.Now` (as the two formatted strings) and the
parsing of the layout `"2006-01-02 15:04"` (year, month, day, hour, minute;
`none` for a non-nil error); the functions `GetLocationFromIP` (`none` for an
error or a nil location) and `GetCapitalCityForCountry` of
`utils/ip_geolocation.go`; and the value of `time.Duration(NaN)`. -/
structure Collaborators where
  equalFold : String → String → Bool
  parseFloat : String → Option ℝ
  getLocationFromIP : String → Option IPLocation
  getCapitalCityForCountry : String → String
  nowDate : String
  nowTime : String
  parseLayout : String → Option (Int × Int × Int × Int × Int)
  nanDuration : Int

/-- Go `SunPositionResponse`.  `Location` is the pair that
`fmt.Sprintf("%.4f, %.4f", ...)` formats; `Sunrise` and `Sunset` are the times
that `Format("15:04")` renders, `none` standing for `"N/A"`. -/
structure SunPositionResponse where
  SunAltitude : ℝ
  SunAzimuth : F64
  Timestamp : SunPosition.Time
  Location : ℝ × ℝ
  City : String
  Date : String
  Time : String
  Sunrise : Option SunPosition.Time
  Sunset : Option SunPosition.Time

/-- What the handler writes: `http.Error(w, message, status)`, or status 200
with the JSON encoding of a response; `panic` is a run-time panic. -/
inductive Response where
  | error (status : Nat) (message : String)
  | ok (body : SunPositionResponse)
  | panic

/-- The loop `for _, city := range utils.CommonCities` of the handler that stops
at the first city with `strings.EqualFold(city.Name, name)`. -/
def findCity (equalFold : String → String → Bool) (name : String) : Option City :=
  CommonCities.find? (fun city => equalFold city.Name name)

open Classical in
/-- The coordinates and city name that `SunPositionHandler` settles on when no
`city` parameter is given and both `lat` and `lon` are empty (lines 97-138):
the capital of the country of the client's address, else the coordinates of
the address, else Khartoum. -/
noncomputable def locationFromIP (env : Collaborators) (clientIP : String) : ℝ × ℝ × String :=
  let found : ℝ × ℝ × String :=
    match env.getLocationFromIP clientIP with
    | some location =>
      if location.Country ≠ "" then
        let capitalCity := env.getCapitalCityForCountry location.Country
        let viaCapital : ℝ × ℝ × String :=
          if capitalCity ≠ "" then
            match findCity env.equalFold capitalCity with
            | some city => ((city.Latitude : ℝ), (city.Longitude : ℝ), capitalCity)
            | none => (0, 0, "")
          else (0, 0, "")
        if viaCapital.1 = 0 ∧ viaCapital.2.1 = 0 ∧ location.Lat ≠ "" ∧ location.Lon ≠ "" then
          match env.parseFloat location.Lat, env.parseFloat location.Lon with
          | some parsedLat, some parsedLon => (parsedLat, parsedLon, capitalCity)
          | _, _ => viaCapital
        else viaCapital
      else (0, 0, "")
    | none => (0, 0, "")
  if found.1 = 0 ∧ found.2.1 = 0 then
    (15.5007, 32.5599, if found.2.2 = "" then "Khartoum" else found.2.2)
  else found

/-- The first part of `SunPositionHandler` (lines 69-153): the latitude, the
longitude and the city name it goes on with, or the error it writes before
returning. -/
noncomputable def resolveCoordinates (env : Collaborators) (req : Request) :
    Except Response (ℝ × ℝ × String) :=
  if req.city ≠ "" then
    match findCity env.equalFold req.city with
    | some city => Except.ok ((city.Latitude : ℝ), (city.Longitude : ℝ), req.city)
    | none => Except.error (Response.error 400 "City not found")
  else if req.lat = "" ∧ req.lon = "" then
    Except.ok (locationFromIP env req.clientIP)
  else
    match env.parseFloat req.lat with
    | none => Except.error (Response.error 400 "Invalid latitude")
    | some lat =>
      match env.parseFloat req.lon with
      | none => Except.error (Response.error 400 "Invalid longitude")
      | some lon => Except.ok (lat, lon, "")

open Classical in
/-- The value `responseCityName` of `SunPositionHandler` (lines 191-206). -/
noncomputable def responseCityName (lat lon : ℝ) (cityName : String) : String :=
  if cityName ≠ "" then cityName
  else if lat = 15.5007 ∧ lon = 32.5599 then "Khartoum"
  else
    match CommonCities.find? (fun city =>
      decide (|(city.Latitude : ℝ) - lat| < 0.01 ∧ |(city.Longitude : ℝ) - lon| < 0.01)) with
    | some city => city.Name
    | none => ""

/-- Go `SunPositionHandler`.  The debugging line written to standard output is
left out. -/
noncomputable def SunPositionHandler (env : Collaborators) (req : Request) : Response :=
  match resolveCoordinates env req with
  | Except.error response => response
  | Except.ok (lat, lon, cityName) =>
    let useNow : Bool := req.date == "" || req.time == ""
    let dateStr := if useNow then env.nowDate else req.date
    let timeStr := if useNow then env.nowTime else req.time
    match env.parseLayout (dateStr ++ " " ++ timeStr) with
    | none => Response.error 400 "Invalid date or time format"
    | some (year, month, day, hour, min) =>
      let parsedTime := parsedTime lon year month day hour min
      match CalculateSunPosition lat lon parsedTime with
      | none => Response.panic
      | some (altitude, azimuth) =>
        match CalculateSunriseSunset env.nanDuration lat lon parsedTime with
        | none => Response.panic
        | some (sunriseTime, sunsetTime) =>
          Response.ok {
            SunAltitude := altitude
            SunAzimuth := azimuth
            Timestamp := parsedTime
            Location := (lat, lon)
            City := responseCityName lat lon cityName
            Date := dateStr
            Time := timeStr
            Sunrise := if !sunriseTime.IsZero then some sunriseTime else none
            Sunset := if !sunsetTime.IsZero then some sunsetTime else none }

/-- A case-insensitive comparison for the ASCII letters, on which it agrees with
`strings.EqualFold`. -/
def asciiEqualFold (s t : String) : Bool :=
  s.toList.map Char.toLower == t.toList.map Char.toLower

/-- Collaborators for the examples: ASCII case folding, no geolocation, a parser
that rejects every string. -/
noncomputable def exampleCollaborators : Collaborators where
  equalFold := asciiEqualFold
  parseFloat := fun _ => none
  getLocationFromIP := fun _ => none
  getCapitalCityForCountry := fun _ => ""
  nowDate := "2026-01-28"
  nowTime := "12:00"
  parseLayout := fun _ => none
  nanDuration := 0

/-! ## IEEE 754 binary64, exactly -/

/-- A `float64` value.  A finite value `x` is held as the integer `x / 2^-1074`,
its size in units of the smallest positive `float64`; the two zeros are one
value. -/
inductive Binary64 where
  | fin (units : Int)
  | posInf
  | negInf
  | nan
  deriving DecidableEq

namespace Binary64

/-- The power `2^k`, in factors the evaluator takes in one step each. -/
def pow2 (k : Nat) : Nat := (2 ^ 64) ^ (k / 64) * 2 ^ (k % 64)

/-- The number of binary digits of `n` (for `n < 2^8192`): a binary search for
the highest set bit. -/
def bitLength (n : Nat) : Nat :=
  if n = 0 then 0
  else ([4096, 2048, 1024, 512, 256, 128, 64, 32, 16, 8, 4, 2, 1].foldl
    (fun k i => if pow2 (k + i) ≤ n then k + i else k) 0) + 1

/-- The quotient `a / d` rounded to the nearest integer, a tie to the even one. -/
def roundHalfEven (a d : Nat) : Nat :=
  let q := a / d
  let r := a % d
  if 2 * r < d then q else if d < 2 * r then q + 1 else if q % 2 = 0 then q else q + 1

/-- The quotient `a / d` of units rounded to 53 significant binary digits, the
precision of `float64`; below `2^53` units (the subnormal numbers and the first
binade) the spacing is one unit. -/
def roundUnits (a d : Nat) : Nat :=
  let s := bitLength (a / d) - 53
  roundHalfEven a (pow2 s * d) * pow2 s

/-- One, in units of `2^-1074`. -/
def one : Nat := pow2 1074

/-- The rational `num / den`, in units, rounded to `float64` (round to nearest,
ties to even); a result of `2^1024` or more overflows to an infinity. -/
def round (num : Int) (den : Nat) : Binary64 :=
  let r := roundUnits num.natAbs den
  if pow2 2098 ≤ r then (if 0 ≤ num then posInf else negInf)
  else fin (if 0 ≤ num then (r : Int) else -(r : Int))

/-- Conversion `float64(n)` of an integer. -/
def ofInt (n : Int) : Binary64 := round (n * one) 1

/-- The `float64` of the decimal literal `m · 10^e`. -/
def lit (m : Int) (e : Int) : Binary64 :=
  if 0 ≤ e then round (m * 10 ^ e.toNat * one) 1 else round (m * one) (10 ^ (-e).toNat)

/-- Negation. -/
def neg : Binary64 → Binary64
  | fin a => fin (-a)
  | posInf => negInf
  | negInf => posInf
  | nan => nan

/-- Sum. -/
def add : Binary64 → Binary64 → Binary64
  | fin a, fin b => round (a + b) 1
  | nan, _ => nan
  | _, nan => nan
  | posInf, negInf => nan
  | negInf, posInf => nan
  | posInf, _ => posInf
  | negInf, _ => negInf
  | _, posInf => posInf
  | _, negInf => negInf

/-- Product. -/
def mul : Binary64 → Binary64 → Binary64
  | fin a, fin b => round (a * b) one
  | nan, _ => nan
  | _, nan => nan
  | fin a, posInf => if a = 0 then nan else if 0 < a then posInf else negInf
  | fin a, negInf => if a = 0 then nan else if 0 < a then negInf else posInf
  | posInf, fin b => if b = 0 then nan else if 0 < b then posInf else negInf
  | negInf, fin b => if b = 0 then nan else if 0 < b then negInf else posInf
  | posInf, posInf => posInf
  | negInf, negInf => posInf
  | posInf, negInf => negInf
  | negInf, posInf => negInf

/-- Quotient.  A zero divisor counts as `+0`. -/
def div : Binary64 → Binary64 → Binary64
  | fin a, fin b =>
    if b = 0 then (if a = 0 then nan else if 0 < a then posInf else negInf)
    else round (if 0 < b then a * one else -(a * one)) b.natAbs
  | nan, _ => nan
  | _, nan => nan
  | fin _, _ => fin 0
  | posInf, fin b => if 0 ≤ b then posInf else negInf
  | negInf, fin b => if 0 ≤ b then negInf else posInf
  | _, _ => nan

instance : Neg Binary64 := ⟨neg⟩
instance : Add Binary64 := ⟨add⟩
instance : Sub Binary64 := ⟨fun x y => add x (neg y)⟩
instance : Mul Binary64 := ⟨mul⟩
instance : Div Binary64 := ⟨div⟩

/-- Comparison `x < y`, false when either is NaN. -/
def lt : Binary64 → Binary64 → Bool
  | fin a, fin b => decide (a < b)
  | nan, _ => false
  | _, nan => false
  | negInf, negInf => false
  | negInf, _ => true
  | _, negInf => false
  | posInf, _ => false
  | fin _, posInf => true

/-- Comparison `x >= y`, false when either is NaN. -/
def ge (x y : Binary64) : Bool := lt y x || (x == y && x != nan)

end Binary64

/-! ## The solar calculator in `float64` arithmetic -/

/-- The functions of package `math` that are not modelled bit for bit, on the
arguments on which Go documents no special case: the argument reduction of
`Sin` and `Cos` for arguments of `2^29` and more, `Asin` on [-1, 1], `Tan` and
`Exp` on finite arguments, `Atan2` on arguments other than NaN. -/
structure MathLib where
  trigReduce : Int → Nat × Binary64
  asin : Int → Binary64
  tan : Int → Binary64
  exp : Int → Binary64
  atan2 : Binary64 → Binary64 → Binary64

namespace Binary64

/-- Go `math.Pi` as a `float64`. -/
def Pi : Binary64 := lit 314159265358979323846264338327950288419716939937510582097494459 (-62)

/-- The constant `4 / Pi` of `sin.go` as a `float64`. -/
def fourOverPi : Binary64 :=
  round (4 * 10 ^ 62 * one) 314159265358979323846264338327950288419716939937510582097494459

/-- Go `math.Round` of a `float64`: the nearest integer, halves away from zero. -/
def Round : Binary64 → Binary64
  | fin a =>
    let q : Int := ((2 * a.natAbs + one) / (2 * one) * one : Nat)
    fin (if 0 ≤ a then q else -q)
  | x => x

/-- The octant `j` (already reduced as in the source) and the remainder `z` of
a finite argument `x ≥ 0`, as `sin` and `cos` of `sin.go` compute them. -/
def octant (lib : MathLib) (x : Int) : Nat × Binary64 :=
  if pow2 29 * one ≤ x.natAbs then lib.trigReduce x
  else
    let j : Nat := match fin x * fourOverPi with
      | fin p => p.natAbs / one
      | _ => 0
    let y := ofInt j
    let j1 := if j % 2 = 1 then j + 1 else j
    let y1 := if j % 2 = 1 then y + ofInt 1 else y
    (j1 % 8,
      ((fin x - y1 * lit 785398125648498535156 (-21)) - y1 * lit 377489470793079817668 (-28))
        - y1 * lit 269515142907905952645 (-35))

/-- The polynomial of `sin.go` for the sine of `z`, `zz = z * z`. -/
def sinPoly (z zz : Binary64) : Binary64 :=
  z + z * zz * ((((((lit 158962301576546568060 (-30) * zz) + lit (-250507477628578072866) (-28))
    * zz + lit 275573136213857245213 (-26)) * zz + lit (-198412698295895385996) (-24))
    * zz + lit 833333333332211858878 (-23)) * zz + lit (-166666666666666307295) (-21))

/-- The polynomial of `sin.go` for the cosine of `z`, `zz = z * z`. -/
def cosPoly (zz : Binary64) : Binary64 :=
  lit 10 (-1) - lit 5 (-1) * zz + zz * zz *
    ((((((lit (-113585365213876817300) (-31) * zz) + lit 208757008419747316778 (-29))
    * zz + lit (-275573141792967388112) (-27)) * zz + lit 248015872888517045348 (-25))
    * zz + lit (-138888888888730564116) (-23)) * zz + lit 416666666666665929218 (-22))

/-- Go `math.Sin` (the pure Go `sin` of `sin.go`). -/
def Sin (lib : MathLib) : Binary64 → Binary64
  | fin x =>
    if x = 0 then fin 0
    else
      let (j, z) := octant lib (if x < 0 then -x else x)
      let sign := if 3 < j then !(decide (x < 0)) else decide (x < 0)
      let j1 := if 3 < j then j - 4 else j
      let zz := z * z
      let y := if j1 = 1 ∨ j1 = 2 then cosPoly zz else sinPoly z zz
      if sign then -y else y
  | _ => nan

/-- Go `math.Cos` (the pure Go `cos` of `sin.go`). -/
def Cos (lib : MathLib) : Binary64 → Binary64
  | fin x =>
    let (j, z) := octant lib (if x < 0 then -x else x)
    let sign := if 3 < j then true else false
    let j1 := if 3 < j then j - 4 else j
    let sign1 := if 1 < j1 then !sign else sign
    let zz := z * z
    let y := if j1 = 1 ∨ j1 = 2 then sinPoly z zz else cosPoly zz
    if sign1 then -y else y
  | _ => nan

/-- Go `math.Asin`: NaN outside [-1, 1]. -/
def Asin (lib : MathLib) : Binary64 → Binary64
  | fin x => if one < x.natAbs then nan else lib.asin x
  | _ => nan

/-- Go `math.Tan`: NaN for an infinity or NaN. -/
def Tan (lib : MathLib) : Binary64 → Binary64
  | fin x => lib.tan x
  | _ => nan

/-- Go `math.Exp`: `Exp(+Inf) = +Inf`, `Exp(-Inf) = 0`, `Exp(NaN) = NaN`. -/
def Exp (lib : MathLib) : Binary64 → Binary64
  | fin x => lib.exp x
  | posInf => posInf
  | negInf => fin 0
  | nan => nan

/-- Go `math.Atan2`: NaN when either argument is NaN. -/
def Atan2 (lib : MathLib) : Binary64 → Binary64 → Binary64
  | nan, _ => nan
  | _, nan => nan
  | y, x => lib.atan2 y x

end Binary64

section Float64Model

open Binary64

/-- How a call ends: with a value, in a loop that does not exit within the given
number of passes, or in a run-time panic. -/
inductive Run (α : Type) where
  | value (a : α)
  | noExit
  | panic
  deriving DecidableEq

/-- Go `calculateDeclinationAccurate` in `float64`. -/
def calculateDeclinationAccurate64 (lib : MathLib) (dayOfYear : Int) : Binary64 :=
  let gamma := lit 2 0 * Pi * ofInt (dayOfYear - 1) / lit 3650 (-1)
  lit 6918 (-6) -
    lit 399912 (-6) * Cos lib gamma +
    lit 70257 (-6) * Sin lib gamma -
    lit 6758 (-6) * Cos lib (lit 2 0 * gamma) +
    lit 907 (-6) * Sin lib (lit 2 0 * gamma) -
    lit 2697 (-6) * Cos lib (lit 3 0 * gamma) +
    lit 148 (-5) * Sin lib (lit 3 0 * gamma)

/-- Go `calculateEquationOfTimeAccurate` in `float64`. -/
def calculateEquationOfTimeAccurate64 (lib : MathLib) (dayOfYear : Int) : Binary64 :=
  let gamma := lit 2 0 * Pi * ofInt (dayOfYear - 1) / lit 3650 (-1)
  lit 22918 (-2) * (lit 75 (-6) +
    lit 1868 (-6) * Cos lib gamma -
    lit 32077 (-6) * Sin lib gamma -
    lit 14615 (-6) * Cos lib (lit 2 0 * gamma) -
    lit 40849 (-6) * Sin lib (lit 2 0 * gamma))

/-- The loop `for correctedTime < 0 { correctedTime += 24 }` in `float64`, run
for at most `fuel` tests of its condition. -/
def addLoop64 : Nat → Binary64 → Run Binary64
  | 0, _ => Run.noExit
  | fuel + 1, x => if lt x (ofInt 0) then addLoop64 fuel (x + ofInt 24) else Run.value x

/-- The loop `for correctedTime >= 24 { correctedTime -= 24 }` in `float64`, run
for at most `fuel` tests of its condition. -/
def subLoop64 : Nat → Binary64 → Run Binary64
  | 0, _ => Run.noExit
  | fuel + 1, x => if ge x (ofInt 24) then subLoop64 fuel (x - ofInt 24) else Run.value x

/-- The value `correctedTime` of `calculateSolarTimeAccurate` before the loops,
in `float64`. -/
def correctedTime64 (dateTime : Time) (longitude equationOfTime : Binary64) : Binary64 :=
  let (hour, min, sec) := dateTime.Clock
  let standardTime := ofInt hour + ofInt min / lit 600 (-1) + ofInt sec / lit 36000 (-1)
  let standardMeridian := Round (longitude / lit 150 (-1)) * lit 150 (-1)
  let longitudeCorrection := lit 40 (-1) * (longitude - standardMeridian)
  let timeCorrection := equationOfTime + longitudeCorrection
  standardTime + timeCorrection / lit 600 (-1)

/-- Go `calculateSolarTimeAccurate` in `float64`, each loop run for at most
`fuel` tests of its condition. -/
def calculateSolarTimeAccurate64 (fuel : Nat) (dateTime : Time)
    (longitude equationOfTime : Binary64) : Run Binary64 :=
  match addLoop64 fuel (correctedTime64 dateTime longitude equationOfTime) with
  | Run.value x => subLoop64 fuel x
  | Run.noExit => Run.noExit
  | Run.panic => Run.panic

/-- The value `sinAltitude` of `CalculateSunPosition` in `float64` (products and
sum rounded one by one, as on amd64). -/
def sinAltitude64 (lib : MathLib) (latRad declinationRad hourAngle : Binary64) : Binary64 :=
  Sin lib latRad * Sin lib declinationRad +
    Cos lib latRad * Cos lib declinationRad * Cos lib hourAngle

/-- The statement `if azimuth < 0 { azimuth += 360 }` in `float64`. -/
def normalizeAzimuth64 (azimuth : Binary64) : Binary64 :=
  if lt azimuth (ofInt 0) then azimuth + ofInt 360 else azimuth

/-- The part of `CalculateSunPosition` after the solar time, in `float64`. -/
def sunPositionAt64 (lib : MathLib) (latRad declinationRad solarTime : Binary64) :
    Binary64 × Binary64 :=
  let hourAngleDeg := (solarTime - lit 120 (-1)) * lit 150 (-1)
  let hourAngle := hourAngleDeg * Pi / lit 1800 (-1)
  let sinAltitude := sinAltitude64 lib latRad declinationRad hourAngle
  let altitude := Asin lib sinAltitude * ofInt 180 / Pi
  let altitudeRad := altitude * Pi / lit 1800 (-1)
  let refractionCorrection :=
    if lt (lit (-575) (-3)) altitude then
      lit 16667 (-6) / Tan lib (altitudeRad + lit 3138 (-6) / (altitudeRad + lit 89186 (-6)))
    else
      lit 57644 (-5) * Exp lib (lit (-149) (-5) * altitude) - lit 7156 (-5)
  let altitude1 := altitude + refractionCorrection
  let cosAzimuth := (Sin lib declinationRad * Cos lib latRad -
    Cos lib declinationRad * Sin lib latRad * Cos lib hourAngle) /
    Cos lib (altitude1 * Pi / ofInt 180)
  let cosAzimuth1 :=
    if lt (ofInt 1) cosAzimuth then ofInt 1
    else if lt cosAzimuth (ofInt (-1)) then ofInt (-1)
    else cosAzimuth
  let sinAzimuth := Sin lib hourAngle * Cos lib declinationRad /
    Cos lib (altitude1 * Pi / ofInt 180)
  let azimuth := Atan2 lib sinAzimuth cosAzimuth1 * ofInt 180 / Pi
  (altitude1, normalizeAzimuth64 azimuth)

/-- Go `CalculateSunPosition` in `float64`, each loop of the solar time run for
at most `fuel` tests of its condition. -/
def CalculateSunPosition64 (lib : MathLib) (fuel : Nat) (latitude longitude : Binary64)
    (dateTime : Time) : Run (Binary64 × Binary64) :=
  let latRad := latitude * Pi / ofInt 180
  let (year, month, day) := dateTime.Date
  match daysSinceJan1 year month day with
  | none => Run.panic
  | some dayOfYear =>
    let declination := calculateDeclinationAccurate64 lib dayOfYear
    let equationOfTime := calculateEquationOfTimeAccurate64 lib dayOfYear
    match calculateSolarTimeAccurate64 fuel dateTime longitude equationOfTime with
    | Run.value solarTime => Run.value (sunPositionAt64 lib latRad declination solarTime)
    | Run.noExit => Run.noExit
    | Run.panic => Run.panic

end Float64Model

/-! ## Example inputs -/

/-- The latitude, in degrees, at which `cosH0` vanishes on 1 January (declination
-0.402449 rad): `asin(sin(-0.833°) / sin(-0.402449))`, about 2.13°. -/
noncomputable def roundTripLatitude : ℝ :=
  Real.arcsin (Real.sin (-0.833 * Real.pi / 180.0) / Real.sin (-0.402449)) * 180 / Real.pi

/-! ## Day of year: proofs -/

theorem isLeapYear_iff (year : Int) : isLeapYear year = true ↔ SpecLeap year := by
  simp [isLeapYear, SpecLeap, ← Int.dvd_iff_tmod_eq_zero]

theorem isLeapYear_false_iff (year : Int) : isLeapYear year = false ↔ ¬ SpecLeap year := by
  rw [← isLeapYear_iff]; simp

theorem daysSinceJan1_spec (year month day : Int) (h1 : 1 ≤ month) (h2 : month ≤ 12) :
    daysSinceJan1 year month day = some (specDayOfYear year month day) := by
  by_cases hs : SpecLeap year
  · have hb : isLeapYear year = true := (isLeapYear_iff year).2 hs
    interval_cases month <;>
      simp [daysSinceJan1, daysInMonth, specDayOfYear, specMonthLength, hb, hs, List.range_succ,
        List.foldlM]
  · have hb : isLeapYear year = false := (isLeapYear_false_iff year).2 hs
    interval_cases month <;>
      simp [daysSinceJan1, daysInMonth, specDayOfYear, specMonthLength, hb, hs, List.range_succ,
        List.foldlM]

theorem daysInMonth_length (year : Int) : (daysInMonth year).length = 12 := by
  unfold daysInMonth; split <;> simp

theorem specMonthLength_nonneg (year : Int) (m : Nat) : 0 ≤ specMonthLength year m := by
  unfold specMonthLength
  split <;> omega

theorem specDayOfYear_add_day (year month day : Int) :
    specDayOfYear year month day = specDayOfYear year month 0 + day := by
  simp [specDayOfYear]

theorem specDayOfYear_succ (year month day : Int) (h : 1 ≤ month) :
    specDayOfYear year (month + 1) day =
      specDayOfYear year month day + specMonthLength year month.toNat := by
  have e1 : (month + 1 - 1).toNat = (month - 1).toNat + 1 := by omega
  have e2 : (month - 1).toNat + 1 = month.toNat := by omega
  unfold specDayOfYear
  rw [e1, List.range_succ, List.map_append, List.sum_append]
  simp only [List.map_cons, List.map_nil, List.sum_cons, List.sum_nil, e2]
  ring

theorem specDayOfYear_mono (year month day : Int) (h : 1 ≤ month) (k : Nat) :
    specDayOfYear year month day ≤ specDayOfYear year (month + k) day := by
  induction k with
  | zero => simp
  | succ n ih =>
    have e : month + ((n + 1 : Nat) : Int) = (month + n) + 1 := by push_cast; ring
    rw [e, specDayOfYear_succ year (month + n) day (by omega)]
    have := specMonthLength_nonneg year (month + n).toNat
    omega

theorem specDayOfYear_lt_of_month_lt (year m1 d1 m2 d2 : Int) (h1 : 1 ≤ m1)
    (hd1 : d1 ≤ specMonthLength year m1.toNat) (hd2 : 1 ≤ d2) (hlt : m1 < m2) :
    specDayOfYear year m1 d1 < specDayOfYear year m2 d2 := by
  have hk : m2 = (m1 + 1) + ((m2 - m1 - 1).toNat : Int) := by omega
  have hm := specDayOfYear_mono year (m1 + 1) 0 (by omega) (m2 - m1 - 1).toNat
  rw [← hk, specDayOfYear_succ year m1 0 h1] at hm
  rw [specDayOfYear_add_day year m1 d1, specDayOfYear_add_day year m2 d2]
  omega

theorem specDayOfYear_jan (year day : Int) : specDayOfYear year 1 day = day := by
  simp [specDayOfYear]

theorem specDayOfYear_dec (year day : Int) :
    specDayOfYear year 12 day = (if isLeapYear year then 335 else 334) + day := by
  by_cases hs : SpecLeap year
  · have hb : isLeapYear year = true := (isLeapYear_iff year).2 hs
    simp [specDayOfYear, specMonthLength, hs, hb, List.range_succ]
  · have hb : isLeapYear year = false := (isLeapYear_false_iff year).2 hs
    simp [specDayOfYear, specMonthLength, hs, hb, List.range_succ]

theorem specDayOfYear_bounds (year month day : Int) (hm : 1 ≤ month ∧ month ≤ 12)
    (hd : 1 ≤ day ∧ day ≤ specMonthLength year month.toNat) :
    1 ≤ specDayOfYear year month day ∧
      specDayOfYear year month day ≤ (if isLeapYear year then 366 else 365) := by
  constructor
  · have h := specDayOfYear_mono year 1 day le_rfl (month - 1).toNat
    rw [specDayOfYear_jan, show (1 : Int) + ((month - 1).toNat : Int) = month by omega] at h
    omega
  · rcases lt_or_eq_of_le hm.2 with hlt | heq
    · have h := specDayOfYear_lt_of_month_lt year month day 12 1 hm.1 hd.2 le_rfl hlt
      rw [specDayOfYear_dec] at h
      split at h <;> simp_all <;> omega
    · subst heq
      rw [specDayOfYear_dec]
      have hd2 := hd.2
      simp [specMonthLength] at hd2
      split <;> omega

/-- C5: for every year, every month in 1..12 and every day, `daysSinceJan1`
returns (without an index panic) the sum of the lengths of the months before
`month` plus `day`, with February counted as 29 exactly when the year is
divisible by 4 and not by 100, or divisible by 400; every index `i` the loop
reads lies inside the month table; `daysSinceJan1(2024, March, 1) = 61` and
`daysSinceJan1(2023, March, 1) = 60`. -/
theorem daysSinceJan1_eq_specDayOfYear (year month day : Int)
    (h1 : 1 ≤ month) (h2 : month ≤ 12) :
    daysSinceJan1 year month day = some (specDayOfYear year month day) ∧
    (isLeapYear year = true ↔ SpecLeap year) ∧
    (∀ i : Nat, (i : Int) < month - 1 → i < (daysInMonth year).length) ∧
    daysSinceJan1 2024 3 1 = some 61 ∧ daysSinceJan1 2023 3 1 = some 60 := by
  refine ⟨daysSinceJan1_spec year month day h1 h2, isLeapYear_iff year, ?_, by decide, by decide⟩
  intro i hi
  rw [daysInMonth_length]
  omega

/-- Witness of C5 at 29 February 2024, the 60th day of that leap year. -/
theorem daysSinceJan1_eq_specDayOfYear_witness :
    daysSinceJan1 2024 2 29 = some (specDayOfYear 2024 2 29) ∧ specDayOfYear 2024 2 29 = 60 :=
  ⟨(daysSinceJan1_eq_specDayOfYear 2024 2 29 (by decide) (by decide)).1, by decide⟩

/-- C6: for every year and every two valid calendar dates `m1/d1`, `m2/d2` of
that year, `daysSinceJan1` returns integers `n1`, `n2`; `n1` lies in [1,366] and
is at most 365 in a non-leap year; January 1 gives 1 and December 31 gives 365
in a non-leap year and 366 in a leap year; and if `m1/d1` is earlier in the
calendar than `m2/d2` then `n1 < n2`. -/
theorem daysSinceJan1_valid_date (year m1 d1 m2 d2 : Int)
    (hm1 : 1 ≤ m1 ∧ m1 ≤ 12) (hd1 : 1 ≤ d1 ∧ d1 ≤ specMonthLength year m1.toNat)
    (hm2 : 1 ≤ m2 ∧ m2 ≤ 12) (hd2 : 1 ≤ d2 ∧ d2 ≤ specMonthLength year m2.toNat) :
    ∃ n1 n2 : Int, daysSinceJan1 year m1 d1 = some n1 ∧ daysSinceJan1 year m2 d2 = some n2 ∧
      1 ≤ n1 ∧ n1 ≤ 366 ∧ (isLeapYear year = false → n1 ≤ 365) ∧
      daysSinceJan1 year 1 1 = some 1 ∧
      daysSinceJan1 year 12 31 = some (if isLeapYear year then 366 else 365) ∧
      ((m1 < m2 ∨ (m1 = m2 ∧ d1 < d2)) → n1 < n2) := by
  have hb := specDayOfYear_bounds year m1 d1 hm1 hd1
  refine ⟨specDayOfYear year m1 d1, specDayOfYear year m2 d2,
    daysSinceJan1_spec year m1 d1 hm1.1 hm1.2, daysSinceJan1_spec year m2 d2 hm2.1 hm2.2,
    hb.1, ?_, ?_, ?_, ?_, ?_⟩
  · have h := hb.2
    split at h <;> omega
  · intro hl
    have h := hb.2
    rw [hl] at h
    simpa using h
  · rw [daysSinceJan1_spec year 1 1 le_rfl (by decide), specDayOfYear_jan]
  · rw [daysSinceJan1_spec year 12 31 (by decide) le_rfl, specDayOfYear_dec]
    split <;> rfl
  · rintro (hlt | ⟨heq, hlt⟩)
    · exact specDayOfYear_lt_of_month_lt year m1 d1 m2 d2 hm1.1 hd1.2 hd2.1 hlt
    · subst heq
      rw [specDayOfYear_add_day year m1 d1, specDayOfYear_add_day year m1 d2]
      omega

/-- Witness of C6 at 29 February and 1 March 2024. -/
theorem daysSinceJan1_valid_date_witness :
    ∃ n1 n2 : Int, daysSinceJan1 2024 2 29 = some n1 ∧ daysSinceJan1 2024 3 1 = some n2 ∧
      1 ≤ n1 ∧ n1 ≤ 366 ∧ (isLeapYear 2024 = false → n1 ≤ 365) ∧
      daysSinceJan1 2024 1 1 = some 1 ∧
      daysSinceJan1 2024 12 31 = some (if isLeapYear 2024 then 366 else 365) ∧
      (((2 : Int) < 3 ∨ ((2 : Int) = 3 ∧ (29 : Int) < 1)) → n1 < n2) :=
  daysSinceJan1_valid_date 2024 2 29 3 1 (by decide) (by decide) (by decide) (by decide)

/-! ## Solar time: the normalising loops -/

theorem addLoop_passes (x : ℝ) :
    ∃ i : Nat, (∀ k : Nat, k < i → x + 24 * (k : ℝ) < 0) ∧ ¬ (x + 24 * (i : ℝ) < 0) ∧
      addLoop x = x + 24 * (i : ℝ) := by
  induction x using addLoop.induct with
  | case1 x hx ih =>
    obtain ⟨i, h1, h2, h3⟩ := ih
    refine ⟨i + 1, ?_, ?_, ?_⟩
    · intro k hk
      cases k with
      | zero => simpa using hx
      | succ n =>
        have := h1 n (by omega)
        push_cast
        linarith
    · push_cast
      intro h
      exact h2 (by linarith)
    · rw [addLoop, if_pos hx, h3]
      push_cast
      ring
  | case2 x hx =>
    refine ⟨0, ?_, ?_, ?_⟩
    · intro k hk
      omega
    · simpa using hx
    · rw [addLoop, if_neg hx]
      simp

theorem subLoop_passes (x : ℝ) :
    ∃ j : Nat, (∀ k : Nat, k < j → 24 ≤ x - 24 * (k : ℝ)) ∧ ¬ (24 ≤ x - 24 * (j : ℝ)) ∧
      subLoop x = x - 24 * (j : ℝ) := by
  induction x using subLoop.induct with
  | case1 x hx ih =>
    obtain ⟨j, h1, h2, h3⟩ := ih
    refine ⟨j + 1, ?_, ?_, ?_⟩
    · intro k hk
      cases k with
      | zero => simpa using hx
      | succ n =>
        have := h1 n (by omega)
        push_cast
        linarith
    · push_cast
      intro h
      exact h2 (by linarith)
    · rw [subLoop, if_pos hx, h3]
      push_cast
      ring
  | case2 x hx =>
    refine ⟨0, ?_, ?_, ?_⟩
    · intro k hk
      omega
    · simpa using hx
    · rw [subLoop, if_neg hx]
      simp

theorem addLoop_nonneg (x : ℝ) : 0 ≤ addLoop x := by
  obtain ⟨i, _, h2, h3⟩ := addLoop_passes x
  rw [h3]
  exact not_lt.mp h2

theorem addLoop_of_nonneg {x : ℝ} (hx : 0 ≤ x) : addLoop x = x := by
  rw [addLoop, if_neg (not_lt.mpr hx)]

theorem subLoop_of_lt {x : ℝ} (hx : x < 24) : subLoop x = x := by
  rw [subLoop, if_neg (not_le.mpr hx)]

theorem subLoop_range {x : ℝ} (hx : 0 ≤ x) : 0 ≤ subLoop x ∧ subLoop x < 24 := by
  obtain ⟨j, h1, h2, h3⟩ := subLoop_passes x
  rw [h3]
  refine ⟨?_, not_le.mp h2⟩
  cases j with
  | zero => simpa using hx
  | succ n =>
    have := h1 n (by omega)
    push_cast
    linarith

/-- The solar time is the corrected clock time whenever that lies in [0,24). -/
theorem calculateSolarTimeAccurate_of_range (dateTime : Time) (longitude equationOfTime : ℝ)
    (h0 : 0 ≤ correctedTime (standardTime dateTime) longitude equationOfTime)
    (h1 : correctedTime (standardTime dateTime) longitude equationOfTime < 24) :
    calculateSolarTimeAccurate dateTime longitude equationOfTime =
      correctedTime (standardTime dateTime) longitude equationOfTime := by
  rw [calculateSolarTimeAccurate, addLoop_of_nonneg h0, subLoop_of_lt h1]

/-- In exact real arithmetic, for every clock time, longitude and
equation-of-time value the two normalising loops of `calculateSolarTimeAccurate`
terminate, the first after `i` passes and the second after `j` passes (the
loop condition holds before each pass and fails after the last one); the result
lies in [0,24) and differs from
`clockHours + (eotMinutes + 4·(longitude - round(longitude/15)·15))/60` by the
integer multiple `24·(i - j)` of 24.  In `float64` the second loop need not
terminate: see `subLoop64`. -/
theorem calculateSolarTimeAccurate_normalized (dateTime : Time) (longitude equationOfTime : ℝ) :
    let c := standardTime dateTime +
      (equationOfTime + 4 * (longitude - mathRound (longitude / 15) * 15)) / 60
    let r := calculateSolarTimeAccurate dateTime longitude equationOfTime
    (∃ i j : Nat,
      (∀ k : Nat, k < i → c + 24 * (k : ℝ) < 0) ∧ ¬ (c + 24 * (i : ℝ) < 0) ∧
      (∀ k : Nat, k < j → 24 ≤ c + 24 * (i : ℝ) - 24 * (k : ℝ)) ∧
      ¬ (24 ≤ c + 24 * (i : ℝ) - 24 * (j : ℝ)) ∧
      r = c + 24 * (i : ℝ) - 24 * (j : ℝ) ∧ r - c = 24 * (((i : Int) - (j : Int) : Int) : ℝ)) ∧
    0 ≤ r ∧ r < 24 := by
  intro c r
  have hc : correctedTime (standardTime dateTime) longitude equationOfTime = c := by
    simp only [correctedTime, standardMeridian, c]
    norm_num
  have hr : r = subLoop (addLoop c) := by
    simp only [r, calculateSolarTimeAccurate, hc]
  obtain ⟨i, a1, a2, a3⟩ := addLoop_passes c
  obtain ⟨j, b1, b2, b3⟩ := subLoop_passes (addLoop c)
  rw [a3] at b1 b2 b3
  have hrange := subLoop_range (addLoop_nonneg c)
  rw [← hr] at hrange
  refine ⟨⟨i, j, a1, a2, b1, b2, ?_, ?_⟩, hrange.1, hrange.2⟩
  · rw [hr, a3, b3]
  · rw [hr, a3, b3]
    push_cast
    ring

/-! ## Rounding and the time-zone offset -/

theorem toInt_intCast (n : Int) : toInt (n : ℝ) = n := by
  unfold toInt
  split <;> simp

theorem mathRound_eq_intCast (x : ℝ) :
    mathRound x = (((if 0 ≤ x then ⌊x + 1 / 2⌋ else -⌊-x + 1 / 2⌋) : Int) : ℝ) := by
  unfold mathRound
  split <;> simp

theorem toInt_mathRound (x : ℝ) : ((toInt (mathRound x) : Int) : ℝ) = mathRound x := by
  rw [mathRound_eq_intCast, toInt_intCast]

theorem mathRound_bounds {x : ℝ} {n : Int} (h1 : (-n : ℝ) ≤ x) (h2 : x ≤ n) :
    (-n : ℝ) ≤ mathRound x ∧ mathRound x ≤ n := by
  unfold mathRound
  split
  · rename_i h0
    constructor
    · have : (0 : ℝ) ≤ (⌊x + 1 / 2⌋ : ℝ) := by
        exact_mod_cast Int.floor_nonneg.mpr (by linarith)
      have hn : (0 : ℝ) ≤ n := by linarith
      linarith
    · have : ⌊x + 1 / 2⌋ ≤ n := by
        have h3 : ⌊x + 1 / 2⌋ < n + 1 := by
          rw [Int.floor_lt]
          push_cast
          linarith
        omega
      exact_mod_cast this
  · rename_i h0
    have h0 : x < 0 := not_le.mp h0
    constructor
    · have : ⌊-x + 1 / 2⌋ ≤ n := by
        have h3 : ⌊-x + 1 / 2⌋ < n + 1 := by
          rw [Int.floor_lt]
          push_cast
          linarith
        omega
      have h4 : ((⌊-x + 1 / 2⌋ : Int) : ℝ) ≤ n := by exact_mod_cast this
      linarith
    · have : (0 : ℝ) ≤ (⌊-x + 1 / 2⌋ : ℝ) := by
        exact_mod_cast Int.floor_nonneg.mpr (by linarith)
      have hn : (0 : ℝ) ≤ n := by linarith
      linarith

/-- The rounded value is within one half of its argument. -/
theorem mathRound_near (x : ℝ) : |x - mathRound x| ≤ 1 / 2 := by
  unfold mathRound
  rw [abs_le]
  split
  · have h1 := Int.floor_le (x + 1 / 2)
    have h2 := Int.lt_floor_add_one (x + 1 / 2)
    constructor <;> linarith
  · have h1 := Int.floor_le (-x + 1 / 2)
    have h2 := Int.lt_floor_add_one (-x + 1 / 2)
    constructor <;> linarith

/-- C10: for every longitude in [-180,180] the UTC offset in seconds that
`SunPositionHandler` uses to read the input local time,
`int(round(lon/15)·60·60)`, equals the offset `int(round(lon/15))·3600` that
`CalculateSunriseSunset` uses for its local zone, so the two fixed zones are the
same; the offset is a whole number `tzOffsetHours` of hours in [-12,12], and
the meridian of that zone, 15° per hour, is the `standardMeridian` of
`calculateSolarTimeAccurate`. -/
theorem timeZoneOffsetSeconds_eq_tzOffset (longitude : ℝ)
    (h1 : -180 ≤ longitude) (h2 : longitude ≤ 180) :
    timeZoneOffsetSeconds longitude = tzOffsetHours longitude * 3600 ∧
    FixedZone "Local" (timeZoneOffsetSeconds longitude) =
      FixedZone "Local" (tzOffsetHours longitude * 3600) ∧
    -12 ≤ tzOffsetHours longitude ∧ tzOffsetHours longitude ≤ 12 ∧
    ((tzOffsetHours longitude : Int) : ℝ) * 15 = standardMeridian longitude := by
  have e : timeZoneOffsetSeconds longitude = tzOffsetHours longitude * 3600 := by
    unfold timeZoneOffsetSeconds tzOffsetHours
    rw [mathRound_eq_intCast, toInt_intCast]
    have : (((if 0 ≤ longitude / 15.0 then ⌊longitude / 15.0 + 1 / 2⌋
        else -⌊-(longitude / 15.0) + 1 / 2⌋ : Int) : ℝ)) * 60 * 60 =
        (((if 0 ≤ longitude / 15.0 then ⌊longitude / 15.0 + 1 / 2⌋
        else -⌊-(longitude / 15.0) + 1 / 2⌋) * 3600 : Int) : ℝ) := by
      push_cast
      ring
    rw [this, toInt_intCast]
  have hb := mathRound_bounds (x := longitude / 15.0) (n := 12)
    (by norm_num; linarith) (by norm_num; linarith)
  have hc : ((tzOffsetHours longitude : Int) : ℝ) = mathRound (longitude / 15.0) :=
    toInt_mathRound _
  refine ⟨e, by rw [e], ?_, ?_, ?_⟩
  · have : ((-12 : Int) : ℝ) ≤ ((tzOffsetHours longitude : Int) : ℝ) := by
      rw [hc]; push_cast; exact_mod_cast hb.1
    exact_mod_cast this
  · have : ((tzOffsetHours longitude : Int) : ℝ) ≤ ((12 : Int) : ℝ) := by
      rw [hc]; exact_mod_cast hb.2
    exact_mod_cast this
  · rw [hc, standardMeridian]
    norm_num

/-! ## The refraction correction keeps the altitude inside (-90°, 90°) -/

theorem pi_gt_31415 : (3.1415 : ℝ) < Real.pi := by
  have := Real.pi_gt_d6
  linarith

theorem pi_lt_31416 : Real.pi < (3.1416 : ℝ) := by
  have := Real.pi_lt_d6
  linarith

theorem sin_lower_bound {x : ℝ} (h1 : 0.017 ≤ x) (h2 : x ≤ Real.pi - 0.017) :
    0.0169 ≤ Real.sin x := by
  have hpi := pi_gt_31415
  have key : ∀ y : ℝ, 0.017 ≤ y → y ≤ Real.pi / 2 → 0.0169 ≤ Real.sin y := by
    intro y hy1 hy2
    have hs : Real.sin 0.017 ≤ Real.sin y :=
      Real.sin_le_sin_of_le_of_le_pi_div_two (by linarith) hy2 hy1
    have hc : (0.017 : ℝ) - 0.017 ^ 3 / 4 < Real.sin 0.017 :=
      Real.sin_gt_sub_cube (by norm_num) (by norm_num)
    have : (0.0169 : ℝ) ≤ 0.017 - 0.017 ^ 3 / 4 := by norm_num
    linarith
  rcases le_or_lt x (Real.pi / 2) with h | h
  · exact key x h1 h
  · have := key (Real.pi - x) (by linarith) (by linarith)
    rwa [Real.sin_pi_sub] at this

theorem refraction_low_branch {altitude : ℝ} (h0 : -90 ≤ altitude) (h1 : ¬ altitude > -0.575) :
    -90 < altitude + refractionCorrection altitude ∧
      altitude + refractionCorrection altitude < 90 := by
  have h1 : altitude ≤ -0.575 := not_lt.mp h1
  have ht0 : (0 : ℝ) ≤ -0.00149 * altitude := by nlinarith
  have ht1 : -0.00149 * altitude ≤ 1 := by nlinarith
  have e1 : 1 ≤ Real.exp (-0.00149 * altitude) := Real.one_le_exp ht0
  have e2 : Real.exp (-0.00149 * altitude) ≤ Real.exp 1 := Real.exp_le_exp.mpr ht1
  have e3 := Real.exp_one_lt_d9
  have hr : refractionCorrection altitude =
      0.57644 * Real.exp (-0.00149 * altitude) - 0.07156 := by
    unfold refractionCorrection
    simp only []
    rw [if_neg (by linarith)]
  rw [hr]
  constructor <;> nlinarith

theorem refraction_angle_range (altitude : ℝ) {a δ x : ℝ} (ha : a = altitude * Real.pi / 180.0)
    (hδ : δ = 0.003138 / (a + 0.089186)) (hx : x = a + δ)
    (h0 : altitude > -0.575) (h1 : altitude ≤ 90) :
    -0.0101 < a ∧ a ≤ Real.pi / 2 ∧ 0 < δ ∧ δ < 0.04 ∧ 0.017 ≤ x ∧ x ≤ Real.pi - 0.017 := by
  have hpi1 := pi_gt_31415
  have hpi2 := pi_lt_31416
  have ha1 : -0.0101 < a := by
    have : -0.575 * Real.pi / 180 < altitude * Real.pi / 180 := by
      apply div_lt_div_of_pos_right _ (by norm_num)
      exact mul_lt_mul_of_pos_right h0 Real.pi_pos
    rw [ha]; norm_num at this ⊢
    linarith
  have ha2 : a ≤ Real.pi / 2 := by
    have : altitude * Real.pi / 180 ≤ 90 * Real.pi / 180 := by
      apply div_le_div_of_nonneg_right _ (by norm_num)
      exact mul_le_mul_of_nonneg_right h1 Real.pi_pos.le
    rw [ha]; norm_num at this ⊢
    linarith
  have hbpos : 0 < a + 0.089186 := by linarith
  have hδ0 : 0 < δ := by
    rw [hδ]; exact div_pos (by norm_num) hbpos
  have hδ1 : δ < 0.04 := by
    rw [hδ, div_lt_iff₀ hbpos]
    linarith
  refine ⟨ha1, ha2, hδ0, hδ1, ?_, by linarith⟩
  rcases le_or_lt 0.017 a with h | h
  · linarith
  · have : 0.0295 < δ := by
      rw [hδ, lt_div_iff₀ hbpos]
      linarith
    linarith

theorem refraction_cot_upper (altitude : ℝ) {a δ x : ℝ} (ha : a = altitude * Real.pi / 180.0)
    (hx : x = a + δ) (h1 : altitude ≤ 90) (hδ0 : 0 < δ) (hδ1 : δ < 0.04)
    (ha2 : a ≤ Real.pi / 2) (hsin : 0.0169 ≤ Real.sin x) :
    0.016667 * Real.cos x < (90 - altitude) * Real.sin x := by
  have hpi1 := pi_gt_31415
  have hpi2 := pi_lt_31416
  have hsinpos : 0 < Real.sin x := by linarith
  have hε : (90 - altitude) * (Real.pi / 180) = Real.pi / 2 - a := by
    rw [ha]; ring
  have hcos : Real.cos x = Real.sin (Real.pi / 2 - a - δ) := by
    rw [← Real.cos_pi_div_two_sub]
    congr 1
    rw [hx]; ring
  rw [hcos]
  rcases le_or_lt (Real.pi / 2 - a - δ) 0 with hle | hlt
  · rcases lt_or_eq_of_le h1 with halt | halt
    · have hs : Real.sin (Real.pi / 2 - a - δ) ≤ 0 :=
        Real.sin_nonpos_of_nonnpos_of_neg_pi_le hle (by linarith)
      have hp := mul_pos (sub_pos.mpr halt) hsinpos
      linarith
    · have ha90 : a = Real.pi / 2 := by
        rw [ha, halt]; ring
      have hs : Real.sin (Real.pi / 2 - a - δ) < 0 :=
        Real.sin_neg_of_neg_of_neg_pi_lt (by linarith) (by linarith)
      have hz : (90 - altitude) * Real.sin x = 0 := by
        rw [halt]; ring
      linarith
  · have hs : Real.sin (Real.pi / 2 - a - δ) < Real.pi / 2 - a - δ := Real.sin_lt hlt
    have hpos : 0 < 90 - altitude := by
      by_contra hcon
      have h90 : 90 - altitude = 0 := by linarith
      rw [h90, zero_mul] at hε
      linarith
    have hε2 : Real.pi / 2 - a ≤ (90 - altitude) * 0.0175 := by
      rw [← hε]
      exact mul_le_mul_of_nonneg_left (by linarith) hpos.le
    have hlow := mul_le_mul_of_nonneg_left hsin hpos.le
    linarith

theorem refraction_high_branch {altitude : ℝ} (h0 : altitude > -0.575) (h1 : altitude ≤ 90) :
    -90 < altitude + refractionCorrection altitude ∧
      altitude + refractionCorrection altitude < 90 := by
  obtain ⟨_, ha2, hδ0, hδ1, hx1, hx2⟩ :=
    refraction_angle_range altitude rfl rfl rfl h0 h1
  have hsin := sin_lower_bound hx1 hx2
  have hsinpos : 0 < Real.sin (altitude * Real.pi / 180.0 +
      0.003138 / (altitude * Real.pi / 180.0 + 0.089186)) := by linarith
  have hup := refraction_cot_upper altitude rfl rfl h1 hδ0 hδ1 ha2 hsin
  have hr : refractionCorrection altitude =
      0.016667 * Real.cos (altitude * Real.pi / 180.0 +
        0.003138 / (altitude * Real.pi / 180.0 + 0.089186)) /
      Real.sin (altitude * Real.pi / 180.0 +
        0.003138 / (altitude * Real.pi / 180.0 + 0.089186)) := by
    unfold refractionCorrection
    simp only []
    rw [if_pos h0, Real.tan_eq_sin_div_cos, div_div_eq_mul_div]
  rw [hr]
  constructor
  · have hc := Real.neg_one_le_cos (altitude * Real.pi / 180.0 +
      0.003138 / (altitude * Real.pi / 180.0 + 0.089186))
    have : -1 ≤ 0.016667 * Real.cos (altitude * Real.pi / 180.0 +
        0.003138 / (altitude * Real.pi / 180.0 + 0.089186)) /
        Real.sin (altitude * Real.pi / 180.0 +
        0.003138 / (altitude * Real.pi / 180.0 + 0.089186)) := by
      rw [le_div_iff₀ hsinpos]
      linarith
    linarith
  · have : 0.016667 * Real.cos (altitude * Real.pi / 180.0 +
        0.003138 / (altitude * Real.pi / 180.0 + 0.089186)) /
        Real.sin (altitude * Real.pi / 180.0 +
        0.003138 / (altitude * Real.pi / 180.0 + 0.089186)) < 90 - altitude := by
      rw [div_lt_iff₀ hsinpos]
      exact hup
    linarith

/-- The refraction-corrected altitude stays strictly inside (-90°, 90°). -/
theorem corrected_altitude_range {altitude : ℝ} (h0 : -90 ≤ altitude) (h1 : altitude ≤ 90) :
    -90 < altitude + refractionCorrection altitude ∧
      altitude + refractionCorrection altitude < 90 := by
  by_cases h : altitude > -0.575
  · exact refraction_high_branch h h1
  · exact refraction_low_branch h0 h

/-- The divisor of `cosAzimuth` and `sinAzimuth` is positive. -/
theorem cos_corrected_altitude_pos {altitude : ℝ} (h0 : -90 ≤ altitude) (h1 : altitude ≤ 90) :
    0 < Real.cos ((altitude + refractionCorrection altitude) * Real.pi / 180) := by
  obtain ⟨h2, h3⟩ := corrected_altitude_range h0 h1
  have hpi := Real.pi_pos
  apply Real.cos_pos_of_mem_Ioo
  constructor
  · nlinarith
  · nlinarith

/-- The geometric altitude `asin(sinAltitude)` in degrees lies in [-90°, 90°]. -/
theorem arcsin_degrees_range (s : ℝ) :
    -90 ≤ Real.arcsin s * 180 / Real.pi ∧ Real.arcsin s * 180 / Real.pi ≤ 90 := by
  have hpi := Real.pi_pos
  have h1 := Real.neg_pi_div_two_le_arcsin s
  have h2 := Real.arcsin_le_pi_div_two s
  constructor
  · rw [le_div_iff₀ hpi]; linarith
  · rw [div_le_iff₀ hpi]; linarith

/-! ## Altitude and azimuth -/

/-- The argument of `math.Asin` in `CalculateSunPosition` lies in [-1,1]. -/
theorem sinAltitude_range (latRad declinationRad hourAngle : ℝ) :
    -1 ≤ sinAltitude latRad declinationRad hourAngle ∧
      sinAltitude latRad declinationRad hourAngle ≤ 1 := by
  unfold sinAltitude
  have hd1 := Real.cos_le_one (latRad - declinationRad)
  have hd2 := Real.neg_one_le_cos (latRad - declinationRad)
  have hs1 := Real.cos_le_one (latRad + declinationRad)
  have hs2 := Real.neg_one_le_cos (latRad + declinationRad)
  rw [Real.cos_sub] at hd1 hd2
  rw [Real.cos_add] at hs1 hs2
  have hc1 := Real.cos_le_one hourAngle
  have hc2 := Real.neg_one_le_cos hourAngle
  rcases le_or_lt 0 (Real.cos latRad * Real.cos declinationRad) with hA | hA
  · have u1 := mul_le_mul_of_nonneg_left hc1 hA
    have u2 := mul_le_mul_of_nonneg_left hc2 hA
    constructor <;> linarith
  · have u1 := mul_le_mul_of_nonpos_left hc1 hA.le
    have u2 := mul_le_mul_of_nonpos_left hc2 hA.le
    constructor <;> linarith

/-- The declination is at most 0.488929 rad in absolute value. -/
theorem declination_abs_le (dayOfYear : Int) :
    |calculateDeclinationAccurate dayOfYear| ≤ 0.488929 := by
  unfold calculateDeclinationAccurate
  simp only []
  generalize 2 * Real.pi * ((dayOfYear - 1 : Int) : ℝ) / 365.0 = g
  have c1 := Real.cos_le_one g
  have c2 := Real.neg_one_le_cos g
  have s1 := Real.sin_le_one g
  have s2 := Real.neg_one_le_sin g
  have c3 := Real.cos_le_one (2 * g)
  have c4 := Real.neg_one_le_cos (2 * g)
  have s3 := Real.sin_le_one (2 * g)
  have s4 := Real.neg_one_le_sin (2 * g)
  have c5 := Real.cos_le_one (3 * g)
  have c6 := Real.neg_one_le_cos (3 * g)
  have s5 := Real.sin_le_one (3 * g)
  have s6 := Real.neg_one_le_sin (3 * g)
  rw [abs_le]
  constructor <;> linarith

/-- The cosine of the declination is positive. -/
theorem cos_declination_pos (dayOfYear : Int) :
    0 < Real.cos (calculateDeclinationAccurate dayOfYear) := by
  have h := abs_le.mp (declination_abs_le dayOfYear)
  have hpi := pi_gt_31415
  exact Real.cos_pos_of_mem_Ioo ⟨by linarith [h.1], by linarith [h.2]⟩

theorem F64.div_of_ne {x y : ℝ} (hy : y ≠ 0) : F64.div x y = F64.fin (x / y) := by
  unfold F64.div
  rw [if_neg hy]

theorem clampCos_fin (c : ℝ) :
    ∃ d : ℝ, clampCos (F64.fin c) = F64.fin d ∧ -1 ≤ d ∧ d ≤ 1 ∧
      (c < 0 → d < 0) ∧ (-1 ≤ c → c ≤ 1 → d = c) := by
  unfold clampCos
  by_cases h1 : (F64.fin c).gt 1
  · rw [if_pos h1]
    have h1' : 1 < c := h1
    exact ⟨1, rfl, by norm_num, le_rfl, fun h => by linarith, fun _ h => by linarith⟩
  · rw [if_neg h1]
    have h1' : ¬ 1 < c := h1
    by_cases h2 : (F64.fin c).lt (-1)
    · rw [if_pos h2]
      have h2' : c < -1 := h2
      exact ⟨-1, rfl, le_rfl, by norm_num, fun _ => by norm_num, fun h _ => by linarith⟩
    · rw [if_neg h2]
      have h2' : ¬ c < -1 := h2
      exact ⟨c, rfl, not_lt.mp h2', not_lt.mp h1', fun h => h, fun _ _ => rfl⟩

/-- On finite arguments `math.Atan2` returns an angle in (-π, π]. -/
theorem F64.atan2_fin (v u : ℝ) :
    ∃ θ : ℝ, F64.atan2 (F64.fin v) (F64.fin u) = F64.fin θ ∧ -Real.pi < θ ∧ θ ≤ Real.pi := by
  have hpi := Real.pi_pos
  have q1 := Real.neg_pi_div_two_lt_arctan (v / u)
  have q2 := Real.arctan_lt_pi_div_two (v / u)
  unfold F64.atan2
  simp only []
  split_ifs with h1 h2 h3 h4 h5
  · exact ⟨0, rfl, by linarith, by linarith⟩
  · exact ⟨Real.pi, rfl, by linarith, le_rfl⟩
  · refine ⟨F64.copysign (Real.pi / 2) (F64.fin v), rfl, ?_⟩
    unfold F64.copysign
    simp only []
    split_ifs <;> constructor <;> linarith
  · exact ⟨_, rfl, by linarith, by linarith⟩
  · exact ⟨_, rfl, by linarith, by linarith⟩
  · exact ⟨_, rfl, by linarith, by linarith⟩

/-- With a non-zero divisor `cos(altitude)` the azimuth is a finite number of
degrees in [0,360). -/
theorem azimuthOf_range (latRad declinationRad hourAngle altitude : ℝ)
    (hc : Real.cos (altitude * Real.pi / 180) ≠ 0) :
    ∃ a : ℝ, azimuthOf latRad declinationRad hourAngle altitude = F64.fin a ∧
      0 ≤ a ∧ a < 360 := by
  have hpi := Real.pi_pos
  unfold azimuthOf cosAzimuth sinAzimuth
  simp only []
  rw [F64.div_of_ne hc, F64.div_of_ne hc]
  obtain ⟨d, hd, -, -, -, -⟩ := clampCos_fin
    ((Real.sin declinationRad * Real.cos latRad -
      Real.cos declinationRad * Real.sin latRad * Real.cos hourAngle) /
      Real.cos (altitude * Real.pi / 180))
  rw [hd]
  obtain ⟨θ, hθ, t1, t2⟩ := F64.atan2_fin
    (Real.sin hourAngle * Real.cos declinationRad / Real.cos (altitude * Real.pi / 180)) d
  rw [hθ]
  have e : (F64.fin θ).mulR 180 = F64.fin (θ * 180) := rfl
  rw [e]
  have e2 : (F64.fin (θ * 180)).divR Real.pi = F64.fin (θ * 180 / Real.pi) := by
    show F64.div (θ * 180) Real.pi = _
    exact F64.div_of_ne hpi.ne'
  rw [e2]
  have b1 : -180 < θ * 180 / Real.pi := by
    rw [lt_div_iff₀ hpi]; linarith
  have b2 : θ * 180 / Real.pi ≤ 180 := by
    rw [div_le_iff₀ hpi]; linarith
  by_cases hneg : (F64.fin (θ * 180 / Real.pi)).lt 0
  · rw [if_pos hneg]
    have hneg' : θ * 180 / Real.pi < 0 := hneg
    exact ⟨θ * 180 / Real.pi + 360, rfl, by linarith, by linarith⟩
  · rw [if_neg hneg]
    have hneg' : ¬ θ * 180 / Real.pi < 0 := hneg
    exact ⟨θ * 180 / Real.pi, rfl, not_lt.mp hneg', by linarith⟩

/-! ## The two entry points -/

theorem ite_month_range (c : Prop) [Decidable c] (a b : Int)
    (ha : 1 ≤ a ∧ a ≤ 12) (hb : 1 ≤ b ∧ b ≤ 12) :
    1 ≤ (if c then a else b) ∧ (if c then a else b) ≤ 12 := by
  split <;> assumption

theorem monthOfYday_range (leap : Bool) (yday : Int) :
    1 ≤ monthOfYday leap yday ∧ monthOfYday leap yday ≤ 12 := by
  unfold monthOfYday
  repeat (first | exact ⟨by decide, by decide⟩ | apply ite_month_range)

/-- The month `Time.Date` returns is one of the twelve months. -/
theorem date_month_range (t : Time) : 1 ≤ t.Date.2.1 ∧ t.Date.2.1 ≤ 12 := by
  unfold Time.Date civilFromDays
  exact monthOfYday_range _ _

/-- The day of the year of a time: `daysSinceJan1` does not panic on a
date that `Time.Date` returns. -/
theorem daysSinceJan1_date (t : Time) :
    daysSinceJan1 t.Date.1 t.Date.2.1 t.Date.2.2 =
      some (specDayOfYear t.Date.1 t.Date.2.1 t.Date.2.2) :=
  daysSinceJan1_spec _ _ _ (date_month_range t).1 (date_month_range t).2

/-- `CalculateSunPosition` unfolded at the day of the year of its date. -/
theorem CalculateSunPosition_eq (latitude longitude : ℝ) (dateTime : Time) :
    CalculateSunPosition latitude longitude dateTime =
      (let n := specDayOfYear dateTime.Date.1 dateTime.Date.2.1 dateTime.Date.2.2
       let h := hourAngle (calculateSolarTimeAccurate dateTime longitude
         (calculateEquationOfTimeAccurate n))
       let a := Real.arcsin (sinAltitude (latitude * Real.pi / 180)
         (calculateDeclinationAccurate n) h) * 180 / Real.pi
       some (a + refractionCorrection a,
         azimuthOf (latitude * Real.pi / 180) (calculateDeclinationAccurate n) h
           (a + refractionCorrection a))) := by
  unfold CalculateSunPosition
  have h := daysSinceJan1_date dateTime
  rcases hd : dateTime.Date with ⟨y, m, d⟩
  rw [hd] at h
  simp only [h]
  rfl

/-- In exact real arithmetic, for every latitude, longitude and date-time
`CalculateSunPosition` returns a finite azimuth `az` with `0 ≤ az < 360`.  The
`float64` code does not keep to this: see the `float64` evaluations at the end. -/
theorem CalculateSunPosition_azimuth_range (latitude longitude : ℝ) (dateTime : Time) :
    ∃ altitude azimuth : ℝ,
      CalculateSunPosition latitude longitude dateTime = some (altitude, F64.fin azimuth) ∧
      0 ≤ azimuth ∧ azimuth < 360 := by
  rw [CalculateSunPosition_eq]
  simp only []
  obtain ⟨r1, r2⟩ := arcsin_degrees_range (sinAltitude (latitude * Real.pi / 180)
    (calculateDeclinationAccurate
      (specDayOfYear dateTime.Date.1 dateTime.Date.2.1 dateTime.Date.2.2))
    (hourAngle (calculateSolarTimeAccurate dateTime longitude
      (calculateEquationOfTimeAccurate
        (specDayOfYear dateTime.Date.1 dateTime.Date.2.1 dateTime.Date.2.2)))))
  obtain ⟨a, ha, a1, a2⟩ := azimuthOf_range (latitude * Real.pi / 180)
    (calculateDeclinationAccurate
      (specDayOfYear dateTime.Date.1 dateTime.Date.2.1 dateTime.Date.2.2))
    (hourAngle (calculateSolarTimeAccurate dateTime longitude
      (calculateEquationOfTimeAccurate
        (specDayOfYear dateTime.Date.1 dateTime.Date.2.1 dateTime.Date.2.2))))
    _ (cos_corrected_altitude_pos r1 r2).ne'
  exact ⟨_, a, by rw [ha], a1, a2⟩

/-- The absent branch of `CalculateSunriseSunset`. -/
theorem CalculateSunriseSunset_absent (nanDuration : Int) (latitude longitude : ℝ) (date : Time)
    (n : Int) (hn : daysSinceJan1 date.Date.1 date.Date.2.1 date.Date.2.2 = some n)
    (hg : (cosH0 latitude n).gt 1 ∨ (cosH0 latitude n).lt (-1)) :
    CalculateSunriseSunset nanDuration latitude longitude date = some (Time.zero, Time.zero) := by
  unfold CalculateSunriseSunset
  rcases hd : date.Date with ⟨y, m, d⟩
  rw [hd] at hn
  simp only [hn, bind, Option.bind, if_pos hg]
  rfl

/-- The branch of `CalculateSunriseSunset` for a finite `cosH0` in [-1,1]. -/
theorem CalculateSunriseSunset_present (nanDuration : Int) (latitude longitude : ℝ) (date : Time)
    (n : Int) (hn : daysSinceJan1 date.Date.1 date.Date.2.1 date.Date.2.2 = some n)
    (c : ℝ) (hc : cosH0 latitude n = F64.fin c) (h1 : -1 ≤ c) (h2 : c ≤ 1) :
    CalculateSunriseSunset nanDuration latitude longitude date =
      some (((Date date.Date.1 date.Date.2.1 date.Date.2.2 0 0 0 0 (FixedZone "UTC" 0)).Add
          (toInt ((solarNoonUTC longitude n - deltaHours c) * 3600000000000))).In
            (FixedZone "Local" (tzOffsetHours longitude * 3600)),
        ((Date date.Date.1 date.Date.2.1 date.Date.2.2 0 0 0 0 (FixedZone "UTC" 0)).Add
          (toInt ((solarNoonUTC longitude n + deltaHours c) * 3600000000000))).In
            (FixedZone "Local" (tzOffsetHours longitude * 3600))) := by
  have hg : ¬ ((cosH0 latitude n).gt 1 ∨ (cosH0 latitude n).lt (-1)) := by
    rw [hc]
    rintro (h | h)
    · exact absurd h (not_lt.mpr h2)
    · exact absurd h (not_lt.mpr h1)
  unfold CalculateSunriseSunset
  rcases hd : date.Date with ⟨y, m, d⟩
  rw [hd] at hn
  simp only [hn, bind, Option.bind, if_neg hg, hc]
  rfl

/-- The branch of `CalculateSunriseSunset` for a NaN `cosH0`. -/
theorem CalculateSunriseSunset_nan (nanDuration : Int) (latitude longitude : ℝ) (date : Time)
    (n : Int) (hn : daysSinceJan1 date.Date.1 date.Date.2.1 date.Date.2.2 = some n)
    (hc : cosH0 latitude n = F64.nan) :
    CalculateSunriseSunset nanDuration latitude longitude date =
      some (((Date date.Date.1 date.Date.2.1 date.Date.2.2 0 0 0 0 (FixedZone "UTC" 0)).Add
          nanDuration).In (FixedZone "Local" (tzOffsetHours longitude * 3600)),
        ((Date date.Date.1 date.Date.2.1 date.Date.2.2 0 0 0 0 (FixedZone "UTC" 0)).Add
          nanDuration).In (FixedZone "Local" (tzOffsetHours longitude * 3600))) := by
  have hg : ¬ ((cosH0 latitude n).gt 1 ∨ (cosH0 latitude n).lt (-1)) := by
    rw [hc]
    rintro (h | h) <;> exact h
  unfold CalculateSunriseSunset
  rcases hd : date.Date with ⟨y, m, d⟩
  rw [hd] at hn
  simp only [hn, bind, Option.bind, if_neg hg, hc]
  rfl

theorem Time.In_ne_zero (t : Time) (l : Location) : t.In l ≠ Time.zero := by
  intro h
  have := congrArg Time.loc h
  simp [Time.In, Time.zero] at this

/-- C2: for every latitude, longitude and date `CalculateSunriseSunset` returns
a pair `(sunrise, sunset)` in which either both are the zero time `time.Time{}`
or neither is, and both are the zero time exactly when `cosH0`, the quotient
`(sin(-0.833°) - sin(lat)·sin(decl)) / (cos(lat)·cos(decl))` for the day of the
year `n` of the date, is greater than 1 or less than -1; both then also pass
`IsZero`. -/
theorem CalculateSunriseSunset_both_or_neither (nanDuration : Int) (latitude longitude : ℝ)
    (date : Time) :
    ∃ (n : Int) (sunrise sunset : Time),
      daysSinceJan1 date.Date.1 date.Date.2.1 date.Date.2.2 = some n ∧
      CalculateSunriseSunset nanDuration latitude longitude date = some (sunrise, sunset) ∧
      (sunrise = Time.zero ↔ sunset = Time.zero) ∧
      ((sunrise = Time.zero ∧ sunset = Time.zero) ↔
        ((cosH0 latitude n).gt 1 ∨ (cosH0 latitude n).lt (-1))) ∧
      ((cosH0 latitude n).gt 1 ∨ (cosH0 latitude n).lt (-1) →
        sunrise.IsZero = true ∧ sunset.IsZero = true) := by
  have hn := daysSinceJan1_date date
  refine ⟨specDayOfYear date.Date.1 date.Date.2.1 date.Date.2.2, ?_⟩
  by_cases hg : (cosH0 latitude (specDayOfYear date.Date.1 date.Date.2.1 date.Date.2.2)).gt 1 ∨
      (cosH0 latitude (specDayOfYear date.Date.1 date.Date.2.1 date.Date.2.2)).lt (-1)
  · exact ⟨Time.zero, Time.zero, hn,
      CalculateSunriseSunset_absent nanDuration latitude longitude date _ hn hg,
      Iff.rfl, ⟨fun _ => hg, fun _ => ⟨rfl, rfl⟩⟩, fun _ => ⟨rfl, rfl⟩⟩
  · cases hc : cosH0 latitude (specDayOfYear date.Date.1 date.Date.2.1 date.Date.2.2) with
    | fin c =>
      have h1 : -1 ≤ c := by
        by_contra h
        exact hg (Or.inr (by rw [hc]; exact not_le.mp h))
      have h2 : c ≤ 1 := by
        by_contra h
        exact hg (Or.inl (by rw [hc]; exact not_le.mp h))
      refine ⟨_, _, hn,
        CalculateSunriseSunset_present nanDuration latitude longitude date _ hn c hc h1 h2,
        ?_, ?_, ?_⟩
      · exact ⟨fun h => absurd h (Time.In_ne_zero _ _), fun h => absurd h (Time.In_ne_zero _ _)⟩
      · rw [← hc]
        exact ⟨fun h => absurd h.1 (Time.In_ne_zero _ _), fun h => absurd h hg⟩
      · rw [← hc]
        exact fun h => absurd h hg
    | posInf =>
      rw [hc] at hg
      exact absurd (Or.inl trivial) hg
    | negInf =>
      rw [hc] at hg
      exact absurd (Or.inr trivial) hg
    | nan =>
      refine ⟨_, _, hn, CalculateSunriseSunset_nan nanDuration latitude longitude date _ hn hc,
        ?_, ?_, ?_⟩
      · exact ⟨fun h => absurd h (Time.In_ne_zero _ _), fun h => absurd h (Time.In_ne_zero _ _)⟩
      · rw [← hc]
        exact ⟨fun h => absurd h.1 (Time.In_ne_zero _ _), fun h => absurd h hg⟩
      · rw [← hc]
        exact fun h => absurd h hg

theorem sin_h0_neg : Real.sin (-0.833 * Real.pi / 180.0) < 0 := by
  have hpi1 := pi_gt_31415
  have hpi2 := pi_lt_31416
  apply Real.sin_neg_of_neg_of_neg_pi_lt
  · have : 0 < 0.833 * Real.pi / 180.0 := by positivity
    linarith
  · have : 0.833 * Real.pi / 180.0 < Real.pi := by
      rw [div_lt_iff₀ (by norm_num)]
      linarith
    linarith

/-- The value of `cosH0` at the north pole when the declination exceeds 0.833°. -/
theorem cosH0_north_pole (n : Int)
    (hd : 0.833 * Real.pi / 180 < calculateDeclinationAccurate n) :
    cosH0 90 n = F64.negInf := by
  have hpi1 := pi_gt_31415
  have hpi2 := pi_lt_31416
  have hb := abs_le.mp (declination_abs_le n)
  have hlat : (90 : ℝ) * Real.pi / 180.0 = Real.pi / 2 := by ring
  have hpos : 0 < Real.sin (calculateDeclinationAccurate n) :=
    Real.sin_pos_of_pos_of_lt_pi (by linarith [show (0:ℝ) < 0.833 * Real.pi / 180 by positivity])
      (by linarith [hb.2])
  have hneg := sin_h0_neg
  unfold cosH0
  dsimp only
  rw [hlat, Real.cos_pi_div_two, Real.sin_pi_div_two, zero_mul]
  unfold F64.div
  rw [if_pos rfl, if_neg (by linarith), if_pos (by linarith)]

/-- The value of `cosH0` at the south pole when the declination is below -0.833°. -/
theorem cosH0_south_pole (n : Int)
    (hd : calculateDeclinationAccurate n < -(0.833 * Real.pi / 180)) :
    cosH0 (-90) n = F64.negInf := by
  have hpi1 := pi_gt_31415
  have hpi2 := pi_lt_31416
  have hb := abs_le.mp (declination_abs_le n)
  have hlat : (-90 : ℝ) * Real.pi / 180.0 = -(Real.pi / 2) := by ring
  have hneg2 : Real.sin (calculateDeclinationAccurate n) < 0 :=
    Real.sin_neg_of_neg_of_neg_pi_lt
      (by linarith [show (0:ℝ) < 0.833 * Real.pi / 180 by positivity]) (by linarith [hb.1])
  have hneg := sin_h0_neg
  unfold cosH0
  dsimp only
  rw [hlat, Real.cos_neg, Real.sin_neg, Real.cos_pi_div_two, Real.sin_pi_div_two, zero_mul]
  unfold F64.div
  rw [if_pos rfl, if_neg (by linarith), if_pos (by linarith)]

/-- C3: at a pole on a midsummer date `CalculateSunriseSunset` returns the pair
of zero times, for every longitude: at latitude +90 when the declination of the
date's day of the year `n` exceeds 0.833° (in radians), at latitude -90 when it
is below -0.833°. -/
theorem CalculateSunriseSunset_pole_midsummer (nanDuration : Int) (longitude : ℝ) (date : Time)
    (n : Int) (hn : daysSinceJan1 date.Date.1 date.Date.2.1 date.Date.2.2 = some n) :
    (0.833 * Real.pi / 180 < calculateDeclinationAccurate n →
      CalculateSunriseSunset nanDuration 90 longitude date = some (Time.zero, Time.zero)) ∧
    (calculateDeclinationAccurate n < -(0.833 * Real.pi / 180) →
      CalculateSunriseSunset nanDuration (-90) longitude date = some (Time.zero, Time.zero)) := by
  constructor
  · intro hd
    apply CalculateSunriseSunset_absent nanDuration 90 longitude date n hn
    rw [cosH0_north_pole n hd]
    exact Or.inr trivial
  · intro hd
    apply CalculateSunriseSunset_absent nanDuration (-90) longitude date n hn
    rw [cosH0_south_pole n hd]
    exact Or.inr trivial

/-- On 1 January (`gamma = 0`) the declination is -0.402449 rad. -/
theorem declination_jan1 : calculateDeclinationAccurate 1 = -0.402449 := by
  unfold calculateDeclinationAccurate
  norm_num

/-- On 1 January (`gamma = 0`) the equation of time is 229.18 · (-0.012672) minutes. -/
theorem equationOfTime_jan1 : calculateEquationOfTimeAccurate 1 = 229.18 * (-0.012672) := by
  unfold calculateEquationOfTimeAccurate
  norm_num

theorem date_jan1_2026 :
    (Date 2026 1 1 0 0 0 0 (FixedZone "UTC" 0)).Date = (2026, 1, 1) := by
  decide

/-- Witness of C3: the south pole on 1 January 2026 (declination -0.402449 rad,
about -23°), at longitude 0. -/
theorem CalculateSunriseSunset_pole_midsummer_witness :
    CalculateSunriseSunset 0 (-90) 0 (Date 2026 1 1 0 0 0 0 (FixedZone "UTC" 0)) =
      some (Time.zero, Time.zero) :=
  (CalculateSunriseSunset_pole_midsummer 0 0 (Date 2026 1 1 0 0 0 0 (FixedZone "UTC" 0)) 1
    (by rw [date_jan1_2026]; decide)).2
    (by
      rw [declination_jan1]
      have := pi_lt_31416
      have : 0.833 * Real.pi / 180 < 0.402449 := by
        rw [div_lt_iff₀ (by norm_num)]
        linarith
      linarith)

/-- A value within less than one half of an integer rounds to that integer. -/
theorem mathRound_eq_of_near {x : ℝ} (n : Int) (h1 : (n : ℝ) - 1 / 2 < x)
    (h2 : x < (n : ℝ) + 1 / 2) : mathRound x = n := by
  unfold mathRound
  split
  · have : ⌊x + 1 / 2⌋ = n := by
      rw [Int.floor_eq_iff]
      constructor <;> linarith
    rw [this]
  · rename_i h0
    have h0 : x < 0 := not_le.mp h0
    have : ⌊-x + 1 / 2⌋ = -n := by
      rw [Int.floor_eq_iff]
      push_cast
      constructor <;> linarith
    rw [this]
    push_cast
    ring

theorem hourAngle_noon : hourAngle 12 = 0 := by
  unfold hourAngle
  norm_num

/-- In exact real arithmetic, at solar noon (solar time exactly 12, hour angle
0) for an observer whose latitude (at most 90°) is greater than the
declination, `CalculateSunPosition` returns azimuth 180°: `sinAzimuth` is 0 and
`cosAzimuth` is negative.  In `float64` a latitude just above the declination
gives NaN: see the `float64` evaluations at the end. -/
theorem CalculateSunPosition_noon_azimuth (latitude longitude : ℝ) (dateTime : Time) (n : Int)
    (hn : daysSinceJan1 dateTime.Date.1 dateTime.Date.2.1 dateTime.Date.2.2 = some n)
    (hnoon : calculateSolarTimeAccurate dateTime longitude
      (calculateEquationOfTimeAccurate n) = 12)
    (hdecl : calculateDeclinationAccurate n < latitude * Real.pi / 180)
    (hlat : latitude ≤ 90) :
    hourAngle (calculateSolarTimeAccurate dateTime longitude
      (calculateEquationOfTimeAccurate n)) = 0 ∧
    ∃ altitude : ℝ,
      CalculateSunPosition latitude longitude dateTime = some (altitude, F64.fin 180) ∧
      sinAzimuth (calculateDeclinationAccurate n) 0 altitude = F64.fin 0 ∧
      ∃ c : ℝ, cosAzimuth (latitude * Real.pi / 180) (calculateDeclinationAccurate n) 0 altitude =
        F64.fin c ∧ c < 0 := by
  have hpi := Real.pi_pos
  have hpi1 := pi_gt_31415
  have hn2 : specDayOfYear dateTime.Date.1 dateTime.Date.2.1 dateTime.Date.2.2 = n := by
    have := daysSinceJan1_date dateTime
    rw [hn] at this
    exact (Option.some.inj this).symm
  have hb := abs_le.mp (declination_abs_le n)
  refine ⟨by rw [hnoon, hourAngle_noon], ?_⟩
  rw [CalculateSunPosition_eq]
  simp only [hn2, hnoon, hourAngle_noon]
  obtain ⟨r1, r2⟩ := arcsin_degrees_range (sinAltitude (latitude * Real.pi / 180)
    (calculateDeclinationAccurate n) 0)
  have hD := cos_corrected_altitude_pos r1 r2
  set alt := Real.arcsin (sinAltitude (latitude * Real.pi / 180)
      (calculateDeclinationAccurate n) 0) * 180 / Real.pi +
    refractionCorrection (Real.arcsin (sinAltitude (latitude * Real.pi / 180)
      (calculateDeclinationAccurate n) 0) * 180 / Real.pi) with halt
  have hs : sinAzimuth (calculateDeclinationAccurate n) 0 alt = F64.fin 0 := by
    unfold sinAzimuth
    rw [F64.div_of_ne hD.ne', Real.sin_zero, zero_mul, zero_div]
  have hnum : Real.sin (calculateDeclinationAccurate n) * Real.cos (latitude * Real.pi / 180) -
      Real.cos (calculateDeclinationAccurate n) * Real.sin (latitude * Real.pi / 180) *
        Real.cos 0 < 0 := by
    have e : Real.sin (calculateDeclinationAccurate n) * Real.cos (latitude * Real.pi / 180) -
        Real.cos (calculateDeclinationAccurate n) * Real.sin (latitude * Real.pi / 180) *
          Real.cos 0 =
        Real.sin (calculateDeclinationAccurate n - latitude * Real.pi / 180) := by
      rw [Real.sin_sub, Real.cos_zero, mul_one]
    rw [e]
    have hlat2 : latitude * Real.pi / 180 ≤ Real.pi / 2 := by
      rw [div_le_iff₀ (by norm_num)]
      nlinarith
    exact Real.sin_neg_of_neg_of_neg_pi_lt (by linarith) (by linarith [hb.1])
  obtain ⟨c, hc, -, -, hneg, -⟩ := clampCos_fin
    ((Real.sin (calculateDeclinationAccurate n) * Real.cos (latitude * Real.pi / 180) -
      Real.cos (calculateDeclinationAccurate n) * Real.sin (latitude * Real.pi / 180) *
        Real.cos 0) / Real.cos (alt * Real.pi / 180))
  have hcneg : c < 0 := hneg (div_neg_of_neg_of_pos hnum hD)
  have hcos : cosAzimuth (latitude * Real.pi / 180) (calculateDeclinationAccurate n) 0 alt =
      F64.fin c := by
    unfold cosAzimuth
    rw [F64.div_of_ne hD.ne', hc]
  refine ⟨alt, ?_, hs, c, hcos, hcneg⟩
  have haz : azimuthOf (latitude * Real.pi / 180) (calculateDeclinationAccurate n) 0 alt =
      F64.fin 180 := by
    have e1 : F64.atan2 (F64.fin 0) (F64.fin c) = F64.fin Real.pi := by
      unfold F64.atan2
      simp [not_le.mpr hcneg]
    have e2 : ((F64.fin Real.pi).mulR 180).divR Real.pi = F64.fin 180 := by
      show F64.div (Real.pi * 180) Real.pi = _
      rw [F64.div_of_ne hpi.ne']
      congr 1
      field_simp
    have e3 : ¬ (F64.fin 180).lt 0 := by
      show ¬ ((180 : ℝ) < 0)
      norm_num
    unfold azimuthOf
    simp only [hs, hcos, e1, e2]
    split_ifs with h
    · rw [hs, hcos, e1, e2] at h
      exact absurd h e3
    · rfl
  rw [haz]

theorem mathRound_lon_noon : mathRound ((0.72604224 : ℝ) / 15.0) = 0 := by
  have := mathRound_eq_of_near (x := (0.72604224 : ℝ) / 15.0) 0 (by norm_num) (by norm_num)
  simpa using this

theorem parsedTime_noon :
    parsedTime 0.72604224 2026 1 1 12 0 = Date 2026 1 1 12 0 0 0 (FixedZone "Local" 0) := by
  unfold parsedTime timeZoneOffsetSeconds
  rw [mathRound_lon_noon]
  have : toInt ((0 : ℝ) * 60 * 60) = 0 := by
    have h := toInt_intCast 0
    simpa using h
  rw [this]

theorem solarTime_noon :
    calculateSolarTimeAccurate (Date 2026 1 1 12 0 0 0 (FixedZone "Local" 0)) 0.72604224
      (calculateEquationOfTimeAccurate 1) = 12 := by
  have hclock : (Date 2026 1 1 12 0 0 0 (FixedZone "Local" 0)).Clock = (12, 0, 0) := by decide
  have hst : standardTime (Date 2026 1 1 12 0 0 0 (FixedZone "Local" 0)) = 12 := by
    unfold standardTime
    rw [hclock]
    norm_num
  have hct : correctedTime 12 0.72604224 (calculateEquationOfTimeAccurate 1) = 12 := by
    unfold correctedTime standardMeridian
    rw [mathRound_lon_noon, equationOfTime_jan1]
    norm_num
  rw [calculateSolarTimeAccurate, hst, hct, addLoop_of_nonneg (by norm_num),
    subLoop_of_lt (by norm_num)]

/-- The noon azimuth at latitude 0, longitude 0.72604224, 1 January 2026 at
12:00 local time, where the equation of time and the longitude correction
cancel and the solar time is exactly 12. -/
theorem CalculateSunPosition_noon_azimuth_witness :
    ∃ altitude : ℝ,
      CalculateSunPosition 0 0.72604224 (parsedTime 0.72604224 2026 1 1 12 0) =
        some (altitude, F64.fin 180) := by
  rw [parsedTime_noon]
  have hdate : (Date 2026 1 1 12 0 0 0 (FixedZone "Local" 0)).Date = (2026, 1, 1) := by decide
  obtain ⟨-, altitude, h, -⟩ := CalculateSunPosition_noon_azimuth 0 0.72604224
    (Date 2026 1 1 12 0 0 0 (FixedZone "Local" 0)) 1
    (by rw [hdate]; decide) solarTime_noon
    (by rw [declination_jan1]; norm_num) (by norm_num)
  exact ⟨altitude, h⟩

theorem F64.div_eq_fin {x y c : ℝ} (h : F64.div x y = F64.fin c) : y ≠ 0 ∧ c = x / y := by
  unfold F64.div at h
  by_cases hy : y = 0
  · rw [if_pos hy] at h
    split_ifs at h
  · rw [if_neg hy] at h
    exact ⟨hy, (F64.fin.inj h).symm⟩

theorem deltaHours_range (c : ℝ) : 0 ≤ deltaHours c ∧ deltaHours c ≤ 12 := by
  have hpi := Real.pi_pos
  have h1 := Real.arccos_nonneg c
  have h2 := Real.arccos_le_pi c
  unfold deltaHours
  constructor
  · positivity
  · rw [div_le_iff₀ hpi]
    linarith

theorem refractionCorrection_sunrise :
    refractionCorrection (-0.833) = 0.57644 * Real.exp (-0.00149 * (-0.833)) - 0.07156 := by
  unfold refractionCorrection
  simp only []
  rw [if_neg (by norm_num)]

theorem roundTrip_quotient :
    0 < Real.sin (-0.833 * Real.pi / 180.0) / Real.sin (-0.402449) ∧
      Real.sin (-0.833 * Real.pi / 180.0) / Real.sin (-0.402449) < 1 := by
  have hpi1 := pi_gt_31415
  have hpi2 := pi_lt_31416
  have ha : (0 : ℝ) < 0.833 * Real.pi / 180.0 := by positivity
  have hab : 0.833 * Real.pi / 180.0 < (0.402449 : ℝ) := by
    rw [div_lt_iff₀ (by norm_num)]
    linarith
  have e1 : Real.sin (-0.833 * Real.pi / 180.0) = -Real.sin (0.833 * Real.pi / 180.0) := by
    rw [← Real.sin_neg]
    congr 1
    ring
  have e2 : Real.sin (-0.402449) = -Real.sin 0.402449 := Real.sin_neg _
  have s1 : 0 < Real.sin (0.833 * Real.pi / 180.0) :=
    Real.sin_pos_of_pos_of_lt_pi ha (by linarith)
  have s2 : Real.sin (0.833 * Real.pi / 180.0) < Real.sin 0.402449 :=
    Real.sin_lt_sin_of_lt_of_le_pi_div_two (by linarith) (by linarith) hab
  rw [e1, e2, neg_div_neg_eq]
  exact ⟨div_pos s1 (by linarith), (div_lt_one (by linarith)).mpr s2⟩

theorem cosH0_roundTrip : cosH0 roundTripLatitude 1 = F64.fin 0 := by
  have hpi := Real.pi_pos
  obtain ⟨r1, r2⟩ := roundTrip_quotient
  have hlat : roundTripLatitude * Real.pi / 180.0 =
      Real.arcsin (Real.sin (-0.833 * Real.pi / 180.0) / Real.sin (-0.402449)) := by
    unfold roundTripLatitude
    generalize Real.arcsin (Real.sin (-0.833 * Real.pi / 180.0) / Real.sin (-0.402449)) = x
    rw [show (180.0 : ℝ) = 180 by norm_num]
    field_simp
  have hsd : Real.sin (-0.402449) ≠ 0 := by
    intro h
    rw [h, div_zero] at r1
    exact lt_irrefl _ r1
  have hcl : 0 < Real.cos (Real.arcsin
      (Real.sin (-0.833 * Real.pi / 180.0) / Real.sin (-0.402449))) :=
    Real.cos_pos_of_mem_Ioo ⟨Real.neg_pi_div_two_lt_arcsin.mpr (by linarith),
      Real.arcsin_lt_pi_div_two.mpr r2⟩
  have hcd := cos_declination_pos 1
  rw [declination_jan1] at hcd
  unfold cosH0
  simp only []
  rw [hlat, declination_jan1, Real.sin_arcsin (by linarith) r2.le, div_mul_cancel₀ _ hsd, sub_self,
    F64.div_of_ne (mul_pos hcl hcd).ne', zero_div]

theorem solarNoonUTC_roundTrip : solarNoonUTC 0.72604224 1 = 12 := by
  unfold solarNoonUTC
  rw [equationOfTime_jan1]
  norm_num

theorem deltaHours_zero : deltaHours 0 = 6 := by
  unfold deltaHours
  rw [Real.arccos_zero]
  have := Real.pi_pos
  field_simp
  ring

theorem tzOffsetHours_roundTrip : tzOffsetHours 0.72604224 = 0 := by
  unfold tzOffsetHours
  rw [mathRound_lon_noon]
  have h := toInt_intCast 0
  simpa using h

theorem CalculateSunriseSunset_roundTrip :
    CalculateSunriseSunset 0 roundTripLatitude 0.72604224
        (Date 2026 1 1 12 0 0 0 (FixedZone "Local" 0)) =
      some (Date 2026 1 1 6 0 0 0 (FixedZone "Local" 0),
        Date 2026 1 1 18 0 0 0 (FixedZone "Local" 0)) := by
  have hdate : (Date 2026 1 1 12 0 0 0 (FixedZone "Local" 0)).Date = (2026, 1, 1) := by decide
  rw [CalculateSunriseSunset_present 0 roundTripLatitude 0.72604224 _ 1
    (by rw [hdate]; decide) 0 cosH0_roundTrip (by norm_num) (by norm_num)]
  rw [hdate, solarNoonUTC_roundTrip, deltaHours_zero, tzOffsetHours_roundTrip]
  have e1 : toInt (((12 : ℝ) - 6) * 3600000000000) = 21600000000000 := by
    have h := toInt_intCast 21600000000000
    rw [← h]
    congr 1
    norm_num
  have e2 : toInt (((12 : ℝ) + 6) * 3600000000000) = 64800000000000 := by
    have h := toInt_intCast 64800000000000
    rw [← h]
    congr 1
    norm_num
  rw [e1, e2]
  decide

/-! ## Polynomial bounds for sine and cosine -/

/-- A function vanishing at 0 with a non-negative derivative on [0,∞) is
non-negative there. -/
theorem nonneg_of_deriv_nonneg (f f' : ℝ → ℝ) (hd : ∀ x, HasDerivAt f (f' x) x)
    (h0 : f 0 = 0) (hp : ∀ x, 0 ≤ x → 0 ≤ f' x) {x : ℝ} (hx : 0 ≤ x) : 0 ≤ f x := by
  have hmono : MonotoneOn f (Set.Ici 0) := by
    apply monotoneOn_of_deriv_nonneg (convex_Ici 0)
    · exact fun y _ => (hd y).continuousAt.continuousWithinAt
    · exact fun y _ => (hd y).differentiableAt.differentiableWithinAt
    · intro y hy
      rw [(hd y).deriv]
      rw [interior_Ici] at hy
      exact hp y (le_of_lt hy)
  have h := hmono (Set.mem_Ici.mpr le_rfl) (Set.mem_Ici.mpr hx) hx
  rw [h0] at h
  exact h

theorem hasDerivAt_pow_div (n : Nat) (c x : ℝ) :
    HasDerivAt (fun y : ℝ => y ^ n / c) ((n : ℝ) * x ^ (n - 1) / c) x :=
  (hasDerivAt_pow n x).div_const c

theorem sin_ge_cubic {x : ℝ} (hx : 0 ≤ x) : x - x ^ 3 / 6 ≤ Real.sin x := by
  have hd : ∀ y : ℝ, HasDerivAt (fun y : ℝ => Real.sin y - (y - y ^ 3 / 6))
      (Real.cos y - (1 - y ^ 2 / 2)) y := fun y => by
    have h := (Real.hasDerivAt_sin y).sub ((hasDerivAt_id' y).sub (hasDerivAt_pow_div 3 6 y))
    convert h using 1
    norm_num
    ring
  have h := nonneg_of_deriv_nonneg _ _ hd (by simp) (fun y _ => by
    have := Real.one_sub_sq_div_two_le_cos (x := y)
    linarith) hx
  simp only at h
  linarith

theorem cos_le_quartic {x : ℝ} (hx : 0 ≤ x) : Real.cos x ≤ 1 - x ^ 2 / 2 + x ^ 4 / 24 := by
  have hd : ∀ y : ℝ, HasDerivAt (fun y : ℝ => 1 - y ^ 2 / 2 + y ^ 4 / 24 - Real.cos y)
      (Real.sin y - (y - y ^ 3 / 6)) y := fun y => by
    have h := ((((hasDerivAt_const y (1 : ℝ)).sub (hasDerivAt_pow_div 2 2 y)).add
      (hasDerivAt_pow_div 4 24 y)).sub (Real.hasDerivAt_cos y))
    convert h using 1
    norm_num
    ring
  have h := nonneg_of_deriv_nonneg _ _ hd (by simp) (fun y hy => by
    have := sin_ge_cubic hy
    linarith) hx
  simp only at h
  linarith

theorem sin_le_quintic {x : ℝ} (hx : 0 ≤ x) : Real.sin x ≤ x - x ^ 3 / 6 + x ^ 5 / 120 := by
  have hd : ∀ y : ℝ, HasDerivAt (fun y : ℝ => y - y ^ 3 / 6 + y ^ 5 / 120 - Real.sin y)
      (1 - y ^ 2 / 2 + y ^ 4 / 24 - Real.cos y) y := fun y => by
    have h := ((((hasDerivAt_id' y).sub (hasDerivAt_pow_div 3 6 y)).add
      (hasDerivAt_pow_div 5 120 y)).sub (Real.hasDerivAt_sin y))
    convert h using 1
    norm_num
    ring
  have h := nonneg_of_deriv_nonneg _ _ hd (by simp) (fun y hy => by
    have := cos_le_quartic hy
    linarith) hx
  simp only at h
  linarith

theorem cos_ge_sextic {x : ℝ} (hx : 0 ≤ x) :
    1 - x ^ 2 / 2 + x ^ 4 / 24 - x ^ 6 / 720 ≤ Real.cos x := by
  have hd : ∀ y : ℝ, HasDerivAt
      (fun y : ℝ => Real.cos y - (1 - y ^ 2 / 2 + y ^ 4 / 24 - y ^ 6 / 720))
      (y - y ^ 3 / 6 + y ^ 5 / 120 - Real.sin y) y := fun y => by
    have h := (Real.hasDerivAt_cos y).sub ((((hasDerivAt_const y (1 : ℝ)).sub
      (hasDerivAt_pow_div 2 2 y)).add (hasDerivAt_pow_div 4 24 y)).sub
      (hasDerivAt_pow_div 6 720 y))
    convert h using 1
    norm_num
    ring
  have h := nonneg_of_deriv_nonneg _ _ hd (by simp) (fun y hy => by
    have := sin_le_quintic hy
    linarith) hx
  simp only at h
  linarith

/-- Enclosure of the sine on an interval `[lo, hi]` inside [0, π/2]. -/
theorem sin_enclosure (lo hi : ℝ) {x : ℝ} (h0 : 0 ≤ lo) (h1 : lo ≤ x) (h2 : x ≤ hi)
    (h3 : hi ≤ 1.57) :
    lo - lo ^ 3 / 6 ≤ Real.sin x ∧ Real.sin x ≤ hi - hi ^ 3 / 6 + hi ^ 5 / 120 := by
  have hpi := pi_gt_31415
  constructor
  · exact le_trans (sin_ge_cubic h0)
      (Real.sin_le_sin_of_le_of_le_pi_div_two (by linarith) (by linarith) h1)
  · exact le_trans (Real.sin_le_sin_of_le_of_le_pi_div_two (by linarith) (by linarith) h2)
      (sin_le_quintic (by linarith))

/-- Enclosure of the cosine on an interval `[lo, hi]` inside [0, π]. -/
theorem cos_enclosure (lo hi : ℝ) {x : ℝ} (h0 : 0 ≤ lo) (h1 : lo ≤ x) (h2 : x ≤ hi)
    (h3 : hi ≤ 3.14) :
    1 - hi ^ 2 / 2 + hi ^ 4 / 24 - hi ^ 6 / 720 ≤ Real.cos x ∧
      Real.cos x ≤ 1 - lo ^ 2 / 2 + lo ^ 4 / 24 := by
  have hpi := pi_gt_31415
  constructor
  · exact le_trans (cos_ge_sextic (by linarith))
      (Real.cos_le_cos_of_nonneg_of_le_pi (by linarith) (by linarith) h2)
  · exact le_trans (Real.cos_le_cos_of_nonneg_of_le_pi h0 (by linarith) h1)
      (cos_le_quartic h0)

/-! ## The New York example: 40.7128°N, 74.0060°W, 28 January 2026, 12:00 -/

/-- The angle `gamma` of day 28 lies in [0.464783, 0.464784]. -/
theorem gamma28_bounds :
    0.464783 ≤ 2 * Real.pi * ((28 - 1 : Int) : ℝ) / 365.0 ∧
      2 * Real.pi * ((28 - 1 : Int) : ℝ) / 365.0 ≤ 0.464784 := by
  have h1 := Real.pi_gt_d6
  have h2 := Real.pi_lt_d6
  constructor
  · rw [le_div_iff₀ (by norm_num)]
    push_cast
    linarith
  · rw [div_le_iff₀ (by norm_num)]
    push_cast
    linarith

/-- Enclosures of the six trigonometric values in the series of day 28. -/
theorem trig28_bounds (g : ℝ) (h1 : 0.464783 ≤ g) (h2 : g ≤ 0.464784) :
    (0.448049 ≤ Real.sin g ∧ Real.sin g ≤ 0.448231) ∧
    (0.893918 ≤ Real.cos g ∧ Real.cos g ≤ 0.893933) ∧
    (0.795694 ≤ Real.sin (2 * g) ∧ Real.sin (2 * g) ≤ 0.80148) ∧
    (0.598166 ≤ Real.cos (2 * g) ∧ Real.cos (2 * g) ≤ 0.599065) ∧
    (0.942531 ≤ Real.sin (3 * g) ∧ Real.sin (3 * g) ≤ 0.986454) ∧
    (0.175183 ≤ Real.cos (3 * g) ∧ Real.cos (3 * g) ≤ 0.185394) := by
  have s1 := sin_enclosure (0.464783) (0.464784) (x := g)
    (by norm_num) h1 h2 (by norm_num)
  have c1 := cos_enclosure (0.464783) (0.464784) (x := g)
    (by norm_num) h1 h2 (by norm_num)
  have s2 := sin_enclosure (2 * 0.464783) (2 * 0.464784) (x := 2 * g)
    (by norm_num) (by linarith) (by linarith) (by norm_num)
  have c2 := cos_enclosure (2 * 0.464783) (2 * 0.464784) (x := 2 * g)
    (by norm_num) (by linarith) (by linarith) (by norm_num)
  have s3 := sin_enclosure (3 * 0.464783) (3 * 0.464784) (x := 3 * g)
    (by norm_num) (by linarith) (by linarith) (by norm_num)
  have c3 := cos_enclosure (3 * 0.464783) (3 * 0.464784) (x := 3 * g)
    (by norm_num) (by linarith) (by linarith) (by norm_num)
  exact ⟨⟨le_trans (by norm_num) s1.1, le_trans s1.2 (by norm_num)⟩,
    ⟨le_trans (by norm_num) c1.1, le_trans c1.2 (by norm_num)⟩,
    ⟨le_trans (by norm_num) s2.1, le_trans s2.2 (by norm_num)⟩,
    ⟨le_trans (by norm_num) c2.1, le_trans c2.2 (by norm_num)⟩,
    ⟨le_trans (by norm_num) s3.1, le_trans s3.2 (by norm_num)⟩,
    ⟨le_trans (by norm_num) c3.1, le_trans c3.2 (by norm_num)⟩⟩

/-- The declination of day 28 is about -0.3214 rad (-18.4°). -/
theorem declination28_bounds :
    -0.32153 ≤ calculateDeclinationAccurate 28 ∧ calculateDeclinationAccurate 28 ≤ -0.321407 := by
  obtain ⟨g1, g2⟩ := gamma28_bounds
  obtain ⟨⟨a1, a2⟩, ⟨b1, b2⟩, ⟨c1, c2⟩, ⟨d1, d2⟩, ⟨e1, e2⟩, ⟨f1, f2⟩⟩ := trig28_bounds _ g1 g2
  unfold calculateDeclinationAccurate
  simp only []
  constructor <;> linarith

/-- The equation of time of day 28 is about -12.4 minutes. -/
theorem equationOfTime28_bounds :
    -12.4051 ≤ calculateEquationOfTimeAccurate 28 ∧
      calculateEquationOfTimeAccurate 28 ≤ -12.3465 := by
  obtain ⟨g1, g2⟩ := gamma28_bounds
  obtain ⟨⟨a1, a2⟩, ⟨b1, b2⟩, ⟨c1, c2⟩, ⟨d1, d2⟩, -, -⟩ := trig28_bounds _ g1 g2
  unfold calculateEquationOfTimeAccurate
  simp only []
  constructor <;> linarith

theorem mathRound_newYork : mathRound ((-74.0060 : ℝ) / 15.0) = -5 := by
  have := mathRound_eq_of_near (x := (-74.0060 : ℝ) / 15.0) (-5) (by norm_num) (by norm_num)
  simpa using this

theorem parsedTime_newYork :
    parsedTime (-74.0060) 2026 1 28 12 0 =
      Date 2026 1 28 12 0 0 0 (FixedZone "Local" (-18000)) := by
  unfold parsedTime timeZoneOffsetSeconds
  rw [mathRound_newYork]
  have : toInt ((-5 : ℝ) * 60 * 60) = -18000 := by
    have h := toInt_intCast (-18000)
    rw [← h]
    congr 1
    norm_num
  rw [this]

/-- The solar time of the example: `12 + (eot + 3.976)/60`, about 11.86 h. -/
theorem solarTime_newYork :
    calculateSolarTimeAccurate (Date 2026 1 28 12 0 0 0 (FixedZone "Local" (-18000)))
      (-74.0060) (calculateEquationOfTimeAccurate 28) =
      12 + (calculateEquationOfTimeAccurate 28 + 3.976) / 60 := by
  obtain ⟨e1, e2⟩ := equationOfTime28_bounds
  have hclock : (Date 2026 1 28 12 0 0 0 (FixedZone "Local" (-18000))).Clock = (12, 0, 0) := by
    decide
  have hst : standardTime (Date 2026 1 28 12 0 0 0 (FixedZone "Local" (-18000))) = 12 := by
    unfold standardTime
    rw [hclock]
    norm_num
  have hct : correctedTime 12 (-74.0060) (calculateEquationOfTimeAccurate 28) =
      12 + (calculateEquationOfTimeAccurate 28 + 3.976) / 60 := by
    unfold correctedTime standardMeridian
    rw [mathRound_newYork]
    norm_num
  rw [calculateSolarTimeAccurate, hst, hct, addLoop_of_nonneg (by linarith),
    subLoop_of_lt (by linarith)]

/-- The hour angle of the example is about -0.0367 rad (-2.1°). -/
theorem hourAngle_newYork :
    -0.036779 ≤ hourAngle (12 + (calculateEquationOfTimeAccurate 28 + 3.976) / 60) ∧
      hourAngle (12 + (calculateEquationOfTimeAccurate 28 + 3.976) / 60) ≤ -0.036523 := by
  obtain ⟨e1, e2⟩ := equationOfTime28_bounds
  have h1 := Real.pi_gt_d6
  have h2 := Real.pi_lt_d6
  have e : hourAngle (12 + (calculateEquationOfTimeAccurate 28 + 3.976) / 60) =
      (calculateEquationOfTimeAccurate 28 + 3.976) * Real.pi / 720 := by
    unfold hourAngle
    ring
  rw [e]
  have y1 : -8.4291 ≤ calculateEquationOfTimeAccurate 28 + 3.976 := by linarith
  have y2 : calculateEquationOfTimeAccurate 28 + 3.976 ≤ -8.3705 := by linarith
  have p1 : (calculateEquationOfTimeAccurate 28 + 3.976) * Real.pi ≤ -8.3705 * 3.141592 := by
    have a := mul_le_mul_of_nonneg_right y2 Real.pi_pos.le
    have b : (-8.3705 : ℝ) * Real.pi ≤ -8.3705 * 3.141592 := by linarith
    linarith
  have p2 : -8.4291 * 3.141593 ≤ (calculateEquationOfTimeAccurate 28 + 3.976) * Real.pi := by
    have a := mul_le_mul_of_nonneg_right y1 Real.pi_pos.le
    have b : (-8.4291 : ℝ) * 3.141593 ≤ -8.4291 * Real.pi := by linarith
    linarith
  constructor
  · rw [le_div_iff₀ (by norm_num)]
    linarith
  · rw [div_le_iff₀ (by norm_num)]
    linarith

/-- The latitude of the example in radians, and its sine and cosine. -/
theorem latitude_newYork :
    (0.650775 ≤ Real.sin (40.7128 * Real.pi / 180) ∧
      Real.sin (40.7128 * Real.pi / 180) ≤ 0.652287) ∧
    (0.757986 ≤ Real.cos (40.7128 * Real.pi / 180) ∧
      Real.cos (40.7128 * Real.pi / 180) ≤ 0.758167) := by
  have h1 := Real.pi_gt_d6
  have h2 := Real.pi_lt_d6
  have p1 : (0.710572 : ℝ) ≤ 40.7128 * Real.pi / 180 := by
    rw [le_div_iff₀ (by norm_num)]
    linarith
  have p2 : 40.7128 * Real.pi / 180 ≤ (0.710573 : ℝ) := by
    rw [div_le_iff₀ (by norm_num)]
    linarith
  have s := sin_enclosure (0.710572) (0.710573) (by norm_num) p1 p2 (by norm_num)
  have c := cos_enclosure (0.710572) (0.710573) (by norm_num) p1 p2 (by norm_num)
  exact ⟨⟨le_trans (by norm_num) s.1, le_trans s.2 (by norm_num)⟩,
    ⟨le_trans (by norm_num) c.1, le_trans c.2 (by norm_num)⟩⟩

/-- Sine and cosine of the declination of day 28. -/
theorem declination28_trig :
    (-0.316019 ≤ Real.sin (calculateDeclinationAccurate 28) ∧
      Real.sin (calculateDeclinationAccurate 28) ≤ -0.315873) ∧
    (0.948753 ≤ Real.cos (calculateDeclinationAccurate 28) ∧
      Real.cos (calculateDeclinationAccurate 28) ≤ 0.948794) := by
  obtain ⟨d1, d2⟩ := declination28_bounds
  have s := sin_enclosure (0.321407) (0.32153)
    (x := -calculateDeclinationAccurate 28) (by norm_num) (by linarith) (by linarith)
    (by norm_num)
  have c := cos_enclosure (0.321407) (0.32153)
    (x := -calculateDeclinationAccurate 28) (by norm_num) (by linarith) (by linarith)
    (by norm_num)
  rw [Real.sin_neg] at s
  rw [Real.cos_neg] at c
  have s1 : (0.315873 : ℝ) ≤ -Real.sin (calculateDeclinationAccurate 28) :=
    le_trans (by norm_num) s.1
  have s2 : -Real.sin (calculateDeclinationAccurate 28) ≤ (0.316019 : ℝ) :=
    le_trans s.2 (by norm_num)
  exact ⟨⟨by linarith, by linarith⟩, ⟨le_trans (by norm_num) c.1, le_trans c.2 (by norm_num)⟩⟩

/-- Sine and cosine of an hour angle in [-0.036779, -0.036523]. -/
theorem hourAngle_trig {h : ℝ} (h1 : -0.036779 ≤ h) (h2 : h ≤ -0.036523) :
    (-0.036779 ≤ Real.sin h ∧ Real.sin h < 0) ∧ (0.999323 ≤ Real.cos h ∧ Real.cos h ≤ 1) := by
  have hpi := pi_gt_31415
  have s1 : Real.sin (-h) ≤ -h := Real.sin_le (by linarith)
  rw [Real.sin_neg] at s1
  have s2 : Real.sin h < 0 := Real.sin_neg_of_neg_of_neg_pi_lt (by linarith) (by linarith)
  have c1 := Real.one_sub_sq_div_two_le_cos (x := h)
  have hsq : h ^ 2 ≤ 0.036779 ^ 2 := by
    have : h ^ 2 = (-h) ^ 2 := by ring
    rw [this]
    exact pow_le_pow_left₀ (by linarith) (by linarith) 2
  refine ⟨⟨by linarith, s2⟩, ⟨?_, Real.cos_le_one h⟩⟩
  have : (0.999323 : ℝ) ≤ 1 - 0.036779 ^ 2 / 2 := by norm_num
  linarith

theorem mul_bounds {a b al ah bl bh : ℝ} (ha1 : al ≤ a) (ha2 : a ≤ ah) (hb1 : bl ≤ b)
    (hb2 : b ≤ bh) (hal : 0 ≤ al) (hbl : 0 ≤ bl) : al * bl ≤ a * b ∧ a * b ≤ ah * bh :=
  ⟨mul_le_mul ha1 hb1 hbl (le_trans hal ha1),
    mul_le_mul ha2 hb2 (le_trans hbl hb1) (le_trans hal (le_trans ha1 ha2))⟩

/-- The value `sinAltitude` of the example is about 0.5126. -/
theorem sinAltitude_newYork {h : ℝ} (h1 : -0.036779 ≤ h) (h2 : h ≤ -0.036523) :
    0.5125 ≤ sinAltitude (40.7128 * Real.pi / 180) (calculateDeclinationAccurate 28) h ∧
      sinAltitude (40.7128 * Real.pi / 180) (calculateDeclinationAccurate 28) h ≤ 0.513783 := by
  obtain ⟨⟨s1, s2⟩, ⟨c1, c2⟩⟩ := latitude_newYork
  obtain ⟨⟨u1, u2⟩, ⟨d1, d2⟩⟩ := declination28_trig
  obtain ⟨-, ⟨k1, k2⟩⟩ := hourAngle_trig h1 h2
  unfold sinAltitude
  obtain ⟨p1, p2⟩ := mul_bounds s1 s2 (show (0.315873 : ℝ) ≤
    -Real.sin (calculateDeclinationAccurate 28) by linarith)
    (show -Real.sin (calculateDeclinationAccurate 28) ≤ (0.316019 : ℝ) by linarith)
    (by norm_num) (by norm_num)
  obtain ⟨q1, q2⟩ := mul_bounds c1 c2 d1 d2 (by norm_num) (by norm_num)
  obtain ⟨r1, r2⟩ := mul_bounds q1 q2 k1 k2 (by norm_num) (by norm_num)
  norm_num at p1 p2 r1 r2
  constructor <;> linarith

/-- The geometric altitude of the example lies between 30° and 30.95°. -/
theorem altitude_newYork {s : ℝ} (h1 : 0.5125 ≤ s) (h2 : s ≤ 0.513783) :
    30 < Real.arcsin s * 180 / Real.pi ∧ Real.arcsin s * 180 / Real.pi < 30.95 := by
  have hpi := Real.pi_pos
  have p1 := Real.pi_gt_d6
  have p2 := Real.pi_lt_d6
  have hs : s ∈ Set.Icc (-1 : ℝ) 1 := ⟨by linarith, by linarith⟩
  constructor
  · rw [lt_div_iff₀ hpi]
    have : Real.pi / 6 < Real.arcsin s := by
      rw [Real.lt_arcsin_iff_sin_lt ⟨by linarith, by linarith⟩ hs, Real.sin_pi_div_six]
      linarith
    linarith
  · rw [div_lt_iff₀ hpi]
    have hlo : (0.540178 : ℝ) ≤ 30.95 * Real.pi / 180 := by
      rw [le_div_iff₀ (by norm_num)]
      linarith
    have hhi : 30.95 * Real.pi / 180 ≤ (0.5403 : ℝ) := by
      rw [div_le_iff₀ (by norm_num)]
      linarith
    have e := sin_enclosure (0.540178) (0.5403) (by norm_num) hlo hhi (by norm_num)
    have e1 : (0.5139 : ℝ) ≤ Real.sin (30.95 * Real.pi / 180) := le_trans (by norm_num) e.1
    have : Real.arcsin s < 30.95 * Real.pi / 180 := by
      rw [Real.arcsin_lt_iff_lt_sin hs ⟨by linarith, by linarith⟩]
      linarith
    linarith

/-- Between 30° and 30.95° the refraction correction lies in (0°, 0.035°). -/
theorem refraction_newYork {altitude : ℝ} (h1 : 30 < altitude) (h2 : altitude < 30.95) :
    0 < refractionCorrection altitude ∧ refractionCorrection altitude < 0.035 := by
  have p1 := Real.pi_gt_d6
  have p2 := Real.pi_lt_d6
  obtain ⟨_, _, hδ0, hδ1, _, _⟩ :=
    refraction_angle_range altitude rfl rfl rfl (by linarith) (by linarith)
  have ha1 : (0.5235 : ℝ) ≤ altitude * Real.pi / 180.0 := by
    rw [le_div_iff₀ (by norm_num)]
    nlinarith
  have ha2 : altitude * Real.pi / 180.0 ≤ (0.5403 : ℝ) := by
    rw [div_le_iff₀ (by norm_num)]
    nlinarith
  have hx1 : (0.5235 : ℝ) ≤ altitude * Real.pi / 180.0 +
      0.003138 / (altitude * Real.pi / 180.0 + 0.089186) := by linarith
  have hx2 : altitude * Real.pi / 180.0 +
      0.003138 / (altitude * Real.pi / 180.0 + 0.089186) ≤ (0.5803 : ℝ) := by linarith
  have s := sin_enclosure (0.5235) (0.5803) (by norm_num) hx1 hx2 (by norm_num)
  have c := cos_enclosure (0.5235) (0.5803) (by norm_num) hx1 hx2 (by norm_num)
  have s1 : (0.49 : ℝ) ≤ Real.sin (altitude * Real.pi / 180.0 +
      0.003138 / (altitude * Real.pi / 180.0 + 0.089186)) := le_trans (by norm_num) s.1
  have c1 : (0.8 : ℝ) ≤ Real.cos (altitude * Real.pi / 180.0 +
      0.003138 / (altitude * Real.pi / 180.0 + 0.089186)) := le_trans (by norm_num) c.1
  have c2 := Real.cos_le_one (altitude * Real.pi / 180.0 +
      0.003138 / (altitude * Real.pi / 180.0 + 0.089186))
  have hr : refractionCorrection altitude =
      0.016667 * Real.cos (altitude * Real.pi / 180.0 +
        0.003138 / (altitude * Real.pi / 180.0 + 0.089186)) /
      Real.sin (altitude * Real.pi / 180.0 +
        0.003138 / (altitude * Real.pi / 180.0 + 0.089186)) := by
    unfold refractionCorrection
    simp only []
    rw [if_pos (by linarith), Real.tan_eq_sin_div_cos, div_div_eq_mul_div]
  rw [hr]
  constructor
  · exact div_pos (by linarith) (by linarith)
  · rw [div_lt_iff₀ (by linarith)]
    linarith

theorem clampCos_fin_le {c b : ℝ} (hc : c ≤ b) (hb : -1 ≤ b) (hb1 : b ≤ 1) :
    ∃ d : ℝ, clampCos (F64.fin c) = F64.fin d ∧ -1 ≤ d ∧ d ≤ b := by
  unfold clampCos
  by_cases h1 : (F64.fin c).gt 1
  · have h1' : 1 < c := h1
    linarith
  · rw [if_neg h1]
    by_cases h2 : (F64.fin c).lt (-1)
    · rw [if_pos h2]
      exact ⟨-1, rfl, le_rfl, hb⟩
    · rw [if_neg h2]
      have h2' : ¬ c < -1 := h2
      exact ⟨c, rfl, not_lt.mp h2', hc⟩

/-- For negative `y` and `x`, `math.Atan2(y, x)` is `q - π` with `0 < q < y/x`. -/
theorem F64.atan2_neg_neg {v u : ℝ} (hv : v < 0) (hu : u < 0) :
    ∃ q : ℝ, F64.atan2 (F64.fin v) (F64.fin u) = F64.fin (q - Real.pi) ∧ 0 < q ∧ q < v / u := by
  have hq : 0 < Real.arctan (v / u) := by
    rw [← Real.arctan_zero]
    exact Real.arctan_strictMono (div_pos_of_neg_of_neg hv hu)
  refine ⟨Real.arctan (v / u), ?_, hq, ?_⟩
  · unfold F64.atan2
    simp only []
    rw [if_neg hv.ne, if_neg hu.ne, if_pos hu, if_neg (not_le.mpr hq)]
  · have h := Real.lt_tan hq (Real.arctan_lt_pi_div_two _)
    rwa [Real.tan_arctan] at h

/-- The divisor `cos(altitude)` of the example, for an altitude between 30° and 31°. -/
theorem cosAltitude_newYork {altitude : ℝ} (a1 : 30 < altitude) (a2 : altitude < 31) :
    0.85 ≤ Real.cos (altitude * Real.pi / 180) ∧ Real.cos (altitude * Real.pi / 180) ≤ 1 := by
  have hpi := Real.pi_pos
  have p2 := Real.pi_lt_d6
  have hx1 : (0 : ℝ) ≤ altitude * Real.pi / 180 := by positivity
  have hx2 : altitude * Real.pi / 180 ≤ (0.5411 : ℝ) := by
    rw [div_le_iff₀ (by norm_num)]
    have := mul_le_mul_of_nonneg_right a2.le hpi.le
    linarith
  have hD := cos_enclosure (0) (0.5411) (by norm_num) hx1 hx2 (by norm_num)
  exact ⟨le_trans (by norm_num) hD.1, Real.cos_le_one _⟩

/-- The value `cosAzimuth` of the example is at most -0.85. -/
theorem cosAzimuth_newYork {h altitude : ℝ} (h1 : -0.036779 ≤ h) (h2 : h ≤ -0.036523)
    (a1 : 30 < altitude) (a2 : altitude < 31) :
    ∃ d : ℝ, cosAzimuth (40.7128 * Real.pi / 180) (calculateDeclinationAccurate 28) h altitude =
      F64.fin d ∧ -1 ≤ d ∧ d ≤ -0.85 := by
  obtain ⟨⟨s1, s2⟩, ⟨c1, c2⟩⟩ := latitude_newYork
  obtain ⟨⟨u1, u2⟩, ⟨d1, d2⟩⟩ := declination28_trig
  obtain ⟨-, ⟨k1, k2⟩⟩ := hourAngle_trig h1 h2
  obtain ⟨hD1, hD2⟩ := cosAltitude_newYork a1 a2
  have hDpos : 0 < Real.cos (altitude * Real.pi / 180) := by linarith
  obtain ⟨q1, -⟩ := mul_bounds (show (0.315873 : ℝ) ≤
    -Real.sin (calculateDeclinationAccurate 28) by linarith)
    (show -Real.sin (calculateDeclinationAccurate 28) ≤ (0.316019 : ℝ) by linarith)
    c1 c2 (by norm_num) (by norm_num)
  obtain ⟨r1, -⟩ := mul_bounds d1 d2 s1 s2 (by norm_num) (by norm_num)
  obtain ⟨t1, -⟩ := mul_bounds r1 (le_refl _) k1 k2 (by norm_num) (by norm_num)
  have hnum : Real.sin (calculateDeclinationAccurate 28) * Real.cos (40.7128 * Real.pi / 180) -
      Real.cos (calculateDeclinationAccurate 28) * Real.sin (40.7128 * Real.pi / 180) *
        Real.cos h ≤ -0.85 := by
    norm_num at q1 t1
    linarith
  have hc0 : (Real.sin (calculateDeclinationAccurate 28) * Real.cos (40.7128 * Real.pi / 180) -
      Real.cos (calculateDeclinationAccurate 28) * Real.sin (40.7128 * Real.pi / 180) *
        Real.cos h) / Real.cos (altitude * Real.pi / 180) ≤ -0.85 := by
    rw [div_le_iff₀ hDpos]
    linarith
  obtain ⟨d, hd, dl, dh⟩ := clampCos_fin_le hc0 (by norm_num) (by norm_num)
  refine ⟨d, ?_, dl, dh⟩
  unfold cosAzimuth
  rw [F64.div_of_ne hDpos.ne', hd]

/-- The value `sinAzimuth` of the example lies in [-0.042, 0). -/
theorem sinAzimuth_newYork {h altitude : ℝ} (h1 : -0.036779 ≤ h) (h2 : h ≤ -0.036523)
    (a1 : 30 < altitude) (a2 : altitude < 31) :
    ∃ s : ℝ, sinAzimuth (calculateDeclinationAccurate 28) h altitude = F64.fin s ∧
      -0.042 ≤ s ∧ s < 0 := by
  obtain ⟨-, ⟨d1, d2⟩⟩ := declination28_trig
  obtain ⟨⟨m1, m2⟩, -⟩ := hourAngle_trig h1 h2
  obtain ⟨hD1, hD2⟩ := cosAltitude_newYork a1 a2
  have hDpos : 0 < Real.cos (altitude * Real.pi / 180) := by linarith
  have hsn1 : Real.sin h * Real.cos (calculateDeclinationAccurate 28) < 0 :=
    mul_neg_of_neg_of_pos m2 (by linarith)
  have hsn2 : -0.0349 ≤ Real.sin h * Real.cos (calculateDeclinationAccurate 28) := by
    obtain ⟨-, w2⟩ := mul_bounds (show (0 : ℝ) ≤ -Real.sin h by linarith)
      (show -Real.sin h ≤ (0.036779 : ℝ) by linarith) d1 d2 le_rfl (by norm_num)
    norm_num at w2
    linarith
  refine ⟨_, ?_, ?_, div_neg_of_neg_of_pos hsn1 hDpos⟩
  · unfold sinAzimuth
    rw [F64.div_of_ne hDpos.ne']
  · rw [le_div_iff₀ hDpos]
    linarith

/-- The azimuth of the example, for a corrected altitude between 30° and 31°
and an hour angle in [-0.036779, -0.036523]. -/
theorem azimuth_newYork {h altitude : ℝ} (h1 : -0.036779 ≤ h) (h2 : h ≤ -0.036523)
    (a1 : 30 < altitude) (a2 : altitude < 31) :
    ∃ az : ℝ, azimuthOf (40.7128 * Real.pi / 180) (calculateDeclinationAccurate 28) h altitude =
      F64.fin az ∧ 180 < az ∧ az < 190 := by
  have hpi := Real.pi_pos
  have p1 := Real.pi_gt_d6
  obtain ⟨d, hd, dl, dh⟩ := cosAzimuth_newYork h1 h2 a1 a2
  obtain ⟨s, hs, sl, sh⟩ := sinAzimuth_newYork h1 h2 a1 a2
  obtain ⟨q, hq, q0, q1⟩ := F64.atan2_neg_neg sh (show d < 0 by linarith)
  have hq2 : q < 0.05 := by
    have : s / d ≤ 0.05 := by
      rw [div_le_iff_of_neg (by linarith)]
      linarith
    linarith
  have e2 : ((F64.fin (q - Real.pi)).mulR 180).divR Real.pi =
      F64.fin ((q - Real.pi) * 180 / Real.pi) := by
    show F64.div ((q - Real.pi) * 180) Real.pi = _
    exact F64.div_of_ne hpi.ne'
  have hval : (q - Real.pi) * 180 / Real.pi = q * 180 / Real.pi - 180 := by
    field_simp
    ring
  have hqd1 : 0 < q * 180 / Real.pi := by positivity
  have hqd2 : q * 180 / Real.pi < 10 := by
    rw [div_lt_iff₀ hpi]
    linarith
  have e3 : (F64.fin ((q - Real.pi) * 180 / Real.pi)).lt 0 := by
    show (q - Real.pi) * 180 / Real.pi < 0
    rw [hval]
    linarith
  refine ⟨(q - Real.pi) * 180 / Real.pi + 360, ?_, by rw [hval]; linarith,
    by rw [hval]; linarith⟩
  unfold azimuthOf
  simp only [hs, hd, hq, e2]
  split_ifs with hlt
  · rfl
  · rw [hs, hd, hq, e2] at hlt
    exact absurd e3 hlt

/-- The result of `CalculateSunPosition` in the example: an altitude between
30° and 31° and an azimuth between 180° and 190°. -/
theorem CalculateSunPosition_newYork :
    ∃ altitude azimuth : ℝ,
      CalculateSunPosition 40.7128 (-74.0060) (parsedTime (-74.0060) 2026 1 28 12 0) =
        some (altitude, F64.fin azimuth) ∧
      (30 < altitude ∧ altitude < 31) ∧ (180 < azimuth ∧ azimuth < 190) := by
  have hdate : (Date 2026 1 28 12 0 0 0 (FixedZone "Local" (-18000))).Date = (2026, 1, 28) := by
    decide
  have hn : specDayOfYear 2026 1 28 = 28 := by decide
  obtain ⟨h1, h2⟩ := hourAngle_newYork
  obtain ⟨s1, s2⟩ := sinAltitude_newYork h1 h2
  obtain ⟨a1, a2⟩ := altitude_newYork s1 s2
  obtain ⟨r1, r2⟩ := refraction_newYork a1 a2
  obtain ⟨az, haz, z1, z2⟩ := azimuth_newYork h1 h2
    (show 30 < Real.arcsin (sinAltitude (40.7128 * Real.pi / 180)
        (calculateDeclinationAccurate 28)
        (hourAngle (12 + (calculateEquationOfTimeAccurate 28 + 3.976) / 60))) * 180 / Real.pi +
      refractionCorrection (Real.arcsin (sinAltitude (40.7128 * Real.pi / 180)
        (calculateDeclinationAccurate 28)
        (hourAngle (12 + (calculateEquationOfTimeAccurate 28 + 3.976) / 60))) * 180 / Real.pi)
      by linarith)
    (by linarith)
  rw [parsedTime_newYork, CalculateSunPosition_eq]
  simp only [hdate, hn, solarTime_newYork]
  exact ⟨_, az, by rw [haz], ⟨by linarith, by linarith⟩, z1, z2⟩

/-- C9, as amended: for latitude 40.7128, longitude -74.0060, local date
2026-01-28 (day of year 28) and local time 12:00, `CalculateSunPosition`
returns an altitude between 30° and 31° and an azimuth between 180° and 190°
(inside the 170–190° range). -/
theorem CalculateSunPosition_newYork_range :
    ∃ altitude azimuth : ℝ,
      CalculateSunPosition 40.7128 (-74.0060) (parsedTime (-74.0060) 2026 1 28 12 0) =
        some (altitude, F64.fin azimuth) ∧
      (30 < altitude ∧ altitude < 31) ∧ (180 < azimuth ∧ azimuth < 190) ∧
      (170 ≤ azimuth ∧ azimuth ≤ 190) := by
  obtain ⟨altitude, azimuth, h, ha, hz⟩ := CalculateSunPosition_newYork
  exact ⟨altitude, azimuth, h, ha, hz, by linarith [hz.1], hz.2.le⟩

/-- Counterexample to C9 as stated: at latitude 40.7128, longitude -74.0060,
2026-01-28 12:00 local time, the altitude that `CalculateSunPosition` returns is
not in the 25–30° range (it exceeds 30°). -/
theorem CalculateSunPosition_newYork_not_25_30 :
    ¬ ∃ altitude azimuth : ℝ,
      CalculateSunPosition 40.7128 (-74.0060) (parsedTime (-74.0060) 2026 1 28 12 0) =
        some (altitude, F64.fin azimuth) ∧
      (25 ≤ altitude ∧ altitude ≤ 30) ∧ (170 ≤ azimuth ∧ azimuth ≤ 190) := by
  rintro ⟨altitude, azimuth, h, ⟨-, h30⟩, -⟩
  obtain ⟨a, z, h2, ⟨ha, -⟩, -⟩ := CalculateSunPosition_newYork
  rw [h] at h2
  have e : altitude = a := congrArg Prod.fst (Option.some.inj h2)
  linarith

/-- Witness of C10 at the longitude of New York, -74.0060: both offsets are
-18000 seconds, that is -5 hours, and the standard meridian is -75°. -/
theorem timeZoneOffsetSeconds_eq_tzOffset_witness :
    timeZoneOffsetSeconds (-74.0060) = tzOffsetHours (-74.0060) * 3600 ∧
    FixedZone "Local" (timeZoneOffsetSeconds (-74.0060)) =
      FixedZone "Local" (tzOffsetHours (-74.0060) * 3600) ∧
    -12 ≤ tzOffsetHours (-74.0060) ∧ tzOffsetHours (-74.0060) ≤ 12 ∧
    ((tzOffsetHours (-74.0060) : Int) : ℝ) * 15 = standardMeridian (-74.0060) :=
  timeZoneOffsetSeconds_eq_tzOffset (-74.0060) (by norm_num) (by norm_num)

/-! ## The city table: proofs -/

/-- A loop that appends the elements passing a test builds the filtered list. -/
theorem foldl_append_filter {α : Type} (p : α → Bool) (l acc : List α) :
    l.foldl (fun cities city => if p city then cities ++ [city] else cities) acc
      = acc ++ l.filter p := by
  induction l generalizing acc with
  | nil => simp
  | cons x xs ih =>
    by_cases h : p x = true
    · simp [List.foldl_cons, List.filter_cons, h, ih]
    · simp [List.foldl_cons, List.filter_cons, h, ih]

/-- Go `GetCitiesByCountry` is the filter of the table. -/
theorem GetCitiesByCountry_eq_filter (country : String) :
    GetCitiesByCountry country = CommonCities.filter (fun city => city.Country == country) := by
  unfold GetCitiesByCountry
  rw [foldl_append_filter (fun city : City => city.Country == country)]
  simp

/-- The invariant of the loop of `GetCountries`: after the cities `pre`, the map
holds exactly the countries of the slice, the slice has no duplicates, holds
exactly the countries of `pre`, and lists them by first occurrence. -/
theorem countriesStep_invariant (rest pre : List City) (st : List String × List String)
    (hseen : ∀ s, s ∈ st.1 ↔ s ∈ st.2)
    (hnodup : st.2.Nodup)
    (hmem : ∀ s, s ∈ st.2 ↔ s ∈ pre.map City.Country)
    (hord : st.2.Pairwise (fun a b =>
      (pre.map City.Country).indexOf a < (pre.map City.Country).indexOf b)) :
    (∀ s, s ∈ (rest.foldl countriesStep st).1 ↔ s ∈ (rest.foldl countriesStep st).2) ∧
    (rest.foldl countriesStep st).2.Nodup ∧
    (∀ s, s ∈ (rest.foldl countriesStep st).2 ↔ s ∈ (pre ++ rest).map City.Country) ∧
    (rest.foldl countriesStep st).2.Pairwise (fun a b =>
      ((pre ++ rest).map City.Country).indexOf a < ((pre ++ rest).map City.Country).indexOf b) := by
  induction rest generalizing pre st with
  | nil =>
    rw [List.append_nil]
    exact ⟨hseen, hnodup, hmem, hord⟩
  | cons c cs ih =>
    have e : pre ++ c :: cs = (pre ++ [c]) ++ cs := by simp
    rw [List.foldl_cons, e]
    have hidx : ∀ a ∈ st.2, ((pre ++ [c]).map City.Country).indexOf a
        = (pre.map City.Country).indexOf a := by
      intro a ha
      rw [List.map_append, List.indexOf_append_of_mem ((hmem a).1 ha)]
    by_cases hc : c.Country ∈ st.1
    · have hstep : countriesStep st c = st := by
        simp [countriesStep, hc]
      rw [hstep]
      refine ih (pre ++ [c]) st hseen hnodup ?_ ?_
      · intro s
        rw [hmem s, List.map_append, List.mem_append]
        constructor
        · exact Or.inl
        · rintro (h | h)
          · exact h
          · simp only [List.map_cons, List.map_nil, List.mem_singleton] at h
            rw [h]
            exact (hmem _).1 ((hseen _).1 hc)
      · refine hord.imp_of_mem ?_
        intro a b ha hb hab
        rw [hidx a ha, hidx b hb]
        exact hab
    · have hstep : countriesStep st c = (c.Country :: st.1, st.2 ++ [c.Country]) := by
        simp [countriesStep, hc]
      have hc2 : c.Country ∉ st.2 := fun h => hc ((hseen _).2 h)
      have hc3 : c.Country ∉ pre.map City.Country := fun h => hc2 ((hmem _).2 h)
      rw [hstep]
      refine ih (pre ++ [c]) _ ?_ ?_ ?_ ?_
      · intro s
        simp only [List.mem_cons, List.mem_append, List.mem_singleton, List.not_mem_nil,
          or_false, hseen s]
        exact or_comm
      · dsimp only
        rw [List.nodup_append]
        refine ⟨hnodup, List.nodup_singleton _, ?_⟩
        intro a ha hb
        rw [List.mem_singleton] at hb
        exact hc2 (hb ▸ ha)
      · intro s
        simp only [List.mem_append, List.mem_singleton, List.map_append, List.map_cons,
          List.map_nil, hmem s]
      · dsimp only
        rw [List.pairwise_append]
        refine ⟨?_, List.pairwise_singleton _ _, ?_⟩
        · refine hord.imp_of_mem ?_
          intro a b ha hb hab
          rw [hidx a ha, hidx b hb]
          exact hab
        · intro a ha b hb
          rw [List.mem_singleton] at hb
          rw [hidx a ha, hb, List.map_append, List.indexOf_append_of_not_mem hc3]
          have := List.indexOf_lt_length.2 ((hmem a).1 ha)
          omega

/-- The properties of `GetCountries`: no duplicates, exactly the countries of the
table, in the order of their first rows. -/
theorem GetCountries_spec :
    GetCountries.Nodup ∧
    (∀ s, s ∈ GetCountries ↔ s ∈ CommonCities.map City.Country) ∧
    GetCountries.Pairwise (fun a b =>
      (CommonCities.map City.Country).indexOf a < (CommonCities.map City.Country).indexOf b) := by
  have h := countriesStep_invariant CommonCities [] ([], []) (by simp) (by simp) (by simp)
    (by simp)
  rw [List.nil_append] at h
  exact ⟨h.2.1, h.2.2.1, h.2.2.2⟩

/-! ## The request handler: proofs -/

/-- The rows of the table have a name and a country. -/
theorem CommonCities_names : ∀ c ∈ CommonCities, c.Name ≠ "" ∧ c.Country ≠ "" := by
  decide

/-- The coordinates of the rows of the table are geographic coordinates. -/
theorem CommonCities_coordinates : ∀ c ∈ CommonCities,
    -90 ≤ c.Latitude ∧ c.Latitude ≤ 90 ∧ -180 ≤ c.Longitude ∧ c.Longitude ≤ 180 := by
  unfold CommonCities
  simp only [List.forall_mem_cons, List.not_mem_nil, false_imp_iff, implies_true, and_true]
  norm_num

/-- Without a location for the client address the handler falls back on the
coordinates 15.5007, 32.5599 and the name Khartoum. -/
theorem locationFromIP_default (env : Collaborators) (clientIP : String)
    (h : env.getLocationFromIP clientIP = none) :
    locationFromIP env clientIP = (15.5007, 32.5599, "Khartoum") := by
  unfold locationFromIP
  simp [h]

/-- No city folds to the given name: the search of the handler finds nothing. -/
theorem findCity_none (equalFold : String → String → Bool) (name : String)
    (h : ∀ city ∈ CommonCities, equalFold city.Name name = false) :
    findCity equalFold name = none := by
  unfold findCity
  rw [List.find?_eq_none]
  intro city hcity
  simp [h city hcity]

/-- The search of the handler returns the first row whose name folds to the given
name. -/
theorem findCity_first (equalFold : String → String → Bool) (name : String)
    (pre post : List City) (city : City) (hsplit : CommonCities = pre ++ city :: post)
    (hpre : ∀ c ∈ pre, equalFold c.Name name = false) (hcity : equalFold city.Name name = true) :
    findCity equalFold name = some city := by
  unfold findCity
  rw [List.find?_eq_some]
  refine ⟨hcity, pre, post, hsplit, ?_⟩
  intro c hc
  simp [hpre c hc]

/-- An error of the first part of the handler is the response of the handler. -/
theorem SunPositionHandler_of_error (env : Collaborators) (req : Request) (response : Response)
    (h : resolveCoordinates env req = Except.error response) :
    SunPositionHandler env req = response := by
  unfold SunPositionHandler
  rw [h]

/-- C13: every row of `CommonCities` has a non-empty name, a non-empty country, a
latitude in [-90, 90] and a longitude in [-180, 180]; the table has at least 10
rows; and it holds Khartoum (Sudan) at exactly (15.5007, 32.5599), the
coordinates the handler falls back on when the client address yields no
location. -/
theorem CommonCities_valid :
    (∀ c ∈ CommonCities, c.Name ≠ "" ∧ c.Country ≠ "" ∧
      -90 ≤ c.Latitude ∧ c.Latitude ≤ 90 ∧ -180 ≤ c.Longitude ∧ c.Longitude ≤ 180) ∧
    10 ≤ CommonCities.length ∧
    (∃ c ∈ CommonCities, c.Name = "Khartoum" ∧ c.Country = "Sudan" ∧
      c.Latitude = 15.5007 ∧ c.Longitude = 32.5599 ∧
      ∀ (env : Collaborators) (clientIP : String), env.getLocationFromIP clientIP = none →
        locationFromIP env clientIP = ((c.Latitude : ℝ), (c.Longitude : ℝ), "Khartoum")) := by
  refine ⟨fun c hc => ?_, by decide, ⟨"Khartoum", 15.5007, 32.5599, "Sudan"⟩,
    List.mem_cons_self _ _, rfl, rfl, rfl, rfl, ?_⟩
  · exact ⟨(CommonCities_names c hc).1, (CommonCities_names c hc).2, CommonCities_coordinates c hc⟩
  · intro env clientIP h
    rw [locationFromIP_default env clientIP h]
    norm_num

/-- C14: `GetCountries` has no duplicates, holds exactly the countries of the rows
of `CommonCities`, and lists them in the order of their first rows; a country
is in it exactly when `GetCitiesByCountry` returns a non-empty list; and
`GetCitiesByCountry country` is the sub-list, in table order, of the rows whose
`Country` is the string `country`, letter case included. -/
theorem GetCountries_GetCitiesByCountry_spec :
    GetCountries.Nodup ∧
    (∀ country, country ∈ GetCountries ↔ ∃ city ∈ CommonCities, city.Country = country) ∧
    GetCountries.Pairwise (fun a b =>
      (CommonCities.map City.Country).indexOf a < (CommonCities.map City.Country).indexOf b) ∧
    (∀ country, country ∈ GetCountries ↔ GetCitiesByCountry country ≠ []) ∧
    (∀ country, GetCitiesByCountry country
      = CommonCities.filter (fun city => decide (city.Country = country))) ∧
    GetCitiesByCountry "USA" ≠ [] ∧ GetCitiesByCountry "usa" = [] := by
  have hmem : ∀ country, country ∈ GetCountries ↔ ∃ city ∈ CommonCities, city.Country = country := by
    intro country
    rw [GetCountries_spec.2.1 country, List.mem_map]
  have hfilter : ∀ country, GetCitiesByCountry country
      = CommonCities.filter (fun city => decide (city.Country = country)) := by
    intro country
    exact GetCitiesByCountry_eq_filter country
  have hne : ∀ country, country ∈ GetCountries ↔ GetCitiesByCountry country ≠ [] := by
    intro country
    rw [hmem country, hfilter country, Ne, List.filter_eq_nil_iff]
    simp
  refine ⟨GetCountries_spec.1, hmem, GetCountries_spec.2.2, hne, hfilter, ?_, ?_⟩
  · rw [← hne, hmem]
    exact ⟨⟨"New York", 40.7128, (-74.0060), "USA"⟩, by simp [CommonCities], rfl⟩
  · rw [hfilter, List.filter_eq_nil_iff]
    have : ∀ city ∈ CommonCities, city.Country ≠ "usa" := by decide
    intro city hcity
    simpa using this city hcity

/-- C12: for a request with a non-empty `city` parameter, (1) if no row of
`CommonCities` has a name equal to it under `strings.EqualFold`, the handler
stops in its first part, before any sun position is computed, and answers with
status 400 and "City not found"; (2) if a row matches and no earlier row does,
the handler goes on with the latitude and longitude of that row, whatever the
`lat` and `lon` parameters are. -/
theorem SunPositionHandler_city (env : Collaborators) (req : Request) (h : req.city ≠ "") :
    ((∀ city ∈ CommonCities, env.equalFold city.Name req.city = false) →
      resolveCoordinates env req = Except.error (Response.error 400 "City not found") ∧
      SunPositionHandler env req = Response.error 400 "City not found") ∧
    (∀ (pre post : List City) (city : City), CommonCities = pre ++ city :: post →
      (∀ c ∈ pre, env.equalFold c.Name req.city = false) →
      env.equalFold city.Name req.city = true →
      ∀ lat lon : String,
        resolveCoordinates env { req with lat := lat, lon := lon }
          = Except.ok ((city.Latitude : ℝ), (city.Longitude : ℝ), req.city)) := by
  constructor
  · intro hnone
    have e : resolveCoordinates env req = Except.error (Response.error 400 "City not found") := by
      unfold resolveCoordinates
      rw [if_pos h, findCity_none env.equalFold req.city hnone]
    exact ⟨e, SunPositionHandler_of_error env req _ e⟩
  · intro pre post city hsplit hpre hcity lat lon
    unfold resolveCoordinates
    rw [if_pos h, findCity_first env.equalFold req.city pre post city hsplit hpre hcity]

/-- C12 at two requests: the city "NonExistentCity" of the test is refused, and
the city "khartoum" gives the coordinates of the first row of the table although
`lat` and `lon` name another place. -/
theorem SunPositionHandler_city_witness :
    SunPositionHandler exampleCollaborators ⟨"NonExistentCity", "", "", "", "", ""⟩
      = Response.error 400 "City not found" ∧
    resolveCoordinates exampleCollaborators ⟨"khartoum", "1", "2", "", "", ""⟩
      = Except.ok (((15.5007 : ℚ) : ℝ), ((32.5599 : ℚ) : ℝ), "khartoum") :=
  ⟨((SunPositionHandler_city exampleCollaborators ⟨"NonExistentCity", "", "", "", "", ""⟩
      (by decide)).1 (by decide)).2,
    (SunPositionHandler_city exampleCollaborators ⟨"khartoum", "", "", "", "", ""⟩
      (by decide)).2 [] CommonCities.tail ⟨"Khartoum", 15.5007, 32.5599, "Sudan"⟩ rfl
      (by simp) (by decide) "1" "2"⟩

/-! ## Sunrise before sunset -/

/-- The conversion to an integer is monotone. -/
theorem toInt_mono {a b : ℝ} (h : a ≤ b) : toInt a ≤ toInt b := by
  unfold toInt
  by_cases ha : 0 ≤ a
  · rw [if_pos ha, if_pos (le_trans ha h)]
    exact Int.floor_le_floor h
  · rw [if_neg ha]
    by_cases hb : 0 ≤ b
    · rw [if_pos hb]
      have h1 : ⌈a⌉ ≤ 0 := Int.ceil_le.2 (by push_cast; linarith)
      have h2 : (0 : Int) ≤ ⌊b⌋ := Int.floor_nonneg.2 hb
      exact le_trans h1 h2
    · rw [if_neg hb]
      exact Int.ceil_le_ceil h

/-- The conversion to an integer moves a value by less than one. -/
theorem toInt_near (x : ℝ) : |((toInt x : Int) : ℝ) - x| < 1 := by
  unfold toInt
  rw [abs_lt]
  by_cases hx : 0 ≤ x
  · rw [if_pos hx]
    have h1 := Int.floor_le x
    have h2 := Int.lt_floor_add_one x
    constructor <;> linarith
  · rw [if_neg hx]
    have h1 := Int.le_ceil x
    have h2 := Int.ceil_lt_add_one x
    constructor <;> linarith

/-- Two values at most `k` apart, `k` a natural number of units, are converted to
integers at most `k` apart. -/
theorem toInt_le_add {a b : ℝ} (k : Int) (hk : 0 ≤ k) (h : b ≤ a + k) :
    toInt b ≤ toInt a + k := by
  have hmono := toInt_mono h
  refine le_trans hmono ?_
  unfold toInt
  by_cases ha : 0 ≤ a
  · have hak : 0 ≤ a + (k : ℝ) := add_nonneg ha (by exact_mod_cast hk)
    rw [if_pos ha, if_pos hak, Int.floor_add_int]
  · rw [if_neg ha]
    by_cases hak : 0 ≤ a + (k : ℝ)
    · rw [if_pos hak, Int.floor_add_int]
      have := Int.floor_le_ceil a
      omega
    · rw [if_neg hak, Int.ceil_add_int]

/-- A result of `CalculateSunriseSunset` other than the pair of zero times comes
from a `cosH0` that is NaN or a finite value in [-1,1]. -/
theorem cosH0_of_present (nanDuration : Int) (latitude longitude : ℝ) (date : Time) (n : Int)
    (hn : daysSinceJan1 date.Date.1 date.Date.2.1 date.Date.2.2 = some n)
    (hne : CalculateSunriseSunset nanDuration latitude longitude date
      ≠ some (Time.zero, Time.zero))
    (hnan : cosH0 latitude n ≠ F64.nan) :
    ∃ c : ℝ, cosH0 latitude n = F64.fin c ∧ -1 ≤ c ∧ c ≤ 1 := by
  have hg : ¬ ((cosH0 latitude n).gt 1 ∨ (cosH0 latitude n).lt (-1)) := fun hg =>
    hne (CalculateSunriseSunset_absent nanDuration latitude longitude date n hn hg)
  rcases hc : cosH0 latitude n with c | _ | _ | _
  · rw [hc] at hg
    simp only [F64.gt, F64.lt, not_or, not_lt] at hg
    exact ⟨c, rfl, hg.2, hg.1⟩
  · rw [hc] at hg
    exact absurd (Or.inl trivial) hg
  · rw [hc] at hg
    exact absurd (Or.inr trivial) hg
  · exact absurd hc hnan

/-- In exact real arithmetic, for all real latitude, declination and hour angle
`sinAltitude` lies in [-1,1]; hence `asin` is applied inside its domain (there
`sin (asin s) = s`) and the altitude before the refraction adjustment,
`asin(sinAltitude)` in degrees, lies in [-90, 90]; the altitude that
`CalculateSunPosition` returns is such an altitude plus its refraction
correction.  In `float64` the sum can round to a value above 1: see
`sinAltitude64`. -/
theorem sinAltitude_in_domain (latRad declinationRad hourAngle : ℝ) :
    -1 ≤ sinAltitude latRad declinationRad hourAngle ∧
    sinAltitude latRad declinationRad hourAngle ≤ 1 ∧
    Real.sin (Real.arcsin (sinAltitude latRad declinationRad hourAngle))
      = sinAltitude latRad declinationRad hourAngle ∧
    -90 ≤ Real.arcsin (sinAltitude latRad declinationRad hourAngle) * 180 / Real.pi ∧
    Real.arcsin (sinAltitude latRad declinationRad hourAngle) * 180 / Real.pi ≤ 90 ∧
    ∀ (latitude longitude : ℝ) (dateTime : Time), ∃ (d h altitude : ℝ) (azimuth : F64),
      altitude = Real.arcsin (sinAltitude (latitude * Real.pi / 180) d h) * 180 / Real.pi ∧
      -90 ≤ altitude ∧ altitude ≤ 90 ∧
      CalculateSunPosition latitude longitude dateTime
        = some (altitude + refractionCorrection altitude, azimuth) := by
  obtain ⟨h1, h2⟩ := sinAltitude_range latRad declinationRad hourAngle
  obtain ⟨h3, h4⟩ := arcsin_degrees_range (sinAltitude latRad declinationRad hourAngle)
  refine ⟨h1, h2, Real.sin_arcsin h1 h2, h3, h4, ?_⟩
  intro latitude longitude dateTime
  rw [CalculateSunPosition_eq]
  exact ⟨_, _, _, _, rfl, (arcsin_degrees_range _).1, (arcsin_degrees_range _).2, rfl⟩

/-- In exact real arithmetic, for a geometric altitude in [-90°, 90°] the
refraction-corrected altitude (the correction being
`0.016667/tan(a + 0.003138/(a + 0.089186))` above -0.575°, `a` the altitude in
radians, and `0.57644·exp(-0.00149·altitude) - 0.07156` otherwise) lies
strictly between -90° and 90°, so its cosine, the divisor of `cosAzimuth` and
`sinAzimuth`, is not zero; and every call of `CalculateSunPosition` returns an
altitude strictly between -90° and 90° and a finite azimuth.  In `float64` a
call can return NaN twice: see the `float64` evaluations at the end. -/
theorem CalculateSunPosition_complete (altitude latitude longitude : ℝ) (dateTime : Time)
    (h0 : -90 ≤ altitude) (h1 : altitude ≤ 90) :
    (altitude > -0.575 → refractionCorrection altitude
      = 0.016667 / Real.tan (altitude * Real.pi / 180.0
          + 0.003138 / (altitude * Real.pi / 180.0 + 0.089186))) ∧
    (¬ altitude > -0.575 → refractionCorrection altitude
      = 0.57644 * Real.exp (-0.00149 * altitude) - 0.07156) ∧
    -90 < altitude + refractionCorrection altitude ∧
    altitude + refractionCorrection altitude < 90 ∧
    Real.cos ((altitude + refractionCorrection altitude) * Real.pi / 180.0) ≠ 0 ∧
    ∃ corrected azimuth : ℝ,
      CalculateSunPosition latitude longitude dateTime = some (corrected, F64.fin azimuth) ∧
      -90 < corrected ∧ corrected < 90 := by
  obtain ⟨c1, c2⟩ := corrected_altitude_range h0 h1
  have hcos := (cos_corrected_altitude_pos h0 h1).ne'
  refine ⟨fun h => ?_, fun h => ?_, c1, c2, ?_, ?_⟩
  · unfold refractionCorrection
    simp only []
    rw [if_pos h]
  · unfold refractionCorrection
    simp only []
    rw [if_neg h]
  · rw [show (180.0 : ℝ) = 180 by norm_num]
    exact hcos
  · rw [CalculateSunPosition_eq]
    simp only []
    obtain ⟨r1, r2⟩ := arcsin_degrees_range (sinAltitude (latitude * Real.pi / 180)
      (calculateDeclinationAccurate
        (specDayOfYear dateTime.Date.1 dateTime.Date.2.1 dateTime.Date.2.2))
      (hourAngle (calculateSolarTimeAccurate dateTime longitude
        (calculateEquationOfTimeAccurate
          (specDayOfYear dateTime.Date.1 dateTime.Date.2.1 dateTime.Date.2.2)))))
    obtain ⟨a, ha, _, _⟩ := azimuthOf_range (latitude * Real.pi / 180)
      (calculateDeclinationAccurate
        (specDayOfYear dateTime.Date.1 dateTime.Date.2.1 dateTime.Date.2.2))
      (hourAngle (calculateSolarTimeAccurate dateTime longitude
        (calculateEquationOfTimeAccurate
          (specDayOfYear dateTime.Date.1 dateTime.Date.2.1 dateTime.Date.2.2))))
      _ (cos_corrected_altitude_pos r1 r2).ne'
    obtain ⟨k1, k2⟩ := corrected_altitude_range r1 r2
    exact ⟨_, a, by rw [ha], k1, k2⟩

/-- The exact-arithmetic bounds at the geometric altitude 0°, for New York at
noon of 28 January 2026. -/
theorem CalculateSunPosition_complete_witness :
    -90 < (0 : ℝ) + refractionCorrection 0 ∧ (0 : ℝ) + refractionCorrection 0 < 90 ∧
    Real.cos (((0 : ℝ) + refractionCorrection 0) * Real.pi / 180.0) ≠ 0 ∧
    ∃ corrected azimuth : ℝ,
      CalculateSunPosition 40.7128 (-74.0060) (parsedTime (-74.0060) 2026 1 28 12 0)
        = some (corrected, F64.fin azimuth) ∧
      -90 < corrected ∧ corrected < 90 :=
  (CalculateSunPosition_complete 0 40.7128 (-74.0060) (parsedTime (-74.0060) 2026 1 28 12 0)
    (by norm_num) (by norm_num)).2.2

/-- C16: for every integer day of the year the declination has absolute value at
most 0.488929 rad, the sum of the absolute values of the seven coefficients,
which is below π/2; so `cos(decl) > 0`, and for a latitude strictly between
-90° and 90° the divisor `cos(lat)·cos(decl)` of `cosH0` is not zero and
`cosH0` is a finite number. -/
theorem cosH0_divisor_ne_zero (latitude : ℝ) (dayOfYear : Int)
    (h0 : -90 < latitude) (h1 : latitude < 90) :
    |calculateDeclinationAccurate dayOfYear| ≤ 0.488929 ∧
    (0.006918 + 0.399912 + 0.070257 + 0.006758 + 0.000907 + 0.002697 + 0.00148 : ℝ)
      = 0.488929 ∧
    (0.488929 : ℝ) < Real.pi / 2 ∧
    0 < Real.cos (calculateDeclinationAccurate dayOfYear) ∧
    Real.cos (latitude * Real.pi / 180.0) * Real.cos (calculateDeclinationAccurate dayOfYear)
      ≠ 0 ∧
    ∃ c : ℝ, cosH0 latitude dayOfYear = F64.fin c := by
  have hpi := pi_gt_31415
  have hpos := Real.pi_pos
  have hlat : 0 < Real.cos (latitude * Real.pi / 180.0) := by
    apply Real.cos_pos_of_mem_Ioo
    constructor
    · have : -90 * Real.pi < latitude * Real.pi := mul_lt_mul_of_pos_right h0 hpos
      norm_num
      linarith
    · have : latitude * Real.pi < 90 * Real.pi := mul_lt_mul_of_pos_right h1 hpos
      norm_num
      linarith
  have hdecl := cos_declination_pos dayOfYear
  have hne : Real.cos (latitude * Real.pi / 180.0)
      * Real.cos (calculateDeclinationAccurate dayOfYear) ≠ 0 := (mul_pos hlat hdecl).ne'
  refine ⟨declination_abs_le dayOfYear, by norm_num, by linarith, hdecl, hne, ?_⟩
  unfold cosH0
  simp only []
  rw [F64.div_of_ne hne]
  exact ⟨_, rfl⟩

/-- C16 at the latitude of New York on day 28. -/
theorem cosH0_divisor_ne_zero_witness :
    Real.cos (40.7128 * Real.pi / 180.0) * Real.cos (calculateDeclinationAccurate 28) ≠ 0 ∧
    ∃ c : ℝ, cosH0 40.7128 28 = F64.fin c :=
  (cosH0_divisor_ne_zero 40.7128 28 (by norm_num) (by norm_num)).2.2.2.2

/-- C17: when `CalculateSunriseSunset` returns a sunrise and a sunset (a result
other than the pair of zero times, from a `cosH0` that is not NaN), `cosH0` is a
finite `c` in [-1,1] and `deltaHours c` lies in [0,12]; the two times are the
UTC midnight of the date plus `solarNoonUTC ∓ deltaHours` hours, cut to whole
nanoseconds, so each lies less than a nanosecond from `solarNoonUTC ∓ deltaHours`
hours after that midnight and their mean less than a nanosecond from
`solarNoonUTC` hours after it; the sunrise is not after the sunset; the sunset is at
most 24 hours after the sunrise; and the conversion to the local fixed zone
keeps the instant of each. -/
theorem CalculateSunriseSunset_ordered (nanDuration : Int) (latitude longitude : ℝ)
    (date sunrise sunset : Time) (n : Int)
    (hn : daysSinceJan1 date.Date.1 date.Date.2.1 date.Date.2.2 = some n)
    (hr : CalculateSunriseSunset nanDuration latitude longitude date = some (sunrise, sunset))
    (hne : (sunrise, sunset) ≠ (Time.zero, Time.zero))
    (hnan : cosH0 latitude n ≠ F64.nan) :
    ∃ (c : ℝ) (sunriseTimeUTC sunsetTimeUTC : Time),
      cosH0 latitude n = F64.fin c ∧ -1 ≤ c ∧ c ≤ 1 ∧
      0 ≤ deltaHours c ∧ deltaHours c ≤ 12 ∧
      solarNoonUTC longitude n
        = 12 - longitude / 15 - calculateEquationOfTimeAccurate n / 60 ∧
      sunriseTimeUTC = (Date date.Date.1 date.Date.2.1 date.Date.2.2 0 0 0 0
        (FixedZone "UTC" 0)).Add
          (toInt ((solarNoonUTC longitude n - deltaHours c) * 3600000000000)) ∧
      sunsetTimeUTC = (Date date.Date.1 date.Date.2.1 date.Date.2.2 0 0 0 0
        (FixedZone "UTC" 0)).Add
          (toInt ((solarNoonUTC longitude n + deltaHours c) * 3600000000000)) ∧
      sunrise = sunriseTimeUTC.In (FixedZone "Local" (tzOffsetHours longitude * 3600)) ∧
      sunset = sunsetTimeUTC.In (FixedZone "Local" (tzOffsetHours longitude * 3600)) ∧
      sunrise.abs = sunriseTimeUTC.abs ∧ sunset.abs = sunsetTimeUTC.abs ∧
      sunrise.abs ≤ sunset.abs ∧
      sunset.abs ≤ sunrise.abs + 24 * 3600000000000 ∧
      |((sunrise.abs - (Date date.Date.1 date.Date.2.1 date.Date.2.2 0 0 0 0
          (FixedZone "UTC" 0)).abs : Int) : ℝ)
        - (solarNoonUTC longitude n - deltaHours c) * 3600000000000| < 1 ∧
      |((sunset.abs - (Date date.Date.1 date.Date.2.1 date.Date.2.2 0 0 0 0
          (FixedZone "UTC" 0)).abs : Int) : ℝ)
        - (solarNoonUTC longitude n + deltaHours c) * 3600000000000| < 1 ∧
      |(((sunrise.abs - (Date date.Date.1 date.Date.2.1 date.Date.2.2 0 0 0 0
            (FixedZone "UTC" 0)).abs)
          + (sunset.abs - (Date date.Date.1 date.Date.2.1 date.Date.2.2 0 0 0 0
            (FixedZone "UTC" 0)).abs) : Int) : ℝ)
        - 2 * (solarNoonUTC longitude n * 3600000000000)| < 2 := by
  have hne2 : CalculateSunriseSunset nanDuration latitude longitude date
      ≠ some (Time.zero, Time.zero) := by
    rw [hr]
    exact fun h => hne (Option.some.inj h)
  obtain ⟨c, hc, c1, c2⟩ := cosH0_of_present nanDuration latitude longitude date n hn hne2 hnan
  obtain ⟨d1, d2⟩ := deltaHours_range c
  have hp := CalculateSunriseSunset_present nanDuration latitude longitude date n hn c hc c1 c2
  rw [hr] at hp
  have hpair := Option.some.inj hp
  have hrise := congrArg Prod.fst hpair
  have hset := congrArg Prod.snd hpair
  simp only [] at hrise hset
  have hnoon : solarNoonUTC longitude n
      = 12 - longitude / 15 - calculateEquationOfTimeAccurate n / 60 := by
    unfold solarNoonUTC
    norm_num
  have hle : (solarNoonUTC longitude n - deltaHours c) * 3600000000000
      ≤ (solarNoonUTC longitude n + deltaHours c) * 3600000000000 := by
    linarith
  have hle2 : (solarNoonUTC longitude n + deltaHours c) * 3600000000000
      ≤ (solarNoonUTC longitude n - deltaHours c) * 3600000000000
        + ((24 * 3600000000000 : Int) : ℝ) := by
    push_cast
    linarith
  have o1 := toInt_mono hle
  have o2 := toInt_le_add (24 * 3600000000000) (by norm_num) hle2
  have n1 := toInt_near ((solarNoonUTC longitude n - deltaHours c) * 3600000000000)
  have n2 := toInt_near ((solarNoonUTC longitude n + deltaHours c) * 3600000000000)
  refine ⟨c, _, _, hc, c1, c2, d1, d2, hnoon, rfl, rfl, hrise, hset, ?_, ?_, ?_, ?_, ?_, ?_, ?_⟩
  · rw [hrise]
    rfl
  · rw [hset]
    rfl
  · rw [hrise, hset]
    simp only [Time.In, Time.Add]
    omega
  · rw [hrise, hset]
    simp only [Time.In, Time.Add]
    omega
  · rw [hrise]
    simp only [Time.In, Time.Add, add_sub_cancel_left]
    exact n1
  · rw [hset]
    simp only [Time.In, Time.Add, add_sub_cancel_left]
    exact n2
  · rw [hrise, hset]
    simp only [Time.In, Time.Add, add_sub_cancel_left]
    rw [abs_lt] at n1 n2 ⊢
    push_cast
    constructor <;> linarith

/-- C17 on 1 January 2026 at longitude 0.72604224 and the latitude at which
`cosH0 = 0`: the sunrise at 06:00 is not after the sunset at 18:00, which is at
most 24 hours later. -/
theorem CalculateSunriseSunset_ordered_witness :
    CalculateSunriseSunset 0 roundTripLatitude 0.72604224
        (Date 2026 1 1 12 0 0 0 (FixedZone "Local" 0)) =
      some (Date 2026 1 1 6 0 0 0 (FixedZone "Local" 0),
        Date 2026 1 1 18 0 0 0 (FixedZone "Local" 0)) ∧
    (Date 2026 1 1 6 0 0 0 (FixedZone "Local" 0)).abs
      ≤ (Date 2026 1 1 18 0 0 0 (FixedZone "Local" 0)).abs ∧
    (Date 2026 1 1 18 0 0 0 (FixedZone "Local" 0)).abs
      ≤ (Date 2026 1 1 6 0 0 0 (FixedZone "Local" 0)).abs + 24 * 3600000000000 := by
  have hdate : (Date 2026 1 1 12 0 0 0 (FixedZone "Local" 0)).Date = (2026, 1, 1) := by decide
  obtain ⟨c, t1, t2, _, _, _, _, _, _, _, _, _, _, _, _, h1, h2, _, _, _⟩ :=
    CalculateSunriseSunset_ordered 0 roundTripLatitude 0.72604224
      (Date 2026 1 1 12 0 0 0 (FixedZone "Local" 0))
      (Date 2026 1 1 6 0 0 0 (FixedZone "Local" 0)) (Date 2026 1 1 18 0 0 0 (FixedZone "Local" 0))
      1 (by rw [hdate]; decide) CalculateSunriseSunset_roundTrip (by decide)
      (by rw [cosH0_roundTrip]; exact fun h => F64.noConfusion h)
  exact ⟨CalculateSunriseSunset_roundTrip, h1, h2⟩

/-! ## The clock reading of a returned sunrise -/

/-- The clock reading in hours is the second of the day over 3600. -/
theorem standardTime_eq (t : Time) :
    standardTime t = ((t.localSec % 86400 : Int) : ℝ) / 3600 := by
  unfold standardTime Time.Clock
  simp only []
  have e1 := Int.ediv_add_emod (t.localSec % 86400) 3600
  have e2 := Int.ediv_add_emod (t.localSec % 86400 % 3600) 60
  have e3 : t.localSec % 86400 % 3600 % 60 = t.localSec % 86400 % 60 :=
    Int.emod_emod_of_dvd _ (by norm_num)
  rw [e3] at e2
  have e4 : ((t.localSec % 86400 : Int) : ℝ)
      = 3600 * ((t.localSec % 86400 / 3600 : Int) : ℝ)
        + (60 * ((t.localSec % 86400 % 3600 / 60 : Int) : ℝ)
          + ((t.localSec % 86400 % 60 : Int) : ℝ)) := by
    rw [← e2] at e1
    exact_mod_cast e1.symm
  rw [e4]
  norm_num
  ring

/-- Seconds on the local wall clock of an instant `d` nanoseconds after the UTC
midnight of a date, read in a zone: whole days, the whole seconds of `d`, and
the offset of the zone. -/
theorem localSec_midnight_add (year month day d : Int) (l : Location) :
    ∃ days : Int, (((Date year month day 0 0 0 0 (FixedZone "UTC" 0)).Add d).In l).localSec
      = days * 86400 + (d / 1000000000 + l.offset) := by
  refine ⟨daysBeforeYear (year + (month - 1) / 12)
    + daysBefore (isLeapYear (year + (month - 1) / 12)) ((month - 1) % 12 + 1) + (day - 1), ?_⟩
  unfold Time.localSec Time.In Time.Add Date Time.offset FixedZone
  simp only []
  have e : ∀ D : Int, ((D * 86400 + 0 * 3600 + 0 * 60 + 0 - 0) * 1000000000 + 0 + d) / 1000000000
      = D * 86400 + d / 1000000000 := by
    intro D
    have : (D * 86400 + 0 * 3600 + 0 * 60 + 0 - 0) * 1000000000 + 0 + d
        = d + (D * 86400) * 1000000000 := by ring
    rw [this, Int.add_mul_ediv_right _ _ (by norm_num)]
    ring
  rw [e]
  ring

/-- The clock reading, in hours, of such an instant: the whole seconds of `d`
plus the offset, less whole days. -/
theorem standardTime_midnight_add (year month day d : Int) (l : Location) :
    ∃ j : Int, standardTime (((Date year month day 0 0 0 0 (FixedZone "UTC" 0)).Add d).In l)
      = (((d / 1000000000 : Int) : ℝ) + (l.offset : ℝ)) / 3600 - 24 * (j : ℝ) := by
  obtain ⟨days, hd⟩ := localSec_midnight_add year month day d l
  rw [standardTime_eq, hd]
  refine ⟨(d / 1000000000 + l.offset) / 86400, ?_⟩
  have e1 : (days * 86400 + (d / 1000000000 + l.offset)) % 86400
      = (d / 1000000000 + l.offset) % 86400 := by
    rw [add_comm, Int.add_mul_emod_self]
  have e2 := Int.ediv_add_emod (d / 1000000000 + l.offset) 86400
  have e3 : (((d / 1000000000 + l.offset) % 86400 : Int) : ℝ)
      = ((d / 1000000000 : Int) : ℝ) + (l.offset : ℝ)
        - 86400 * (((d / 1000000000 + l.offset) / 86400 : Int) : ℝ) := by
    have : (d / 1000000000 + l.offset) % 86400
        = d / 1000000000 + l.offset - 86400 * ((d / 1000000000 + l.offset) / 86400) := by
      omega
    rw [this]
    push_cast
    ring
  rw [e1, e3]
  ring

/-- The whole seconds of a duration cut to nanoseconds lie within a second below
(and a nanosecond above) the untruncated number of seconds. -/
theorem toInt_seconds (x : ℝ) :
    -(1 / 1000000000) < x - ((toInt (x * 1000000000) / 1000000000 : Int) : ℝ) ∧
      x - ((toInt (x * 1000000000) / 1000000000 : Int) : ℝ) < 1 := by
  have hn := toInt_near (x * 1000000000)
  rw [abs_lt] at hn
  have e1 := Int.ediv_add_emod (toInt (x * 1000000000)) 1000000000
  have e2 := Int.emod_nonneg (toInt (x * 1000000000)) (by norm_num : (1000000000 : Int) ≠ 0)
  have e3 := Int.emod_lt_of_pos (toInt (x * 1000000000)) (by norm_num : (0 : Int) < 1000000000)
  have l1 : (1000000000 : ℝ) * ((toInt (x * 1000000000) / 1000000000 : Int) : ℝ)
      ≤ ((toInt (x * 1000000000) : Int) : ℝ) := by
    have : 1000000000 * (toInt (x * 1000000000) / 1000000000) ≤ toInt (x * 1000000000) := by
      omega
    exact_mod_cast this
  have l2 : ((toInt (x * 1000000000) : Int) : ℝ)
      ≤ 1000000000 * ((toInt (x * 1000000000) / 1000000000 : Int) : ℝ) + 999999999 := by
    have : toInt (x * 1000000000)
        ≤ 1000000000 * (toInt (x * 1000000000) / 1000000000) + 999999999 := by
      omega
    exact_mod_cast this
  constructor <;> linarith

/-- A whole number of seconds is read back exactly. -/
theorem toInt_seconds_exact (x : ℝ) (m : Int) (h : x = m) :
    ((toInt (x * 1000000000) / 1000000000 : Int) : ℝ) = x := by
  have e : x * 1000000000 = ((m * 1000000000 : Int) : ℝ) := by
    rw [h]
    push_cast
    ring
  rw [e, toInt_intCast, Int.mul_ediv_cancel _ (by norm_num), h]

/-- The two loops change the corrected time by a whole number of days. -/
theorem calculateSolarTimeAccurate_mod (dateTime : Time) (longitude equationOfTime : ℝ) :
    ∃ k : Int, calculateSolarTimeAccurate dateTime longitude equationOfTime
      = correctedTime (standardTime dateTime) longitude equationOfTime + 24 * (k : ℝ) := by
  obtain ⟨i, _, _, hi⟩ :=
    addLoop_passes (correctedTime (standardTime dateTime) longitude equationOfTime)
  obtain ⟨j, _, _, hj⟩ :=
    subLoop_passes (addLoop (correctedTime (standardTime dateTime) longitude equationOfTime))
  refine ⟨(i : Int) - (j : Int), ?_⟩
  unfold calculateSolarTimeAccurate
  rw [hj, hi]
  push_cast
  ring

/-- The solar time that `calculateSolarTimeAccurate` computes at an instant
`x` hours (cut to nanoseconds) after the UTC midnight of a date, read in the
zone of the longitude: the whole seconds of `x`, moved by the longitude and the
equation of time, up to whole days. -/
theorem solarTime_midnight_add (year month day : Int) (x longitude equationOfTime : ℝ) :
    ∃ k : Int, calculateSolarTimeAccurate
        (((Date year month day 0 0 0 0 (FixedZone "UTC" 0)).Add
          (toInt (x * 3600000000000))).In (FixedZone "Local" (tzOffsetHours longitude * 3600)))
        longitude equationOfTime
      = ((toInt (x * 3600000000000) / 1000000000 : Int) : ℝ) / 3600
        + longitude / 15 + equationOfTime / 60 + 24 * (k : ℝ) := by
  obtain ⟨k, hk⟩ := calculateSolarTimeAccurate_mod
    (((Date year month day 0 0 0 0 (FixedZone "UTC" 0)).Add
      (toInt (x * 3600000000000))).In (FixedZone "Local" (tzOffsetHours longitude * 3600)))
    longitude equationOfTime
  obtain ⟨j, hj⟩ := standardTime_midnight_add year month day (toInt (x * 3600000000000))
    (FixedZone "Local" (tzOffsetHours longitude * 3600))
  refine ⟨k - j, ?_⟩
  rw [hk, hj]
  have htz : ((tzOffsetHours longitude : Int) : ℝ) = mathRound (longitude / 15.0) :=
    toInt_mathRound _
  unfold correctedTime standardMeridian FixedZone
  simp only []
  push_cast
  rw [htz]
  norm_num
  ring

/-- The cosine moves by at most the size of the step. -/
theorem abs_cos_sub_cos_le (x y : ℝ) : |Real.cos x - Real.cos y| ≤ |x - y| := by
  rw [Real.cos_sub_cos, abs_mul, abs_mul]
  have h1 : |(-2 : ℝ)| = 2 := by norm_num
  have h2 := Real.abs_sin_le_one ((x + y) / 2)
  have h3 := Real.abs_sin_le_abs (x := (x - y) / 2)
  have h4 : |(x - y) / 2| = |x - y| / 2 := by
    rw [abs_div]
    norm_num
  rw [h1]
  rw [h4] at h3
  have h5 := abs_nonneg (Real.sin ((x - y) / 2))
  have h6 := abs_nonneg (Real.sin ((x + y) / 2))
  nlinarith

/-- The angle of -0.833° in radians. -/
theorem h0_range : -0.01454 < -0.833 * Real.pi / 180 ∧ -0.833 * Real.pi / 180 < -0.01453 := by
  have hpi := pi_gt_31415
  have hpi2 := pi_lt_31416
  constructor <;> linarith

/-- Over a step of 0.0001 rad near the horizon the sine moves by at least 9.9e-5. -/
theorem sin_step (u : ℝ) (hu : |u| ≤ 0.015) :
    (0.000099 : ℝ) ≤ 2 * Real.sin (0.0001 / 2) * Real.cos u := by
  have hc := Real.one_sub_sq_div_two_le_cos (x := u)
  have hu2 : u ^ 2 ≤ 0.015 ^ 2 := by
    rw [abs_le] at hu
    nlinarith
  have hc2 : (0.9998 : ℝ) ≤ Real.cos u := by
    norm_num at hu2 ⊢
    linarith
  have hsn : (0.0000499 : ℝ) ≤ Real.sin (0.0001 / 2) := by
    have := Real.sin_gt_sub_cube (x := 0.0001 / 2) (by norm_num) (by norm_num)
    norm_num at this ⊢
    linarith
  have hm : (0.0000499 : ℝ) * 0.9998 ≤ Real.sin (0.0001 / 2) * Real.cos u :=
    mul_le_mul hsn hc2 (by norm_num) (by linarith)
  norm_num at hm ⊢
  linarith

/-- The sine 0.0001 rad above -0.833°. -/
theorem sin_h0_up (b : ℝ) (hb1 : -0.01454 < b) (hb2 : b < -0.01453) :
    Real.sin b + 0.000073 ≤ Real.sin (b + 0.0001) := by
  have e := Real.sin_sub_sin (b + 0.0001) b
  have e1 : (b + 0.0001 - b) / 2 = 0.0001 / 2 := by ring
  rw [e1] at e
  have := sin_step ((b + 0.0001 + b) / 2) (by rw [abs_le]; constructor <;> linarith)
  linarith

/-- The sine 0.0001 rad below -0.833°. -/
theorem sin_h0_down (b : ℝ) (hb1 : -0.01454 < b) (hb2 : b < -0.01453) :
    Real.sin (b - 0.0001) ≤ Real.sin b - 0.000073 := by
  have e := Real.sin_sub_sin b (b - 0.0001)
  have e1 : (b - (b - 0.0001)) / 2 = 0.0001 / 2 := by ring
  rw [e1] at e
  have := sin_step ((b + (b - 0.0001)) / 2) (by rw [abs_le]; constructor <;> linarith)
  linarith

/-- An arc sine of a value within 7.3e-5 of `sin b`, `b` near -0.833°, is within
0.0001 of `b`. -/
theorem arcsin_near (s b : ℝ) (hb1 : -0.01454 < b) (hb2 : b < -0.01453)
    (h1 : Real.sin b - 0.000073 ≤ s) (h2 : s ≤ Real.sin b + 0.000073) :
    b - 0.0001 ≤ Real.arcsin s ∧ Real.arcsin s ≤ b + 0.0001 := by
  have hpi := pi_gt_31415
  have r1 : -(Real.pi / 2) ≤ b - 0.0001 := by linarith
  have r2 : b - 0.0001 ≤ Real.pi / 2 := by linarith
  have r3 : -(Real.pi / 2) ≤ b + 0.0001 := by linarith
  have r4 : b + 0.0001 ≤ Real.pi / 2 := by linarith
  constructor
  · have := Real.monotone_arcsin (le_trans (sin_h0_down b hb1 hb2) h1)
    rwa [Real.arcsin_sin r1 r2] at this
  · have := Real.monotone_arcsin (le_trans h2 (sin_h0_up b hb1 hb2))
    rwa [Real.arcsin_sin r3 r4] at this

/-- An arc sine within 7.3e-5 of the sine of -0.833° is, in degrees, within
0.006 of -0.833. -/
theorem arcsin_near_h0 (s : ℝ)
    (hs : |s - Real.sin (-0.833 * Real.pi / 180)| ≤ 0.000073) :
    |Real.arcsin s * 180 / Real.pi - (-0.833)| ≤ 0.006 := by
  have hpi := pi_gt_31415
  have hpos := Real.pi_pos
  rw [abs_le] at hs
  obtain ⟨a1, a2⟩ := arcsin_near s (-0.833 * Real.pi / 180) h0_range.1 h0_range.2
    (by linarith [hs.1]) (by linarith [hs.2])
  clear hs
  rw [abs_le]
  constructor
  · rw [le_sub_iff_add_le, le_div_iff₀ hpos]
    linarith
  · rw [sub_le_iff_le_add, div_le_iff₀ hpos]
    linarith

/-- The truncation of a sunrise `x` hours after midnight to whole seconds, in
hours: between -1 ns and 1 s, and 0 for a whole number of seconds. -/
theorem sunrise_truncation (x : ℝ) :
    -(1 / 3600000000000) < x - ((toInt (x * 3600000000000) / 1000000000 : Int) : ℝ) / 3600 ∧
    x - ((toInt (x * 3600000000000) / 1000000000 : Int) : ℝ) / 3600 < 1 / 3600 ∧
    ((∃ m : Int, x * 3600 = m) →
      x - ((toInt (x * 3600000000000) / 1000000000 : Int) : ℝ) / 3600 = 0) := by
  have e : x * 3600000000000 = x * 3600 * 1000000000 := by ring
  rw [e]
  obtain ⟨t1, t2⟩ := toInt_seconds (x * 3600)
  refine ⟨?_, ?_, ?_⟩
  · linarith
  · linarith
  · rintro ⟨m, hm⟩
    rw [toInt_seconds_exact (x * 3600) m hm]
    field_simp

/-- With `cosH0 = c` finite, `sinAltitude` at an hour angle whose cosine is that
of `acos c + ε` is within `|ε|` of `sin(-0.833°)`. -/
theorem sinAltitude_near_h0 (latitude : ℝ) (n : Int) (c H ε : ℝ)
    (hc : cosH0 latitude n = F64.fin c) (h1 : -1 ≤ c) (h2 : c ≤ 1)
    (hH : Real.cos H = Real.cos (Real.arccos c + ε)) :
    |sinAltitude (latitude * Real.pi / 180) (calculateDeclinationAccurate n) H
      - Real.sin (-0.833 * Real.pi / 180)| ≤ |ε| := by
  obtain ⟨hden, hcq⟩ := F64.div_eq_fin (by unfold cosH0 at hc; exact hc)
  have e180 : latitude * Real.pi / 180.0 = latitude * Real.pi / 180 := by norm_num
  have e833 : -0.833 * Real.pi / 180.0 = -0.833 * Real.pi / 180 := by norm_num
  rw [e180] at hden
  rw [e180, e833] at hcq
  have hs : Real.sin (-0.833 * Real.pi / 180)
      = Real.sin (latitude * Real.pi / 180) * Real.sin (calculateDeclinationAccurate n)
        + Real.cos (latitude * Real.pi / 180) * Real.cos (calculateDeclinationAccurate n) * c := by
    rw [hcq]
    field_simp
  have hd : sinAltitude (latitude * Real.pi / 180) (calculateDeclinationAccurate n) H
      - Real.sin (-0.833 * Real.pi / 180)
      = Real.cos (latitude * Real.pi / 180) * Real.cos (calculateDeclinationAccurate n)
        * (Real.cos (Real.arccos c + ε) - Real.cos (Real.arccos c)) := by
    rw [hs, Real.cos_arccos h1 h2]
    unfold sinAltitude
    rw [hH]
    ring
  rw [hd, abs_mul, abs_mul]
  have b1 := Real.abs_cos_le_one (latitude * Real.pi / 180)
  have b2 := Real.abs_cos_le_one (calculateDeclinationAccurate n)
  have b3 := abs_cos_sub_cos_le (Real.arccos c + ε) (Real.arccos c)
  rw [add_sub_cancel_left] at b3
  have b4 : |Real.cos (latitude * Real.pi / 180)| * |Real.cos (calculateDeclinationAccurate n)|
      ≤ 1 := by
    have := mul_le_mul b1 b2 (abs_nonneg _) (by norm_num)
    linarith
  calc |Real.cos (latitude * Real.pi / 180)| * |Real.cos (calculateDeclinationAccurate n)|
        * |Real.cos (Real.arccos c + ε) - Real.cos (Real.arccos c)|
      ≤ 1 * |ε| := mul_le_mul b4 b3 (abs_nonneg _) (by norm_num)
    _ = |ε| := one_mul _

/-- C4: when `CalculateSunriseSunset` returns a sunrise (a finite `cosH0 = c` in
[-1,1]) that falls on the same local calendar date, `CalculateSunPosition`
evaluated at that sunrise reads its clock to the whole second, a truncation `δ`
of the sunrise hour with `-1 ns < δ < 1 s`, and computes the solar time
`12 - deltaHours - δ` up to whole days, an hour angle with the cosine of
`-(acos c + δ·π/12)`, a `sinAltitude` within `|δ|·π/12` of `sin(-0.833°)` and a
geometric altitude within 0.006° of -0.833°, to which it adds the refraction
correction `0.57644·exp(-0.00149·altitude) - 0.07156`.  With the truncation
ignored (`δ = 0`, which holds when the sunrise is a whole number of seconds
after midnight) the solar time is `12 - deltaHours`, the hour angle `-acos c`,
`sinAltitude = sin(-0.833°)` and the altitude `-0.833°` plus its correction. -/
theorem sunrise_round_trip (nanDuration : Int) (latitude longitude : ℝ) (date : Time)
    (n : Int) (c : ℝ) (sunrise sunset : Time)
    (hn : daysSinceJan1 date.Date.1 date.Date.2.1 date.Date.2.2 = some n)
    (hc : cosH0 latitude n = F64.fin c) (h1 : -1 ≤ c) (h2 : c ≤ 1)
    (hr : CalculateSunriseSunset nanDuration latitude longitude date = some (sunrise, sunset))
    (hdate : sunrise.Date = date.Date) :
    ∃ (δ : ℝ) (k : Int) (altitude : ℝ) (azimuth : F64),
      δ = solarNoonUTC longitude n - deltaHours c
        - ((toInt ((solarNoonUTC longitude n - deltaHours c) * 3600000000000) / 1000000000
            : Int) : ℝ) / 3600 ∧
      -(1 / 3600000000000) < δ ∧ δ < 1 / 3600 ∧
      ((∃ m : Int, (solarNoonUTC longitude n - deltaHours c) * 3600 = m) → δ = 0) ∧
      calculateSolarTimeAccurate sunrise longitude (calculateEquationOfTimeAccurate n)
        = 12 - deltaHours c - δ + 24 * (k : ℝ) ∧
      Real.cos (hourAngle (calculateSolarTimeAccurate sunrise longitude
          (calculateEquationOfTimeAccurate n)))
        = Real.cos (-(Real.arccos c + δ * Real.pi / 12)) ∧
      |sinAltitude (latitude * Real.pi / 180) (calculateDeclinationAccurate n)
          (hourAngle (calculateSolarTimeAccurate sunrise longitude
            (calculateEquationOfTimeAccurate n)))
        - Real.sin (-0.833 * Real.pi / 180)| ≤ |δ| * Real.pi / 12 ∧
      altitude = Real.arcsin (sinAltitude (latitude * Real.pi / 180)
        (calculateDeclinationAccurate n) (hourAngle (calculateSolarTimeAccurate sunrise
          longitude (calculateEquationOfTimeAccurate n)))) * 180 / Real.pi ∧
      |altitude - (-0.833)| ≤ 0.006 ∧
      refractionCorrection altitude = 0.57644 * Real.exp (-0.00149 * altitude) - 0.07156 ∧
      CalculateSunPosition latitude longitude sunrise
        = some (altitude + refractionCorrection altitude, azimuth) ∧
      (δ = 0 →
        calculateSolarTimeAccurate sunrise longitude (calculateEquationOfTimeAccurate n)
          = 12 - deltaHours c ∧
        hourAngle (12 - deltaHours c) = -Real.arccos c ∧
        sinAltitude (latitude * Real.pi / 180) (calculateDeclinationAccurate n)
          (-Real.arccos c) = Real.sin (-0.833 * Real.pi / 180) ∧
        altitude = -0.833 ∧
        CalculateSunPosition latitude longitude sunrise
          = some (-0.833 + (0.57644 * Real.exp (-0.00149 * (-0.833)) - 0.07156), azimuth)) := by
  have hpi := Real.pi_pos
  have hpi2 := pi_lt_31416
  have hn2 : specDayOfYear sunrise.Date.1 sunrise.Date.2.1 sunrise.Date.2.2 = n := by
    have := daysSinceJan1_date date
    rw [hn] at this
    rw [hdate]
    exact (Option.some.inj this).symm
  obtain ⟨d1, d2⟩ := deltaHours_range c
  have hp := CalculateSunriseSunset_present nanDuration latitude longitude date n hn c hc h1 h2
  rw [hr] at hp
  have hrise : sunrise = _ := congrArg Prod.fst (Option.some.inj hp)
  simp only [] at hrise
  obtain ⟨t1, t2, t3⟩ := sunrise_truncation (solarNoonUTC longitude n - deltaHours c)
  obtain ⟨k, hk⟩ := solarTime_midnight_add date.Date.1 date.Date.2.1 date.Date.2.2
    (solarNoonUTC longitude n - deltaHours c) longitude (calculateEquationOfTimeAccurate n)
  rw [← hrise] at hk
  have hst : calculateSolarTimeAccurate sunrise longitude (calculateEquationOfTimeAccurate n)
      = 12 - deltaHours c
        - (solarNoonUTC longitude n - deltaHours c
          - ((toInt ((solarNoonUTC longitude n - deltaHours c) * 3600000000000) / 1000000000
              : Int) : ℝ) / 3600) + 24 * (k : ℝ) := by
    rw [hk]
    unfold solarNoonUTC
    norm_num
    ring
  have hD : deltaHours c * Real.pi / 12 = Real.arccos c := by
    unfold deltaHours
    rw [show (12.0 : ℝ) = 12 by norm_num, div_mul_cancel₀ _ hpi.ne', mul_div_assoc,
      div_self (by norm_num), mul_one]
  have hcos : ∀ δ : ℝ, Real.cos (hourAngle (12 - deltaHours c - δ + 24 * (k : ℝ)))
      = Real.cos (-(Real.arccos c + δ * Real.pi / 12)) := by
    intro δ
    have e : hourAngle (12 - deltaHours c - δ + 24 * (k : ℝ))
        = -(Real.arccos c + δ * Real.pi / 12) + (k : ℝ) * (2 * Real.pi) := by
      unfold hourAngle
      rw [← hD]
      norm_num
      ring
    rw [e, Real.cos_add_int_mul_two_pi]
  have hrange : 0 ≤ calculateSolarTimeAccurate sunrise longitude
      (calculateEquationOfTimeAccurate n) ∧
      calculateSolarTimeAccurate sunrise longitude (calculateEquationOfTimeAccurate n) < 24 := by
    unfold calculateSolarTimeAccurate
    exact subLoop_range (addLoop_nonneg _)
  have hnear := sinAltitude_near_h0 latitude n c
    (hourAngle (calculateSolarTimeAccurate sunrise longitude (calculateEquationOfTimeAccurate n)))
    ((solarNoonUTC longitude n - deltaHours c
      - ((toInt ((solarNoonUTC longitude n - deltaHours c) * 3600000000000) / 1000000000
          : Int) : ℝ) / 3600) * Real.pi / 12) hc h1 h2
    (by rw [hst, hcos, Real.cos_neg])
  have habs : |(solarNoonUTC longitude n - deltaHours c
      - ((toInt ((solarNoonUTC longitude n - deltaHours c) * 3600000000000) / 1000000000
          : Int) : ℝ) / 3600) * Real.pi / 12|
      = |solarNoonUTC longitude n - deltaHours c
        - ((toInt ((solarNoonUTC longitude n - deltaHours c) * 3600000000000) / 1000000000
            : Int) : ℝ) / 3600| * Real.pi / 12 := by
    rw [abs_div, abs_mul, abs_of_pos hpi]
    norm_num
  rw [habs] at hnear
  have hsmall : |solarNoonUTC longitude n - deltaHours c
      - ((toInt ((solarNoonUTC longitude n - deltaHours c) * 3600000000000) / 1000000000
          : Int) : ℝ) / 3600| * Real.pi / 12 ≤ 0.000073 := by
    have : |solarNoonUTC longitude n - deltaHours c
        - ((toInt ((solarNoonUTC longitude n - deltaHours c) * 3600000000000) / 1000000000
            : Int) : ℝ) / 3600| ≤ 1 / 3600 := by
      rw [abs_le]
      constructor <;> linarith
    have := mul_le_mul this hpi2.le hpi.le (by norm_num)
    linarith
  have halt := arcsin_near_h0 _ (le_trans hnear hsmall)
  have hlow : ¬ (Real.arcsin (sinAltitude (latitude * Real.pi / 180)
      (calculateDeclinationAccurate n) (hourAngle (calculateSolarTimeAccurate sunrise
        longitude (calculateEquationOfTimeAccurate n)))) * 180 / Real.pi > -0.575) := by
    rw [abs_le] at halt
    intro h
    linarith [halt.2]
  have hrefr : refractionCorrection (Real.arcsin (sinAltitude (latitude * Real.pi / 180)
      (calculateDeclinationAccurate n) (hourAngle (calculateSolarTimeAccurate sunrise
        longitude (calculateEquationOfTimeAccurate n)))) * 180 / Real.pi)
      = 0.57644 * Real.exp (-0.00149 * (Real.arcsin (sinAltitude (latitude * Real.pi / 180)
        (calculateDeclinationAccurate n) (hourAngle (calculateSolarTimeAccurate sunrise
          longitude (calculateEquationOfTimeAccurate n)))) * 180 / Real.pi)) - 0.07156 := by
    unfold refractionCorrection
    simp only []
    rw [if_neg hlow]
  have hpos : CalculateSunPosition latitude longitude sunrise
      = some (Real.arcsin (sinAltitude (latitude * Real.pi / 180)
          (calculateDeclinationAccurate n) (hourAngle (calculateSolarTimeAccurate sunrise
            longitude (calculateEquationOfTimeAccurate n)))) * 180 / Real.pi
        + refractionCorrection (Real.arcsin (sinAltitude (latitude * Real.pi / 180)
          (calculateDeclinationAccurate n) (hourAngle (calculateSolarTimeAccurate sunrise
            longitude (calculateEquationOfTimeAccurate n)))) * 180 / Real.pi),
        azimuthOf (latitude * Real.pi / 180) (calculateDeclinationAccurate n)
          (hourAngle (calculateSolarTimeAccurate sunrise longitude
            (calculateEquationOfTimeAccurate n)))
          (Real.arcsin (sinAltitude (latitude * Real.pi / 180)
              (calculateDeclinationAccurate n) (hourAngle (calculateSolarTimeAccurate sunrise
                longitude (calculateEquationOfTimeAccurate n)))) * 180 / Real.pi
            + refractionCorrection (Real.arcsin (sinAltitude (latitude * Real.pi / 180)
              (calculateDeclinationAccurate n) (hourAngle (calculateSolarTimeAccurate sunrise
                longitude (calculateEquationOfTimeAccurate n)))) * 180 / Real.pi))) := by
    rw [CalculateSunPosition_eq]
    simp only [hn2]
  refine ⟨_, k, _, _, rfl, t1, t2, t3, hst, by rw [hst, hcos], hnear, rfl, halt, hrefr, hpos, ?_⟩
  intro h0
  have hst0 : calculateSolarTimeAccurate sunrise longitude (calculateEquationOfTimeAccurate n)
      = 12 - deltaHours c := by
    rw [h0] at hst
    have hk0 : k = 0 := by
      have b1 : (k : ℝ) < 1 := by
        have := hrange.2
        rw [hst] at this
        linarith
      have b2 : (-1 : ℝ) < (k : ℝ) := by
        have := hrange.1
        rw [hst] at this
        linarith
      have c1 : k < 1 := by exact_mod_cast b1
      have c2 : -1 < k := by exact_mod_cast b2
      omega
    rw [hst, hk0]
    norm_num
  have hha : hourAngle (12 - deltaHours c) = -Real.arccos c := by
    unfold hourAngle deltaHours
    field_simp
    ring
  have hsa : sinAltitude (latitude * Real.pi / 180) (calculateDeclinationAccurate n)
      (-Real.arccos c) = Real.sin (-0.833 * Real.pi / 180) := by
    have := sinAltitude_near_h0 latitude n c (-Real.arccos c) 0 hc h1 h2
      (by rw [add_zero, Real.cos_neg])
    rw [abs_zero] at this
    have := abs_nonneg (sinAltitude (latitude * Real.pi / 180) (calculateDeclinationAccurate n)
      (-Real.arccos c) - Real.sin (-0.833 * Real.pi / 180))
    have h3 : |sinAltitude (latitude * Real.pi / 180) (calculateDeclinationAccurate n)
      (-Real.arccos c) - Real.sin (-0.833 * Real.pi / 180)| = 0 := le_antisymm ‹_› this
    exact sub_eq_zero.1 (abs_eq_zero.1 h3)
  have hasin : Real.arcsin (sinAltitude (latitude * Real.pi / 180)
      (calculateDeclinationAccurate n) (hourAngle (calculateSolarTimeAccurate sunrise
        longitude (calculateEquationOfTimeAccurate n)))) * 180 / Real.pi = -0.833 := by
    rw [hst0, hha, hsa, Real.arcsin_sin (by nlinarith) (by nlinarith)]
    field_simp
    ring
  refine ⟨hst0, hha, hsa, hasin, ?_⟩
  rw [hpos, hrefr, hasin]

/-- Witness of C4: on 1 January 2026 at longitude 0.72604224 and the latitude
(about 2.13°) at which `cosH0 = 0`, the sunrise is returned as 06:00:00 local
time of the same date, a whole number of seconds, and `CalculateSunPosition`
there returns the altitude `-0.833 + (0.57644·exp(0.00149·0.833) - 0.07156)`. -/
theorem sunrise_round_trip_witness :
    CalculateSunriseSunset 0 roundTripLatitude 0.72604224
        (Date 2026 1 1 12 0 0 0 (FixedZone "Local" 0)) =
      some (Date 2026 1 1 6 0 0 0 (FixedZone "Local" 0),
        Date 2026 1 1 18 0 0 0 (FixedZone "Local" 0)) ∧
    ∃ azimuth : F64, CalculateSunPosition roundTripLatitude 0.72604224
        (Date 2026 1 1 6 0 0 0 (FixedZone "Local" 0)) =
      some (-0.833 + (0.57644 * Real.exp (-0.00149 * (-0.833)) - 0.07156), azimuth) := by
  refine ⟨CalculateSunriseSunset_roundTrip, ?_⟩
  have hdate : (Date 2026 1 1 12 0 0 0 (FixedZone "Local" 0)).Date = (2026, 1, 1) := by decide
  obtain ⟨δ, k, altitude, azimuth, hδ, _, _, hz, _, _, _, _, _, _, _, hex⟩ :=
    sunrise_round_trip 0 roundTripLatitude 0.72604224
      (Date 2026 1 1 12 0 0 0 (FixedZone "Local" 0)) 1 0
      (Date 2026 1 1 6 0 0 0 (FixedZone "Local" 0)) (Date 2026 1 1 18 0 0 0 (FixedZone "Local" 0))
      (by rw [hdate]; decide) cosH0_roundTrip (by norm_num) (by norm_num)
      CalculateSunriseSunset_roundTrip (by decide)
  have h0 : δ = 0 := by
    apply hz
    refine ⟨21600, ?_⟩
    rw [solarNoonUTC_roundTrip, deltaHours_zero]
    norm_num
  exact ⟨azimuth, (hex h0).2.2.2.2⟩

/-! ## The solar calculator in `float64` arithmetic: evaluations -/

section Float64Evaluations

open Binary64

set_option maxRecDepth 100000

/-- A value of at least 24 that the subtraction of 24 leaves unchanged keeps the
loop `for correctedTime >= 24 { correctedTime -= 24 }` running. -/
theorem subLoop64_noExit (x : Binary64) (h1 : ge x (ofInt 24) = true)
    (h2 : x - ofInt 24 = x) (fuel : Nat) : subLoop64 fuel x = Run.noExit := by
  induction fuel with
  | zero => rfl
  | succ n ih =>
    unfold subLoop64
    rw [h1, if_pos rfl, h2, ih]

/-- Day 1: both functions of the day of the year meet `Sin` and `Cos` at 0 only. -/
theorem equationOfTime64_jan1 (lib : MathLib) :
    calculateEquationOfTimeAccurate64 lib 1 = lit (-290416896) (-8) := by
  rfl

/-- The declination of day 1 in `float64`. -/
theorem declination64_jan1 (lib : MathLib) :
    calculateDeclinationAccurate64 lib 1 = lit (-402449) (-6) := by
  rfl

/-- At longitude 0.72604224 on 1 January at 12:00 the solar time is 12 exactly. -/
theorem solarTime64_noon (fuel : Nat) :
    calculateSolarTimeAccurate64 (fuel + 1) (Date 2026 1 1 12 0 0 0 (FixedZone "Local" 0))
      (lit 72604224 (-8)) (lit (-290416896) (-8)) = Run.value (ofInt 12) := by
  rfl

/-- `CalculateSunPosition` in `float64` on 1 January 2026 in terms of the solar
time. -/
theorem CalculateSunPosition64_jan1 (lib : MathLib) (fuel : Nat) (latitude longitude : Binary64) :
    CalculateSunPosition64 lib fuel latitude longitude
        (Date 2026 1 1 12 0 0 0 (FixedZone "Local" 0)) =
      match calculateSolarTimeAccurate64 fuel (Date 2026 1 1 12 0 0 0 (FixedZone "Local" 0))
          longitude (lit (-290416896) (-8)) with
      | Run.value solarTime => Run.value (sunPositionAt64 lib (latitude * Pi / ofInt 180)
          (lit (-402449) (-6)) solarTime)
      | Run.noExit => Run.noExit
      | Run.panic => Run.panic := by
  rfl

/-- C7 (code bug): with the clock at 12:00:00, the longitude
6.6114050751775464e35 and the equation of time -2.90416896 of 1 January, the
`float64` value `correctedTime` is 4919131752989213696; it is at least 24 and
`correctedTime - 24` rounds back to it, so the loop
`for correctedTime >= 24 { correctedTime -= 24 }` of
`calculateSolarTimeAccurate` does not exit within any number of passes, and
neither does `CalculateSunPosition` at that longitude, whatever the latitude. -/
theorem calculateSolarTimeAccurate64_noExit (fuel : Nat) :
    correctedTime64 (Date 2026 1 1 12 0 0 0 (FixedZone "Local" 0))
      (lit 66114050751775464 19) (lit (-290416896) (-8)) = lit 4919131752989213696 0 ∧
    ge (lit 4919131752989213696 0) (ofInt 24) = true ∧
    lit 4919131752989213696 0 - ofInt 24 = lit 4919131752989213696 0 ∧
    calculateSolarTimeAccurate64 fuel (Date 2026 1 1 12 0 0 0 (FixedZone "Local" 0))
      (lit 66114050751775464 19) (lit (-290416896) (-8)) = Run.noExit ∧
    ∀ (lib : MathLib) (latitude : Binary64),
      CalculateSunPosition64 lib fuel latitude (lit 66114050751775464 19)
        (Date 2026 1 1 12 0 0 0 (FixedZone "Local" 0)) = Run.noExit := by
  have h0 : correctedTime64 (Date 2026 1 1 12 0 0 0 (FixedZone "Local" 0))
      (lit 66114050751775464 19) (lit (-290416896) (-8)) = lit 4919131752989213696 0 := by
    decide
  have h1 : ge (lit 4919131752989213696 0) (ofInt 24) = true := by decide
  have h2 : lit 4919131752989213696 0 - ofInt 24 = lit 4919131752989213696 0 := by decide
  have h3 : calculateSolarTimeAccurate64 fuel (Date 2026 1 1 12 0 0 0 (FixedZone "Local" 0))
      (lit 66114050751775464 19) (lit (-290416896) (-8)) = Run.noExit := by
    unfold calculateSolarTimeAccurate64
    rw [h0]
    cases fuel with
    | zero => rfl
    | succ n =>
      have ha : addLoop64 (n + 1) (lit 4919131752989213696 0)
          = Run.value (lit 4919131752989213696 0) := by
        unfold addLoop64
        rw [if_neg (by decide)]
      rw [ha]
      exact subLoop64_noExit _ h1 h2 (n + 1)
  refine ⟨h0, h1, h2, h3, ?_⟩
  intro lib latitude
  rw [CalculateSunPosition64_jan1 lib fuel latitude _, h3]

/-- C11 (code bug): at latitude -23.058629169261735° on 1 January (declination
-0.402449 rad) with hour angle 0, the `float64` value `sinAltitude` is
1.0000000000000002, above 1, and `math.Asin` of it is NaN: the arc sine is
applied outside its domain. -/
theorem sinAltitude64_above_one (lib : MathLib) :
    sinAltitude64 lib (lit (-23058629169261735) (-15) * Pi / ofInt 180)
      (calculateDeclinationAccurate64 lib 1) (fin 0) = lit 10000000000000002 (-16) ∧
    lt (ofInt 1) (lit 10000000000000002 (-16)) = true ∧
    Asin lib (sinAltitude64 lib (lit (-23058629169261735) (-15) * Pi / ofInt 180)
      (calculateDeclinationAccurate64 lib 1) (fin 0)) = nan := by
  refine ⟨rfl, by decide, rfl⟩

/-- C15 (code bug): `CalculateSunPosition` in `float64` at latitude
-23.058629169261735°, longitude 0.72604224°, 1 January 2026 12:00 in the zone
of offset 0 returns NaN for the altitude and NaN for the azimuth, not a pair of
numbers. -/
theorem CalculateSunPosition64_nan (lib : MathLib) (fuel : Nat) :
    CalculateSunPosition64 lib (fuel + 1) (lit (-23058629169261735) (-15)) (lit 72604224 (-8))
      (Date 2026 1 1 12 0 0 0 (FixedZone "Local" 0)) = Run.value (nan, nan) := by
  rw [CalculateSunPosition64_jan1 lib (fuel + 1) _ _, solarTime64_noon fuel]
  rfl

/-- C8 (code bug): at latitude -23.05862869187138°, above the declination of
1 January, and longitude 0.72604224° at 12:00 the solar time is 12 exactly, yet
`CalculateSunPosition` in `float64` returns the azimuth NaN, not 180. -/
theorem CalculateSunPosition64_noon_nan (lib : MathLib) (fuel : Nat) :
    lt (calculateDeclinationAccurate64 lib 1)
      (lit (-2305862869187138) (-14) * Pi / ofInt 180) = true ∧
    calculateSolarTimeAccurate64 (fuel + 1) (Date 2026 1 1 12 0 0 0 (FixedZone "Local" 0))
      (lit 72604224 (-8)) (calculateEquationOfTimeAccurate64 lib 1) = Run.value (ofInt 12) ∧
    CalculateSunPosition64 lib (fuel + 1) (lit (-2305862869187138) (-14)) (lit 72604224 (-8))
      (Date 2026 1 1 12 0 0 0 (FixedZone "Local" 0)) = Run.value (nan, nan) ∧
    (nan : Binary64) ≠ ofInt 180 := by
  refine ⟨rfl, ?_, ?_, by decide⟩
  · rw [equationOfTime64_jan1 lib]
    exact solarTime64_noon fuel
  · rw [CalculateSunPosition64_jan1 lib (fuel + 1) _ _, solarTime64_noon fuel]
    rfl

/-- C1 (code bug): two ways out of [0, 360).  At latitude -23.058629169261735°,
longitude 0.72604224°, 1 January 2026 12:00 the azimuth that
`CalculateSunPosition` returns in `float64` is NaN, which is neither at least 0
nor below 360.  And at longitude -0.71248241185445071° on 30 May 2026 12:00 the
solar time is 11.999999999999998, just before noon, where at latitude -70° the
azimuth before the last step is negative and about -2.5e-14; the statement
`if azimuth < 0 { azimuth += 360 }` turns every negative azimuth of size up to
2^-45 into 360 exactly, which is not below 360. -/
theorem CalculateSunPosition64_azimuth_out_of_range (lib : MathLib) (fuel : Nat) :
    (∃ altitude azimuth : Binary64,
      CalculateSunPosition64 lib (fuel + 1) (lit (-23058629169261735) (-15))
        (lit 72604224 (-8)) (Date 2026 1 1 12 0 0 0 (FixedZone "Local" 0))
          = Run.value (altitude, azimuth) ∧
      ge azimuth (ofInt 0) = false ∧ lt azimuth (ofInt 360) = false) ∧
    calculateSolarTimeAccurate64 (fuel + 1) (Date 2026 5 30 12 0 0 0 (FixedZone "Local" 0))
      (lit (-71248241185445071) (-17)) (calculateEquationOfTimeAccurate64 lib 150)
        = Run.value (lit 11999999999999998 (-15)) ∧
    lt (lit 11999999999999998 (-15)) (ofInt 12) = true ∧
    normalizeAzimuth64 (lit (-24775342681701647) (-30)) = ofInt 360 ∧
    normalizeAzimuth64 (fin (-(pow2 1029 : Nat))) = ofInt 360 ∧
    lt (ofInt 360) (ofInt 360) = false := by
  refine ⟨⟨nan, nan, ?_, rfl, rfl⟩, rfl, by decide, by decide, by decide, by decide⟩
  rw [CalculateSunPosition64_jan1 lib (fuel + 1) _ _, solarTime64_noon fuel]
  rfl

end Float64Evaluations

end SunPosition
